import Mathlib

/-!
# SmokeSimulator: the host-side stencil stages of `Simulator.cpp`

A shallow embedding of `src/particle_system/particle/Simulator.cpp` and of `reset` and
`setEnvTemperature` of `src/src/particle/Simulator.h`.

* Every field array (`u`, `density`, `fx`, ...) is a map from the flat index to its value.
  Arithmetic is exact: `ℚ` stands for `double`, so rounding is not modelled.
* The right-hand side of `calculate_pressure` is embedded a second time on `Double`, finite
  exact values together with `±∞` and NaN, because its masks are applied by multiplication.
* Loop counters and grid sizes are C++ `int`s; they are embedded as `Int`. The flat index
  `(k * Ny + j) * Nx + i` is assumed not to overflow `int` (the arrays have `SIZE` entries).
* A stage is a function `State → State`; a loop is a left fold of its body over the list of
  cells it visits, in visiting order, so in-place sequential updates are kept as they are.
-/

namespace SmokeSim

/-- A field array, addressed by flat index. -/
abbrev Field := Int → ℚ

/-- The two emitter positions of `EMITTER_POS`. -/
inductive EmitterPos where
  | E_TOP
  | E_BOTTOM
  deriving DecidableEq, Repr

/-- Modelled from the spec: the compile-time constants of spec §6 that `Simulator.cpp` reads
(`Nx`, `Ny`, `Nz`, `VOXEL_SIZE` = h, `DT` = dt, ...); the header that defines them is not part
of the source, so they are parameters of every stage. -/
structure Config where
  Nx : Int
  Ny : Int
  Nz : Int
  VOXEL_SIZE : ℚ
  DT : ℚ
  ALPHA : ℚ
  BETA : ℚ
  T_AMBIENT : ℚ
  VORT_EPS : ℚ
  INIT_DENSITY : ℚ
  INIT_VELOCITY : ℚ
  EMIT_DURATION : ℚ
  FINISH_TIME : ℚ
  SOURCE_SIZE_X : Int
  SOURCE_SIZE_Y : Int
  SOURCE_SIZE_Z : Int
  SOURCE_Y_MERGIN : Int
  EMITTER_POS : EmitterPos

/-- The mutable data of a `Simulator`: the arrays used by `Simulator.cpp`, the occupancy mask,
the clock `m_time`, and `envTemp_` of `Simulator.h`. -/
structure State where
  u : Field
  v : Field
  w : Field
  u0 : Field
  v0 : Field
  w0 : Field
  density : Field
  density0 : Field
  temperature : Field
  temperature0 : Field
  pressure : Field
  fx : Field
  fy : Field
  fz : Field
  avg_u : Field
  avg_v : Field
  avg_w : Field
  omg_x : Field
  omg_y : Field
  omg_z : Field
  vort : Field
  b : Field
  x : Field
  transparency : Field
  m_occupied_voxels : Int → Bool
  m_time : ℚ
  envTemp_ : ℚ

/-- Modelled from the spec: the macro `ACC3D(i, j, k, Ny, Nx)` is not part of the source;
spec §3 fixes the flat index as `idx(i,j,k) = (k·Ny + j)·Nx + i`. The accessors `u(i, j, k)`,
`density(i, j, k)` address the same layout (spec §4.1). -/
def ACC3D (i j k Ny Nx : Int) : Int := (k * Ny + j) * Nx + i

/-- The values `lo, lo+1, ..., hi-1` taken by `for (int n = lo; n < hi; ++n)`. -/
def intRange (lo hi : Int) : List Int :=
  (List.range (hi - lo).toNat).map (fun (n : Nat) => lo + (n : Int))

/-- The cells `(i, j, k)` visited by the loop nest `for k ... for j ... for i ...`, in order. -/
def boxCells (klo khi jlo jhi ilo ihi : Int) : List (Int × Int × Int) :=
  (intRange klo khi).flatMap fun k =>
    (intRange jlo jhi).flatMap fun j =>
      (intRange ilo ihi).map fun i => (i, j, k)

/-- Run `body i j k` for every cell of a loop nest, threading the state. -/
def forBox (cells : List (Int × Int × Int)) (body : Int → Int → Int → State → State)
    (s : State) : State :=
  cells.foldl (fun s c => body c.1 c.2.1 c.2.2 s) s

/-- The cells of the grid in the order `FOR_EACH_CELL` visits them. -/
def gridCells (cfg : Config) : List (Int × Int × Int) :=
  boxCells 0 cfg.Nz 0 cfg.Ny 0 cfg.Nx

/-- Modelled from the spec: the macro `FOR_EACH_CELL` is not part of the source; it iterates
`(i, j, k)` over `0 ≤ i < Nx`, `0 ≤ j < Ny`, `0 ≤ k < Nz` (spec §3, §4), here with `k`
outermost and `i` innermost as in the explicit loop nests of `addSource`. -/
def FOR_EACH_CELL (cfg : Config) (body : Int → Int → Int → State → State) (s : State) : State :=
  forBox (gridCells cfg) body s

/-- Embedding of `Simulator::calculate_external_force` (Simulator.cpp 243-253). -/
def calculate_external_force (cfg : Config) (s : State) : State :=
  FOR_EACH_CELL cfg (fun i j k s =>
    let s := { s with fx := Function.update s.fx (ACC3D i j k cfg.Ny cfg.Nx) 0 }
    let s := { s with fy := (Function.update s.fy (ACC3D i j k cfg.Ny cfg.Nx)
      (-cfg.ALPHA * s.density (ACC3D i j k cfg.Ny cfg.Nx) +
        cfg.BETA * (s.temperature (ACC3D i j k cfg.Ny cfg.Nx) - cfg.T_AMBIENT))) }
    { s with fz := Function.update s.fz (ACC3D i j k cfg.Ny cfg.Nx) 0 }) s

/-- Embedding of `Simulator::apply_external_force` (Simulator.cpp 325-342), with the source's operands. -/
def apply_external_force (cfg : Config) (s : State) : State :=
  FOR_EACH_CELL cfg (fun i j k s =>
    let s := if i < cfg.Nx - 1 then
      { s with u := (Function.update s.u (ACC3D (i + 1) j k cfg.Ny cfg.Nx)
          (s.u (ACC3D (i + 1) j k cfg.Ny cfg.Nx) +
            cfg.DT * (s.fx (ACC3D i j k cfg.Ny cfg.Nx) +
              s.fx (ACC3D (i + 1) j k cfg.Ny cfg.Nx)) * 0.5)) }
      else s
    let s := if j < cfg.Ny - 1 then
      { s with v := (Function.update s.v (ACC3D i (j + 1) k cfg.Ny cfg.Nx)
          (s.v (ACC3D i (j + 1) k cfg.Ny cfg.Nx) +
            cfg.DT * (s.fy (ACC3D i j k cfg.Ny cfg.Nx) +
              s.fx (ACC3D i (j + 1) k cfg.Ny cfg.Nx)) * 0.5)) }
      else s
    if k < cfg.Nz - 1 then
      { s with w := (Function.update s.w (ACC3D i j (k + 1) cfg.Ny cfg.Nx)
          (s.w (ACC3D i j (k + 1) cfg.Ny cfg.Nx) +
            cfg.DT * (s.fz (ACC3D i j k cfg.Ny cfg.Nx) +
              s.fx (ACC3D i j (k + 1) cfg.Ny cfg.Nx)) * 0.5)) }
      else s) s

/-- The body of the "Build b" loop of `calculate_pressure` (Simulator.cpp 354-376) for one
cell: the six masked face terms are accumulated in the order `n = 0..5`, then scaled. -/
def build_b_cell (cfg : Config) (coeff : ℚ) (i j k : Int) (s : State) : State :=
  let F : List ℚ :=
    [if k > 0 then 1 else 0, if j > 0 then 1 else 0, if i > 0 then 1 else 0,
     if i < cfg.Nx - 1 then 1 else 0, if j < cfg.Ny - 1 then 1 else 0,
     if k < cfg.Nz - 1 then 1 else 0]
  let D : List ℚ := [-1, -1, -1, 1, 1, 1]
  let U : List ℚ :=
    [s.w (ACC3D i j k cfg.Ny cfg.Nx), s.v (ACC3D i j k cfg.Ny cfg.Nx),
     s.u (ACC3D i j k cfg.Ny cfg.Nx), s.u (ACC3D (i + 1) j k cfg.Ny cfg.Nx),
     s.v (ACC3D i (j + 1) k cfg.Ny cfg.Nx), s.w (ACC3D i j (k + 1) cfg.Ny cfg.Nx)]
  let s := (List.range 6).foldl (fun s n =>
    { s with b := (Function.update s.b (ACC3D i j k cfg.Ny cfg.Nx)
        (s.b (ACC3D i j k cfg.Ny cfg.Nx) + D.getD n 0 * F.getD n 0 * U.getD n 0)) }) s
  { s with b := (Function.update s.b (ACC3D i j k cfg.Ny cfg.Nx)
      (s.b (ACC3D i j k cfg.Ny cfg.Nx) * coeff)) }

/-- The "Build b" section of `calculate_pressure` (Simulator.cpp 346-377). -/
def calculate_pressure_build_b (cfg : Config) (s : State) : State :=
  let s := { s with b := fun _ => 0 }
  let coeff : ℚ := 1
  FOR_EACH_CELL cfg (build_b_cell cfg coeff) s

/-- The "Update pressure" section of `calculate_pressure` (Simulator.cpp 394-400). The source
keeps `t_coeff = VOXEL_SIZE / DT` in a `float`; its rounding is not modelled. -/
def calculate_pressure_update (cfg : Config) (s : State) : State :=
  let t_coeff : ℚ := cfg.VOXEL_SIZE / cfg.DT
  FOR_EACH_CELL cfg (fun i j k s =>
    { s with pressure := (Function.update s.pressure (ACC3D i j k cfg.Ny cfg.Nx)
        (s.x (ACC3D i j k cfg.Ny cfg.Nx) * t_coeff)) }) s

/-- Embedding of `Simulator::calculate_pressure` (Simulator.cpp 344-402). The linear solver `m_solver` is
not part of the source: `solve x b` is the iterate it leaves in `x`. -/
def calculate_pressure (cfg : Config) (solve : Field → Field → Field) (s : State) : State :=
  let s := calculate_pressure_build_b cfg s
  let s := { s with x := solve s.x s.b }
  calculate_pressure_update cfg s

/-- A C++ `double` with its non-finite values. A finite value is an exact rational (rounding
and overflow are not modelled, and the sign of zero is dropped); `inf neg` is `+∞` or, with
`neg = true`, `−∞`; `nan` is not-a-number. -/
inductive Double where
  | fin (q : ℚ)
  | inf (neg : Bool)
  | nan
  deriving DecidableEq

/-- Addition of `double`s (IEEE 754): `∞ + (−∞)` is NaN, NaN propagates. -/
def Double.add : Double → Double → Double
  | Double.fin a, Double.fin b => Double.fin (a + b)
  | Double.fin _, Double.inf n => Double.inf n
  | Double.inf n, Double.fin _ => Double.inf n
  | Double.inf n, Double.inf m => if n = m then Double.inf n else Double.nan
  | Double.nan, _ => Double.nan
  | Double.fin _, Double.nan => Double.nan
  | Double.inf _, Double.nan => Double.nan

/-- Multiplication of `double`s (IEEE 754): `0 · ±∞` is NaN, NaN propagates, and the sign of
an infinite product is the product of the signs. -/
def Double.mul : Double → Double → Double
  | Double.fin a, Double.fin b => Double.fin (a * b)
  | Double.fin a, Double.inf n =>
      if a = 0 then Double.nan else Double.inf (if a < 0 then !n else n)
  | Double.inf n, Double.fin a =>
      if a = 0 then Double.nan else Double.inf (if a < 0 then !n else n)
  | Double.inf n, Double.inf m => Double.inf (n != m)
  | Double.nan, _ => Double.nan
  | Double.fin _, Double.nan => Double.nan
  | Double.inf _, Double.nan => Double.nan

instance : Add Double := ⟨Double.add⟩

instance : Mul Double := ⟨Double.mul⟩

/-- The body of the "Build b" loop of `calculate_pressure` (Simulator.cpp 354-376) for one
cell, on `double`s with their non-finite values: `F[n]` is the `double` cast of a comparison,
`U[0..5]` are read whatever the masks say, and `b(idx) += D[n] * F[n] * U[n]` runs for
`n = 0..5` before `b(idx) *= coeff`. -/
def build_b_cell_double (cfg : Config) (coeff : Double) (u v w : Int → Double) (i j k : Int)
    (b : Int → Double) : Int → Double :=
  let F : List Double :=
    [if k > 0 then Double.fin 1 else Double.fin 0, if j > 0 then Double.fin 1 else Double.fin 0,
     if i > 0 then Double.fin 1 else Double.fin 0,
     if i < cfg.Nx - 1 then Double.fin 1 else Double.fin 0,
     if j < cfg.Ny - 1 then Double.fin 1 else Double.fin 0,
     if k < cfg.Nz - 1 then Double.fin 1 else Double.fin 0]
  let D : List Double :=
    [Double.fin (-1), Double.fin (-1), Double.fin (-1), Double.fin 1, Double.fin 1, Double.fin 1]
  let U : List Double :=
    [w (ACC3D i j k cfg.Ny cfg.Nx), v (ACC3D i j k cfg.Ny cfg.Nx),
     u (ACC3D i j k cfg.Ny cfg.Nx), u (ACC3D (i + 1) j k cfg.Ny cfg.Nx),
     v (ACC3D i (j + 1) k cfg.Ny cfg.Nx), w (ACC3D i j (k + 1) cfg.Ny cfg.Nx)]
  let b := (List.range 6).foldl (fun b n =>
    Function.update b (ACC3D i j k cfg.Ny cfg.Nx)
      (b (ACC3D i j k cfg.Ny cfg.Nx) +
        D.getD n (Double.fin 0) * F.getD n (Double.fin 0) * U.getD n (Double.fin 0))) b
  Function.update b (ACC3D i j k cfg.Ny cfg.Nx) (b (ACC3D i j k cfg.Ny cfg.Nx) * coeff)

/-- The "Build b" section of `calculate_pressure` (Simulator.cpp 346-377) on `double`s with
their non-finite values: `b.setZero()`, `coeff = 1.0`, then the loop over all cells. The
arrays `u`, `v`, `w` are not written. -/
def calculate_pressure_build_b_double (cfg : Config) (u v w : Int → Double) :
    Int → Double :=
  (gridCells cfg).foldl
    (fun b c => build_b_cell_double cfg (Double.fin 1) u v w c.1 c.2.1 c.2.2 b)
    (fun _ => Double.fin 0)

/-- Embedding of `Simulator::apply_pressure` (Simulator.cpp 404-426). -/
def apply_pressure (cfg : Config) (s : State) : State :=
  FOR_EACH_CELL cfg (fun i j k s =>
    let s := if i < cfg.Nx - 1 then
      { s with u := (Function.update s.u (ACC3D (i + 1) j k cfg.Ny cfg.Nx)
          (s.u (ACC3D (i + 1) j k cfg.Ny cfg.Nx) -
            cfg.DT * (s.pressure (ACC3D (i + 1) j k cfg.Ny cfg.Nx) -
              s.pressure (ACC3D i j k cfg.Ny cfg.Nx)) / cfg.VOXEL_SIZE)) }
      else s
    let s := if j < cfg.Ny - 1 then
      { s with v := (Function.update s.v (ACC3D i (j + 1) k cfg.Ny cfg.Nx)
          (s.v (ACC3D i (j + 1) k cfg.Ny cfg.Nx) -
            cfg.DT * (s.pressure (ACC3D i (j + 1) k cfg.Ny cfg.Nx) -
              s.pressure (ACC3D i j k cfg.Ny cfg.Nx)) / cfg.VOXEL_SIZE)) }
      else s
    if k < cfg.Nz - 1 then
      { s with w := (Function.update s.w (ACC3D i j (k + 1) cfg.Ny cfg.Nx)
          (s.w (ACC3D i j (k + 1) cfg.Ny cfg.Nx) -
            cfg.DT * (s.pressure (ACC3D i j (k + 1) cfg.Ny cfg.Nx) -
              s.pressure (ACC3D i j k cfg.Ny cfg.Nx)) / cfg.VOXEL_SIZE)) }
      else s) s

/-- Embedding of `Simulator::fix_occupied_voxels` (Simulator.cpp 494-507). -/
def fix_occupied_voxels (cfg : Config) (s : State) : State :=
  FOR_EACH_CELL cfg (fun i j k s =>
    if s.m_occupied_voxels (ACC3D i j k cfg.Ny cfg.Nx) = true then
      let s := { s with u := Function.update s.u (ACC3D i j k cfg.Ny cfg.Nx) 0 }
      let s := { s with v := Function.update s.v (ACC3D i j k cfg.Ny cfg.Nx) 0 }
      let s := { s with w := Function.update s.w (ACC3D i j k cfg.Ny cfg.Nx) 0 }
      let s := { s with temperature :=
        (Function.update s.temperature (ACC3D i j k cfg.Ny cfg.Nx) cfg.T_AMBIENT) }
      { s with density := Function.update s.density (ACC3D i j k cfg.Ny cfg.Nx) 0 }
    else s) s

/-- The loop nest of `addSource` for the configured emitter position (Simulator.cpp 151-155
for `E_TOP`, 175-181 for `E_BOTTOM`); `/` on `int` truncates, hence `Int.tdiv`. -/
def sourceCells (cfg : Config) : List (Int × Int × Int) :=
  match cfg.EMITTER_POS with
  | .E_TOP =>
    boxCells ((cfg.Nz - cfg.SOURCE_SIZE_Z).tdiv 2) ((cfg.Nz + cfg.SOURCE_SIZE_Z).tdiv 2)
      cfg.SOURCE_Y_MERGIN (cfg.SOURCE_Y_MERGIN + cfg.SOURCE_SIZE_Y)
      ((cfg.Nx - cfg.SOURCE_SIZE_X).tdiv 2) ((cfg.Nx + cfg.SOURCE_SIZE_X).tdiv 2)
  | .E_BOTTOM =>
    boxCells ((cfg.Nz - cfg.SOURCE_SIZE_Z).tdiv 2) ((cfg.Nz + cfg.SOURCE_SIZE_Z).tdiv 2)
      (cfg.Ny - cfg.SOURCE_Y_MERGIN - cfg.SOURCE_SIZE_Y) (cfg.Ny - cfg.SOURCE_Y_MERGIN)
      ((cfg.Nx - cfg.SOURCE_SIZE_X).tdiv 2) ((cfg.Nx + cfg.SOURCE_SIZE_X).tdiv 2)

/-- Embedding of `Simulator::addSource` (Simulator.cpp 139-191). `dist i j k` is the value that
`dist(engine)` returns in the iteration for cell `(i, j, k)`; the distribution is
`uniform_real_distribution(800, 1000)`. Both cases of the switch run the same body. -/
def addSource (cfg : Config) (dist : Int → Int → Int → ℚ) (s : State) : State :=
  forBox (sourceCells cfg) (fun i j k s =>
    let s := { s with density :=
      (Function.update s.density (ACC3D i j k cfg.Ny cfg.Nx) cfg.INIT_DENSITY) }
    { s with temperature :=
      (Function.update s.temperature (ACC3D i j k cfg.Ny cfg.Nx) (dist i j k)) }) s

/-- The loop nest of `setEmitterVelocity` (Simulator.cpp 200-204 for `E_TOP`, 227-231 for
`E_BOTTOM`, whose `j` loop runs to `Ny - SOURCE_Y_MERGIN + 1`). -/
def emitterVelocityCells (cfg : Config) : List (Int × Int × Int) :=
  match cfg.EMITTER_POS with
  | .E_TOP =>
    boxCells ((cfg.Nz - cfg.SOURCE_SIZE_Z).tdiv 2) ((cfg.Nz + cfg.SOURCE_SIZE_Z).tdiv 2)
      cfg.SOURCE_Y_MERGIN (cfg.SOURCE_Y_MERGIN + cfg.SOURCE_SIZE_Y)
      ((cfg.Nx - cfg.SOURCE_SIZE_X).tdiv 2) ((cfg.Nx + cfg.SOURCE_SIZE_X).tdiv 2)
  | .E_BOTTOM =>
    boxCells ((cfg.Nz - cfg.SOURCE_SIZE_Z).tdiv 2) ((cfg.Nz + cfg.SOURCE_SIZE_Z).tdiv 2)
      (cfg.Ny - cfg.SOURCE_Y_MERGIN - cfg.SOURCE_SIZE_Y) (cfg.Ny - cfg.SOURCE_Y_MERGIN + 1)
      ((cfg.Nx - cfg.SOURCE_SIZE_X).tdiv 2) ((cfg.Nx + cfg.SOURCE_SIZE_X).tdiv 2)

/-- Embedding of `Simulator::setEmitterVelocity` (Simulator.cpp 193-241). `rand i j k` is the value that
`rand()` returns in the iteration for cell `(i, j, k)` (a non-negative `int`). -/
def setEmitterVelocity (cfg : Config) (rand : Int → Int → Int → Nat) (s : State) : State :=
  forBox (emitterVelocityCells cfg) (fun i j k s =>
    match cfg.EMITTER_POS with
    | .E_TOP =>
      let s := { s with v := (Function.update s.v (ACC3D i j k cfg.Ny cfg.Nx)
        (cfg.INIT_VELOCITY * ((rand i j k % 100 : Nat) : ℚ) / 100)) }
      { s with v0 := (Function.update s.v0 (ACC3D i j k cfg.Ny cfg.Nx)
        (s.v (ACC3D i j k cfg.Ny cfg.Nx))) }
    | .E_BOTTOM =>
      let s := { s with v := (Function.update s.v (ACC3D i j k cfg.Ny cfg.Nx)
        (-cfg.INIT_VELOCITY)) }
      { s with v0 := (Function.update s.v0 (ACC3D i j k cfg.Ny cfg.Nx)
        (s.v (ACC3D i j k cfg.Ny cfg.Nx))) }) s

/-- The device worker `CW` and the solver `m_solver`, whose code is not part of the source.
Each entry gives the arrays that `update` downloads from the device after the named device
calls, as a function of the host state at that point; host data that is not downloaded
(the occupancy mask, the clock) cannot be changed by the device. -/
structure CudaWorker where
  /-- After `setforceField; setVelocityField; calculateVorticity; applyExternalForce;
  getVelocityField`: the downloaded `u, v, w`. -/
  applyExternalForce : State → Field × Field × Field
  /-- After `advectVelocityField; getVelocityField; getPreviosVelocityField`: the downloaded
  `u, v, w` and `u0, v0, w0`. -/
  advectVelocityField : State → (Field × Field × Field) × (Field × Field × Field)
  /-- After `m_solver.solve(x, b)`: the new `x`. -/
  solve : Field → Field → Field
  /-- After `advectScalarField` and the four downloads: `density, density0, temperature,
  temperature0`. -/
  advectScalarField : State → (Field × Field) × (Field × Field)
  /-- After `genTransparencyMap; getTransparencyMap`: the downloaded `transparency`. -/
  genTransparencyMap : State → Field

/-- Embedding of `Simulator::genTransparencyMap` (Simulator.cpp 509-522). -/
def genTransparencyMap (cw : CudaWorker) (s : State) : State :=
  { s with transparency := cw.genTransparencyMap s }

/-- The stages of `Simulator::update` from `calculate_external_force` to the download of the
advected scalars (Simulator.cpp 46-113), i.e. everything before the occupancy fix-up. -/
def update_advance (cfg : Config) (cw : CudaWorker) (s : State) : State :=
  let s := calculate_external_force cfg s
  let s :=
    let r := cw.applyExternalForce s
    { s with u := r.1, v := r.2.1, w := r.2.2 }
  let s :=
    let r := cw.advectVelocityField s
    { s with u := r.1.1, v := r.1.2.1, w := r.1.2.2, u0 := r.2.1, v0 := r.2.2.1, w0 := r.2.2.2 }
  let s := calculate_pressure cfg cw.solve s
  let s := apply_pressure cfg s
  let r := cw.advectScalarField s
  { s with density := r.1.1, density0 := r.1.2, temperature := r.2.1, temperature0 := r.2.2 }

/-- Embedding of `Simulator::update` (Simulator.cpp 35-136). The timing hooks (`T_START`, `T_END`,
`clear_measurement`) do not touch the simulator state and are left out. -/
def update (cfg : Config) (cw : CudaWorker) (dist : Int → Int → Int → ℚ)
    (rand : Int → Int → Int → Nat) (s : State) : State :=
  if s.m_time > cfg.FINISH_TIME then s
  else
    let s := update_advance cfg cw s
    let s := fix_occupied_voxels cfg s
    let s := genTransparencyMap cw s
    let s := if s.m_time < cfg.EMIT_DURATION then
      setEmitterVelocity cfg rand (addSource cfg dist s) else s
    { s with m_time := s.m_time + cfg.DT }

/-- Modelled from the spec: the macro `SIZE` is not part of the source; every field array has
length `Nx·Ny·Nz` (spec §3). -/
def SIZE (cfg : Config) : Int := cfg.Nx * cfg.Ny * cfg.Nz

/-- Embedding of `Simulator::setEnvTemperature` (Simulator.h 51-54). -/
def setEnvTemperature (temp : ℚ) (s : State) : State :=
  { s with envTemp_ := temp }

/-- Embedding of `Simulator::reset` (Simulator.h 88-106): one loop over the flat indices
`0 ≤ i < SIZE` with eleven writes, then the clock. -/
def reset (cfg : Config) (s : State) : State :=
  let s := (intRange 0 (SIZE cfg)).foldl (fun s i =>
    let s := { s with density := Function.update s.density i 0 }
    let s := { s with density0 := Function.update s.density0 i 0 }
    let s := { s with temperature := Function.update s.temperature i s.envTemp_ }
    let s := { s with temperature0 := Function.update s.temperature0 i s.envTemp_ }
    let s := { s with pressure := Function.update s.pressure i 0 }
    let s := { s with u := Function.update s.u i 0 }
    let s := { s with u0 := Function.update s.u0 i 0 }
    let s := { s with v := Function.update s.v i 0 }
    let s := { s with v0 := Function.update s.v0 i 0 }
    let s := { s with w := Function.update s.w i 0 }
    { s with w0 := Function.update s.w0 i 0 }) s
  { s with m_time := 0 }

/-- Embedding of the body of the constructor `Simulator::Simulator` (Simulator.cpp 9-29),
run on the data `s0` present when the body starts: the ambient temperature loop, `addSource`
and `setEmitterVelocity`. The member arrays (Simulator.h 124-142) have no initialiser, so `s0`
is arbitrary. The device and solver set-up does not touch the arrays. -/
def Simulator_Simulator (cfg : Config) (dist : Int → Int → Int → ℚ)
    (rand : Int → Int → Int → Nat) (s0 : State) : State :=
  let s := FOR_EACH_CELL cfg (fun i j k s =>
    { s with temperature :=
      (Function.update s.temperature (ACC3D i j k cfg.Ny cfg.Nx) cfg.T_AMBIENT) }) s0
  let s := addSource cfg dist s
  setEmitterVelocity cfg rand s

/-- Modelled from the spec: the class `Vec3` of `mmath.h` is not part of the source; its
`cross` is the cross product `ω × N` of spec §4.3. -/
def cross (a b : ℚ × ℚ × ℚ) : ℚ × ℚ × ℚ :=
  (a.2.1 * b.2.2 - a.2.2 * b.2.1, a.2.2 * b.1 - a.1 * b.2.2, a.1 * b.2.1 - a.2.1 * b.1)

/-- Step a of `Simulator::calculate_vorticity` (Simulator.cpp 258-263): the cell-centred
velocity of every cell. -/
def calculate_vorticity_avg (cfg : Config) (s : State) : State :=
  FOR_EACH_CELL cfg (fun i j k s =>
    let s := { s with avg_u := (Function.update s.avg_u (ACC3D i j k cfg.Ny cfg.Nx)
      ((s.u (ACC3D i j k cfg.Ny cfg.Nx) + s.u (ACC3D (i + 1) j k cfg.Ny cfg.Nx)) * 0.5)) }
    let s := { s with avg_v := (Function.update s.avg_v (ACC3D i j k cfg.Ny cfg.Nx)
      ((s.v (ACC3D i j k cfg.Ny cfg.Nx) + s.v (ACC3D i (j + 1) k cfg.Ny cfg.Nx)) * 0.5)) }
    { s with avg_w := (Function.update s.avg_w (ACC3D i j k cfg.Ny cfg.Nx)
      ((s.w (ACC3D i j k cfg.Ny cfg.Nx) + s.w (ACC3D i j (k + 1) cfg.Ny cfg.Nx)) * 0.5)) }) s

/-- Step b of `Simulator::calculate_vorticity` (Simulator.cpp 265-280): the two `continue`
guards skip the boundary cells, the other cells get the central-difference curl. -/
def calculate_vorticity_curl (cfg : Config) (s : State) : State :=
  FOR_EACH_CELL cfg (fun i j k s =>
    if i = 0 ∨ j = 0 ∨ k = 0 then s
    else if i = cfg.Nx - 1 ∨ j = cfg.Ny - 1 ∨ k = cfg.Nz - 1 then s
    else
      let s := { s with omg_x := (Function.update s.omg_x (ACC3D i j k cfg.Ny cfg.Nx)
        ((s.avg_w (ACC3D i (j + 1) k cfg.Ny cfg.Nx) - s.avg_w (ACC3D i (j - 1) k cfg.Ny cfg.Nx) -
          s.avg_v (ACC3D i j (k + 1) cfg.Ny cfg.Nx) + s.avg_v (ACC3D i j (k - 1) cfg.Ny cfg.Nx)) *
            0.5 / cfg.VOXEL_SIZE)) }
      let s := { s with omg_y := (Function.update s.omg_y (ACC3D i j k cfg.Ny cfg.Nx)
        ((s.avg_u (ACC3D i j (k + 1) cfg.Ny cfg.Nx) - s.avg_u (ACC3D i j (k - 1) cfg.Ny cfg.Nx) -
          s.avg_w (ACC3D (i + 1) j k cfg.Ny cfg.Nx) + s.avg_w (ACC3D (i - 1) j k cfg.Ny cfg.Nx)) *
            0.5 / cfg.VOXEL_SIZE)) }
      { s with omg_z := (Function.update s.omg_z (ACC3D i j k cfg.Ny cfg.Nx)
        ((s.avg_v (ACC3D (i + 1) j k cfg.Ny cfg.Nx) - s.avg_v (ACC3D (i - 1) j k cfg.Ny cfg.Nx) -
          s.avg_u (ACC3D i (j + 1) k cfg.Ny cfg.Nx) + s.avg_u (ACC3D i (j - 1) k cfg.Ny cfg.Nx)) *
            0.5 / cfg.VOXEL_SIZE)) }) s

/-- The confinement force `f` that step c of `Simulator::calculate_vorticity` computes for
cell `(i, j, k)` from the vorticity arrays (Simulator.cpp 294-317). `norm x y z` stands for
`Vec3(x, y, z).norm()`, whose class is not part of the source. -/
def confinement_force (cfg : Config) (norm : ℚ → ℚ → ℚ → ℚ) (omg_x omg_y omg_z : Field)
    (i j k : Int) : ℚ × ℚ × ℚ :=
  let p := norm (omg_x (ACC3D (i + 1) j k cfg.Ny cfg.Nx)) (omg_y (ACC3D (i + 1) j k cfg.Ny cfg.Nx))
    (omg_z (ACC3D (i + 1) j k cfg.Ny cfg.Nx))
  let q := norm (omg_x (ACC3D (i - 1) j k cfg.Ny cfg.Nx)) (omg_y (ACC3D (i - 1) j k cfg.Ny cfg.Nx))
    (omg_z (ACC3D (i - 1) j k cfg.Ny cfg.Nx))
  let grad1 := (p - q) * 0.5 / cfg.VOXEL_SIZE
  let p := norm (omg_x (ACC3D i (j + 1) k cfg.Ny cfg.Nx)) (omg_y (ACC3D i (j + 1) k cfg.Ny cfg.Nx))
    (omg_z (ACC3D i (j + 1) k cfg.Ny cfg.Nx))
  let q := norm (omg_x (ACC3D i (j - 1) k cfg.Ny cfg.Nx)) (omg_y (ACC3D i (j - 1) k cfg.Ny cfg.Nx))
    (omg_z (ACC3D i (j - 1) k cfg.Ny cfg.Nx))
  let grad2 := (p - q) * 0.5 / cfg.VOXEL_SIZE
  let p := norm (omg_x (ACC3D i j (k + 1) cfg.Ny cfg.Nx)) (omg_y (ACC3D i j (k + 1) cfg.Ny cfg.Nx))
    (omg_z (ACC3D i j (k + 1) cfg.Ny cfg.Nx))
  let q := norm (omg_x (ACC3D i j (k - 1) cfg.Ny cfg.Nx)) (omg_y (ACC3D i j (k - 1) cfg.Ny cfg.Nx))
    (omg_z (ACC3D i j (k - 1) cfg.Ny cfg.Nx))
  let grad3 := (p - q) * 0.5 / cfg.VOXEL_SIZE
  let N_ijk : ℚ × ℚ × ℚ :=
    if norm grad1 grad2 grad3 ≠ 0 then
      (grad1 / norm grad1 grad2 grad3, grad2 / norm grad1 grad2 grad3,
        grad3 / norm grad1 grad2 grad3)
    else (0, 0, 0)
  let vorticity : ℚ × ℚ × ℚ :=
    (omg_x (ACC3D i j k cfg.Ny cfg.Nx), omg_y (ACC3D i j k cfg.Ny cfg.Nx),
      omg_z (ACC3D i j k cfg.Ny cfg.Nx))
  let c := cross vorticity N_ijk
  (cfg.VORT_EPS * cfg.VOXEL_SIZE * c.1, cfg.VORT_EPS * cfg.VOXEL_SIZE * c.2.1,
    cfg.VORT_EPS * cfg.VOXEL_SIZE * c.2.2)

/-- Step c of `Simulator::calculate_vorticity` (Simulator.cpp 282-322): at the cells that
pass the two `continue` guards the confinement force is recorded in `vort` and added to
`fx`, `fy`, `fz`. -/
def calculate_vorticity_confinement (cfg : Config) (norm : ℚ → ℚ → ℚ → ℚ) (s : State) :
    State :=
  FOR_EACH_CELL cfg (fun i j k s =>
    if i = 0 ∨ j = 0 ∨ k = 0 then s
    else if i = cfg.Nx - 1 ∨ j = cfg.Ny - 1 ∨ k = cfg.Nz - 1 then s
    else
      let f := confinement_force cfg norm s.omg_x s.omg_y s.omg_z i j k
      let s := { s with vort :=
        (Function.update s.vort (ACC3D i j k cfg.Ny cfg.Nx) (norm f.1 f.2.1 f.2.2)) }
      let s := { s with fx := (Function.update s.fx (ACC3D i j k cfg.Ny cfg.Nx)
        (s.fx (ACC3D i j k cfg.Ny cfg.Nx) + f.1)) }
      let s := { s with fy := (Function.update s.fy (ACC3D i j k cfg.Ny cfg.Nx)
        (s.fy (ACC3D i j k cfg.Ny cfg.Nx) + f.2.1)) }
      { s with fz := (Function.update s.fz (ACC3D i j k cfg.Ny cfg.Nx)
        (s.fz (ACC3D i j k cfg.Ny cfg.Nx) + f.2.2)) }) s

/-- Embedding of `Simulator::calculate_vorticity` (Simulator.cpp 255-323): its three loops in
order. -/
def calculate_vorticity (cfg : Config) (norm : ℚ → ℚ → ℚ → ℚ) (s : State) : State :=
  calculate_vorticity_confinement cfg norm
    (calculate_vorticity_curl cfg (calculate_vorticity_avg cfg s))

/-- A bounds-checked read of a field array of length `SIZE`: `none` when the flat index is
out of range. -/
def readChecked (cfg : Config) (f : Field) (n : Int) : Option ℚ :=
  if 0 ≤ n ∧ n < SIZE cfg then some (f n) else none

/-- The body of the "Build b" loop of `calculate_pressure` with every read of `u`, `v`, `w`
(Simulator.cpp 365-370) bounds-checked; the reads happen before the masks `F` are applied. -/
def build_b_cell_checked (cfg : Config) (coeff : ℚ) (i j k : Int) (s : State) :
    Option State := do
  let _ ← readChecked cfg s.w (ACC3D i j k cfg.Ny cfg.Nx)
  let _ ← readChecked cfg s.v (ACC3D i j k cfg.Ny cfg.Nx)
  let _ ← readChecked cfg s.u (ACC3D i j k cfg.Ny cfg.Nx)
  let _ ← readChecked cfg s.u (ACC3D (i + 1) j k cfg.Ny cfg.Nx)
  let _ ← readChecked cfg s.v (ACC3D i (j + 1) k cfg.Ny cfg.Nx)
  let _ ← readChecked cfg s.w (ACC3D i j (k + 1) cfg.Ny cfg.Nx)
  pure (build_b_cell cfg coeff i j k s)

/-- The "Build b" section of `calculate_pressure` (Simulator.cpp 346-377) with bounds-checked
reads: `none` as soon as one read is out of range. -/
def calculate_pressure_build_b_checked (cfg : Config) (s : State) : Option State :=
  (gridCells cfg).foldlM (fun s c => build_b_cell_checked cfg 1 c.1 c.2.1 c.2.2 s)
    { s with b := fun _ => 0 }

/-- The body of step a of `calculate_vorticity` (Simulator.cpp 260-262) with every read of
`u`, `v`, `w` bounds-checked. -/
def calculate_vorticity_avg_cell_checked (cfg : Config) (i j k : Int) (s : State) :
    Option State := do
  let u0 ← readChecked cfg s.u (ACC3D i j k cfg.Ny cfg.Nx)
  let u1 ← readChecked cfg s.u (ACC3D (i + 1) j k cfg.Ny cfg.Nx)
  let s := { s with avg_u :=
    (Function.update s.avg_u (ACC3D i j k cfg.Ny cfg.Nx) ((u0 + u1) * 0.5)) }
  let v0 ← readChecked cfg s.v (ACC3D i j k cfg.Ny cfg.Nx)
  let v1 ← readChecked cfg s.v (ACC3D i (j + 1) k cfg.Ny cfg.Nx)
  let s := { s with avg_v :=
    (Function.update s.avg_v (ACC3D i j k cfg.Ny cfg.Nx) ((v0 + v1) * 0.5)) }
  let w0 ← readChecked cfg s.w (ACC3D i j k cfg.Ny cfg.Nx)
  let w1 ← readChecked cfg s.w (ACC3D i j (k + 1) cfg.Ny cfg.Nx)
  pure { s with avg_w :=
    (Function.update s.avg_w (ACC3D i j k cfg.Ny cfg.Nx) ((w0 + w1) * 0.5)) }

/-- Step a of `calculate_vorticity` (Simulator.cpp 258-263) with bounds-checked reads. -/
def calculate_vorticity_avg_checked (cfg : Config) (s : State) : Option State :=
  (gridCells cfg).foldlM (fun s c => calculate_vorticity_avg_cell_checked cfg c.1 c.2.1 c.2.2 s)
    s

/-- Modelled from the spec: `build_3d_laplace` is not part of the source. The existing
neighbours of cell `(i, j, k)` in the 7-point stencil of spec §4.6. -/
def neighbours (cfg : Config) (i j k : Int) : List (Int × Int × Int) :=
  (if i > 0 then [(i - 1, j, k)] else []) ++ (if i < cfg.Nx - 1 then [(i + 1, j, k)] else []) ++
  (if j > 0 then [(i, j - 1, k)] else []) ++ (if j < cfg.Ny - 1 then [(i, j + 1, k)] else []) ++
  (if k > 0 then [(i, j, k - 1)] else []) ++ (if k < cfg.Nz - 1 then [(i, j, k + 1)] else [])

/-- Modelled from the spec: row `(i, j, k)` of `L·x` for the 7-point Neumann Laplacian of spec
§4.6: coefficient `−(number of existing neighbours)` on the diagonal and `+1` for each
existing neighbour. -/
def laplace (cfg : Config) (x : Field) (i j k : Int) : ℚ :=
  -((neighbours cfg i j k).length : ℚ) * x (ACC3D i j k cfg.Ny cfg.Nx) +
    ((neighbours cfg i j k).map (fun c => x (ACC3D c.1 c.2.1 c.2.2 cfg.Ny cfg.Nx))).sum

/-- The discrete divergence of `(u, v, w)` at cell `(i, j, k)`:
`[u(i+1,j,k) − u(i,j,k)] + [v(i,j+1,k) − v(i,j,k)] + [w(i,j,k+1) − w(i,j,k)]`. -/
def divergence (cfg : Config) (s : State) (i j k : Int) : ℚ :=
  (s.u (ACC3D (i + 1) j k cfg.Ny cfg.Nx) - s.u (ACC3D i j k cfg.Ny cfg.Nx)) +
  (s.v (ACC3D i (j + 1) k cfg.Ny cfg.Nx) - s.v (ACC3D i j k cfg.Ny cfg.Nx)) +
  (s.w (ACC3D i j (k + 1) cfg.Ny cfg.Nx) - s.w (ACC3D i j k cfg.Ny cfg.Nx))

/-- The cell `(i, j, k)` lies in the grid. -/
def InGrid (cfg : Config) (i j k : Int) : Prop :=
  0 ≤ i ∧ i < cfg.Nx ∧ 0 ≤ j ∧ j < cfg.Ny ∧ 0 ≤ k ∧ k < cfg.Nz

instance (cfg : Config) (i j k : Int) : Decidable (InGrid cfg i j k) := by
  unfold InGrid; infer_instance

/-- One in-place write of a loop body to one array: if the guard `P c` holds, entry `g c`
becomes `upd c` of its current value. -/
def writeStep {α : Type} (P : α → Bool) (g : α → Int) (upd : α → ℚ → ℚ) (f : Field) (c : α) :
    Field :=
  if P c = true then Function.update f (g c) (upd c (f (g c))) else f

/-! ## The properties of the specification, in its own words -/

/-- The mask `1_{cond}` of spec §4.6: 1 when the condition holds, else 0. -/
def mask (p : Prop) [Decidable p] : ℚ := if p then 1 else 0

/-- The right-hand side of spec §4.6 at cell `(i, j, k)`:
`[u(i+1,j,k)·1_{i<Nx−1} − u(i,j,k)·1_{i>0}] + [v(i,j+1,k)·1_{j<Ny−1} − v(i,j,k)·1_{j>0}] +
[w(i,j,k+1)·1_{k<Nz−1} − w(i,j,k)·1_{k>0}]`. -/
def rhs_spec (cfg : Config) (s : State) (i j k : Int) : ℚ :=
  (s.u (ACC3D (i + 1) j k cfg.Ny cfg.Nx) * mask (i < cfg.Nx - 1) -
    s.u (ACC3D i j k cfg.Ny cfg.Nx) * mask (i > 0)) +
  (s.v (ACC3D i (j + 1) k cfg.Ny cfg.Nx) * mask (j < cfg.Ny - 1) -
    s.v (ACC3D i j k cfg.Ny cfg.Nx) * mask (j > 0)) +
  (s.w (ACC3D i j (k + 1) cfg.Ny cfg.Nx) * mask (k < cfg.Nz - 1) -
    s.w (ACC3D i j k cfg.Ny cfg.Nx) * mask (k > 0))

/-- The source box of spec §4.10: `i` in `[(Nx−SOURCE_SIZE_X)/2, (Nx+SOURCE_SIZE_X)/2)`, `k` in
`[(Nz−SOURCE_SIZE_Z)/2, (Nz+SOURCE_SIZE_Z)/2)` and, for `E_TOP`, `j` in
`[SOURCE_Y_MERGIN, SOURCE_Y_MERGIN+SOURCE_SIZE_Y)`, for `E_BOTTOM`, `j` in
`[Ny−SOURCE_Y_MERGIN−SOURCE_SIZE_Y, Ny−SOURCE_Y_MERGIN)`. -/
def InSourceBox (cfg : Config) (i j k : Int) : Prop :=
  ((cfg.Nx - cfg.SOURCE_SIZE_X).tdiv 2 ≤ i ∧ i < (cfg.Nx + cfg.SOURCE_SIZE_X).tdiv 2) ∧
  (match cfg.EMITTER_POS with
    | .E_TOP => cfg.SOURCE_Y_MERGIN ≤ j ∧ j < cfg.SOURCE_Y_MERGIN + cfg.SOURCE_SIZE_Y
    | .E_BOTTOM =>
      cfg.Ny - cfg.SOURCE_Y_MERGIN - cfg.SOURCE_SIZE_Y ≤ j ∧ j < cfg.Ny - cfg.SOURCE_Y_MERGIN) ∧
  ((cfg.Nz - cfg.SOURCE_SIZE_Z).tdiv 2 ≤ k ∧ k < (cfg.Nz + cfg.SOURCE_SIZE_Z).tdiv 2)

instance (cfg : Config) (i j k : Int) : Decidable (InSourceBox cfg i j k) := by
  unfold InSourceBox
  cases cfg.EMITTER_POS <;> infer_instance

/-- The source box lies inside the grid: every cell that the loop nest of `addSource` visits
is a cell of the grid. -/
def SourceBoxInGrid (cfg : Config) : Prop :=
  ∀ c ∈ sourceCells cfg, InGrid cfg c.1 c.2.1 c.2.2

instance (cfg : Config) : Decidable (SourceBoxInGrid cfg) := by
  unfold SourceBoxInGrid
  infer_instance

/-- The box of the loop nest of `setEmitterVelocity`: the centred `i` and `k` ranges of the
source box and, for `E_TOP`, `j` in `[SOURCE_Y_MERGIN, SOURCE_Y_MERGIN+SOURCE_SIZE_Y)`, for
`E_BOTTOM`, `j` in `[Ny−SOURCE_Y_MERGIN−SOURCE_SIZE_Y, Ny−SOURCE_Y_MERGIN+1)`. -/
def InEmitterBox (cfg : Config) (i j k : Int) : Prop :=
  ((cfg.Nx - cfg.SOURCE_SIZE_X).tdiv 2 ≤ i ∧ i < (cfg.Nx + cfg.SOURCE_SIZE_X).tdiv 2) ∧
  (match cfg.EMITTER_POS with
    | .E_TOP => cfg.SOURCE_Y_MERGIN ≤ j ∧ j < cfg.SOURCE_Y_MERGIN + cfg.SOURCE_SIZE_Y
    | .E_BOTTOM =>
      cfg.Ny - cfg.SOURCE_Y_MERGIN - cfg.SOURCE_SIZE_Y ≤ j ∧
        j < cfg.Ny - cfg.SOURCE_Y_MERGIN + 1) ∧
  ((cfg.Nz - cfg.SOURCE_SIZE_Z).tdiv 2 ≤ k ∧ k < (cfg.Nz + cfg.SOURCE_SIZE_Z).tdiv 2)

instance (cfg : Config) (i j k : Int) : Decidable (InEmitterBox cfg i j k) := by
  unfold InEmitterBox
  cases cfg.EMITTER_POS <;> infer_instance

/-- The box of `setEmitterVelocity` lies inside the grid: every cell its loop nest visits is a
cell of the grid. -/
def EmitterBoxInGrid (cfg : Config) : Prop :=
  ∀ c ∈ emitterVelocityCells cfg, InGrid cfg c.1 c.2.1 c.2.2

instance (cfg : Config) : Decidable (EmitterBoxInGrid cfg) := by
  unfold EmitterBoxInGrid
  infer_instance

/-- The cell `(i, j, k)` passes the two `continue` guards of `calculate_vorticity`: it is an
interior cell, `1 ≤ i ≤ Nx−2`, `1 ≤ j ≤ Ny−2`, `1 ≤ k ≤ Nz−2` (spec §4.3). -/
def Interior (cfg : Config) (i j k : Int) : Prop :=
  (1 ≤ i ∧ i ≤ cfg.Nx - 2) ∧ (1 ≤ j ∧ j ≤ cfg.Ny - 2) ∧ (1 ≤ k ∧ k ≤ cfg.Nz - 2)

instance (cfg : Config) (i j k : Int) : Decidable (Interior cfg i j k) := by
  unfold Interior
  infer_instance

/-- The contents of the 24 field arrays at flat index `n`. -/
def entriesAt (s : State) (n : Int) : List ℚ :=
  [s.u n, s.v n, s.w n, s.u0 n, s.v0 n, s.w0 n, s.density n, s.density0 n, s.temperature n,
    s.temperature0 n, s.pressure n, s.fx n, s.fy n, s.fz n, s.avg_u n, s.avg_v n, s.avg_w n,
    s.omg_x n, s.omg_y n, s.omg_z n, s.vort n, s.b n, s.x n, s.transparency n]

/-- The exact square root of a rational that is the square of a rational (the integer square
roots of numerator and denominator). -/
def sqrtQ (q : ℚ) : ℚ := (Nat.sqrt q.num.toNat : ℚ) / (Nat.sqrt q.den : ℚ)

/-- Modelled from the spec: `Vec3::norm` of `mmath.h` is not part of the source; it is the
Euclidean length `|ω|` of spec §4.3. The value is exact whenever `x² + y² + z²` is the square
of a rational, which is the case wherever the theorems evaluate it. -/
def vecNorm (x y z : ℚ) : ℚ := sqrtQ (x * x + y * y + z * z)

/-! ## Concrete configurations and states used to instantiate the theorems -/

/-- The state with every array zero, no occupied voxel and the clock at 0. -/
def zeroState : State :=
  { u := fun _ => 0, v := fun _ => 0, w := fun _ => 0,
    u0 := fun _ => 0, v0 := fun _ => 0, w0 := fun _ => 0,
    density := fun _ => 0, density0 := fun _ => 0,
    temperature := fun _ => 0, temperature0 := fun _ => 0,
    pressure := fun _ => 0,
    fx := fun _ => 0, fy := fun _ => 0, fz := fun _ => 0,
    avg_u := fun _ => 0, avg_v := fun _ => 0, avg_w := fun _ => 0,
    omg_x := fun _ => 0, omg_y := fun _ => 0, omg_z := fun _ => 0,
    vort := fun _ => 0, b := fun _ => 0, x := fun _ => 0,
    transparency := fun _ => 0,
    m_occupied_voxels := fun _ => false, m_time := 0, envTemp_ := 0 }

/-- A 3 × 3 × 3 grid with h = 1, dt = 1/10 and a 1 × 1 × 1 source box at the top. -/
def cfg3 : Config :=
  { Nx := 3, Ny := 3, Nz := 3, VOXEL_SIZE := 1, DT := 1 / 10, ALPHA := 49 / 5, BETA := 1,
    T_AMBIENT := 273, VORT_EPS := 1 / 10, INIT_DENSITY := 1, INIT_VELOCITY := 80,
    EMIT_DURATION := 2, FINISH_TIME := 6, SOURCE_SIZE_X := 1, SOURCE_SIZE_Y := 1,
    SOURCE_SIZE_Z := 1, SOURCE_Y_MERGIN := 0, EMITTER_POS := EmitterPos.E_TOP }

/-- A state whose pressure grows with the flat index and whose velocity is not zero. -/
def rampState : State :=
  { zeroState with
    u := fun n => 2 * (n : ℚ), v := fun n => (n : ℚ) + 1, w := fun _ => 5,
    pressure := fun n => 10 * (n : ℚ) }

/-- A state with the same pressure 7 in every cell and a velocity that is not zero. -/
def uniformPressureState : State :=
  { zeroState with
    u := fun n => 2 * (n : ℚ), v := fun n => (n : ℚ) + 1, w := fun _ => 5,
    pressure := fun _ => 7 }

/-- A state with smoke of density 1/2 at temperature 300 and stale force arrays. -/
def smokeState : State :=
  { zeroState with
    density := fun _ => 1 / 2, temperature := fun _ => 300,
    fx := fun _ => 4, fy := fun _ => 5, fz := fun _ => 6 }

/-- A state in which the voxel with flat index 13, the cell `(1, 1, 1)` of a 3 × 3 × 3 grid,
is occupied, and smoke and velocity are present everywhere. -/
def occupiedState : State :=
  { zeroState with
    u := fun _ => 1, v := fun _ => 2, w := fun _ => 3,
    density := fun _ => 1 / 2, temperature := fun _ => 300,
    m_occupied_voxels := fun n => decide (n = 13) }

/-- The potential on the 3 × 3 × 3 grid that is 1 at the centre cell `(1, 1, 1)` (flat index
13) and 0 elsewhere. -/
def potential3 : Field := fun n => if n = 13 then 1 else 0

/-- A velocity on the 3 × 3 × 3 grid: the gradient of `potential3` on the six faces of the
centre cell (`u(1,1,1) = 1`, `u(2,1,1) = −1`, likewise `v`, `w`), and the value 4 on the
boundary face `u(0,1,1)` (flat index 12). -/
def gradientState : State :=
  { zeroState with
    u := fun n => if n = 13 then 1 else if n = 14 then -1 else if n = 12 then 4 else 0,
    v := fun n => if n = 13 then 1 else if n = 16 then -1 else 0,
    w := fun n => if n = 13 then 1 else if n = 22 then -1 else 0 }

/-- A state at rest with the force `fy = 1`, `fx = fz = 0` in every cell. -/
def forceState : State :=
  { zeroState with fx := fun _ => 0, fy := fun _ => 1, fz := fun _ => 0 }

/-- A device that returns every array as it received it, with a solver that leaves `x` as is. -/
def cwIdle : CudaWorker :=
  { applyExternalForce := fun s => (s.u, s.v, s.w),
    advectVelocityField := fun s => ((s.u, s.v, s.w), (s.u0, s.v0, s.w0)),
    solve := fun x _ => x,
    advectScalarField := fun s => ((s.density, s.density0), (s.temperature, s.temperature0)),
    genTransparencyMap := fun s => s.transparency }

/-- A state at time 0 in which the voxel with flat index 10, the cell `(1, 0, 1)` of the source
box of `cfg3`, is occupied. -/
def occupiedSourceState : State :=
  { zeroState with
    temperature := fun _ => 273, m_occupied_voxels := fun n => decide (n = 10), m_time := 0 }

/-- A state whose clock has passed `FINISH_TIME = 6` of `cfg3`. -/
def lateState : State := { smokeState with m_time := 7 }

/-- A state whose clock equals `FINISH_TIME = 6` of `cfg3`. -/
def finishState : State := { smokeState with m_time := 6 }

/-- A 4 × 3 × 3 grid with a 1 × 1 × 1 source box at the bottom, one row away from the wall. -/
def cfgB : Config :=
  { Nx := 4, Ny := 3, Nz := 3, VOXEL_SIZE := 1, DT := 1 / 10, ALPHA := 49 / 5, BETA := 1,
    T_AMBIENT := 273, VORT_EPS := 1 / 10, INIT_DENSITY := 1, INIT_VELOCITY := 80,
    EMIT_DURATION := 2, FINISH_TIME := 6, SOURCE_SIZE_X := 1, SOURCE_SIZE_Y := 1,
    SOURCE_SIZE_Z := 1, SOURCE_Y_MERGIN := 1, EMITTER_POS := EmitterPos.E_BOTTOM }

/-- A 5 × 5 × 5 grid, the smallest with a cell all of whose neighbours are interior. -/
def cfg5 : Config :=
  { cfg3 with Nx := 5, Ny := 5, Nz := 5 }

/-- A state at rest except for `v(2,1,1) = 4` (flat index 14 of the 3 × 3 × 3 grid), which
gives the centre cell the vorticity `(0, 0, 1)`; all vorticity arrays hold 0. -/
def curlState : State :=
  { zeroState with v := fun n => if n = 14 then 4 else 0 }

/-- The state `curlState` with a stale `omg_x = 3` in the boundary cell `(2, 1, 1)` (flat
index 14). -/
def staleCurlState : State :=
  { curlState with omg_x := fun n => if n = 14 then 3 else 0 }

/-- The velocity component `u` with `+∞` at the face `u(0, 0, 0)` (flat index 0) and 0
elsewhere. -/
def infFaceField : Int → Double := fun n => if n = 0 then Double.inf false else Double.fin 0

/-- The `double` field that is 0 everywhere. -/
def zeroDoubleField : Int → Double := fun _ => Double.fin 0

/-! ## Loops: the cells visited and the writes of a loop to one array -/

theorem mem_intRange {lo hi x : Int} : x ∈ intRange lo hi ↔ lo ≤ x ∧ x < hi := by
  unfold intRange
  simp only [List.mem_map, List.mem_range]
  constructor
  · rintro ⟨n, hn, rfl⟩
    omega
  · rintro ⟨h1, h2⟩
    exact ⟨(x - lo).toNat, by omega, by omega⟩

theorem nodup_intRange (lo hi : Int) : (intRange lo hi).Nodup := by
  unfold intRange
  refine (List.nodup_range _).map ?_
  intro a b h
  simpa using h

theorem mem_boxCells {klo khi jlo jhi ilo ihi i j k : Int} :
    (i, j, k) ∈ boxCells klo khi jlo jhi ilo ihi ↔
      (ilo ≤ i ∧ i < ihi) ∧ (jlo ≤ j ∧ j < jhi) ∧ (klo ≤ k ∧ k < khi) := by
  simp only [boxCells, List.mem_flatMap, List.mem_map, mem_intRange, Prod.mk.injEq]
  constructor
  · rintro ⟨k', hk, j', hj, i', hi, rfl, rfl, rfl⟩
    exact ⟨hi, hj, hk⟩
  · rintro ⟨hi, hj, hk⟩
    exact ⟨k, hk, j, hj, i, hi, rfl, rfl, rfl⟩

theorem nodup_boxCells (klo khi jlo jhi ilo ihi : Int) :
    (boxCells klo khi jlo jhi ilo ihi).Nodup := by
  unfold boxCells
  rw [List.nodup_flatMap]
  refine ⟨fun k _ => ?_, ?_⟩
  · rw [List.nodup_flatMap]
    refine ⟨fun j _ => ?_, ?_⟩
    · refine (nodup_intRange _ _).map ?_
      intro a b h
      simpa using h
    · refine (nodup_intRange jlo jhi).imp ?_
      intro a b hab c hca hcb
      simp only [List.mem_map] at hca hcb
      obtain ⟨_, _, rfl⟩ := hca
      obtain ⟨_, _, h⟩ := hcb
      simp only [Prod.mk.injEq] at h
      exact hab h.2.1.symm
  · refine (nodup_intRange klo khi).imp ?_
    intro a b hab c hca hcb
    simp only [List.mem_flatMap, List.mem_map] at hca hcb
    obtain ⟨_, _, _, _, rfl⟩ := hca
    obtain ⟨_, _, _, _, h⟩ := hcb
    simp only [Prod.mk.injEq] at h
    exact hab h.2.2.symm

theorem mul_add_inj {N a r a' r' : Int} (hr : 0 ≤ r) (hrN : r < N) (hr' : 0 ≤ r')
    (hrN' : r' < N) (h : a * N + r = a' * N + r') : a = a' ∧ r = r' := by
  have hN : 0 < N := by omega
  have ha : a = a' := by
    rcases lt_trichotomy a a' with hlt | heq | hgt
    · exfalso
      have : (a + 1) * N ≤ a' * N := Int.mul_le_mul_of_nonneg_right (by omega) (by omega)
      nlinarith
    · exact heq
    · exfalso
      have : (a' + 1) * N ≤ a * N := Int.mul_le_mul_of_nonneg_right (by omega) (by omega)
      nlinarith
  subst ha
  exact ⟨rfl, by omega⟩

theorem ACC3D_inj {Nx Ny i j k i' j' k' : Int} (hi : 0 ≤ i) (hiN : i < Nx) (hj : 0 ≤ j)
    (hjN : j < Ny) (hi' : 0 ≤ i') (hiN' : i' < Nx) (hj' : 0 ≤ j') (hjN' : j' < Ny)
    (h : ACC3D i j k Ny Nx = ACC3D i' j' k' Ny Nx) : i = i' ∧ j = j' ∧ k = k' := by
  unfold ACC3D at h
  obtain ⟨h1, h2⟩ := mul_add_inj hi hiN hi' hiN' h
  obtain ⟨h3, h4⟩ := mul_add_inj hj hjN hj' hjN' h1
  exact ⟨h2, h4, h3⟩

theorem foldl_writeStep_miss {α : Type} (P : α → Bool) (g : α → Int) (upd : α → ℚ → ℚ)
    (n : Int) : ∀ (l : List α) (f : Field), (∀ c ∈ l, P c = true → g c ≠ n) →
      (l.foldl (writeStep P g upd) f) n = f n := by
  intro l
  induction l with
  | nil => intro f _; rfl
  | cons a t ih =>
    intro f h
    rw [List.foldl_cons, ih _ (fun c hc => h c (List.mem_cons_of_mem _ hc))]
    unfold writeStep
    split
    · rename_i hP
      exact Function.update_noteq (h a (List.mem_cons_self _ _) hP).symm _ _
    · rfl

theorem foldl_writeStep_hit {α : Type} (P : α → Bool) (g : α → Int) (upd : α → ℚ → ℚ) :
    ∀ (l : List α) (f : Field),
      l.Pairwise (fun a b => P a = true → P b = true → g a ≠ g b) →
      ∀ c ∈ l, P c = true → (l.foldl (writeStep P g upd) f) (g c) = upd c (f (g c)) := by
  intro l
  induction l with
  | nil => intro f _ c hc; cases hc
  | cons a t ih =>
    intro f hpw c hc hPc
    rw [List.pairwise_cons] at hpw
    rw [List.foldl_cons]
    rcases List.mem_cons.mp hc with rfl | hct
    · rw [foldl_writeStep_miss P g upd (g c) t _ (fun b hb hPb => (hpw.1 b hb hPc hPb).symm)]
      simp [writeStep, hPc]
    · rw [ih _ hpw.2 c hct hPc]
      unfold writeStep
      split
      · rename_i hPa
        rw [Function.update_noteq (hpw.1 c hct hPa hPc).symm]
      · rfl

theorem foldl_proj {σ α β : Type} (body : σ → α → σ) (proj : σ → β) (step : β → α → β)
    (Inv : σ → Prop) (hinv : ∀ s c, Inv s → Inv (body s c))
    (hstep : ∀ s c, Inv s → proj (body s c) = step (proj s) c) :
    ∀ (l : List α) (s : σ), Inv s → proj (l.foldl body s) = l.foldl step (proj s) := by
  intro l
  induction l with
  | nil => intro s _; rfl
  | cons a t ih =>
    intro s hs
    rw [List.foldl_cons, List.foldl_cons, ih _ (hinv s a hs), hstep s a hs]

theorem foldl_frame {σ α β : Type} (body : σ → α → σ) (proj : σ → β)
    (h : ∀ s c, proj (body s c) = proj s) :
    ∀ (l : List α) (s : σ), proj (l.foldl body s) = proj s := by
  intro l
  induction l with
  | nil => intro s; rfl
  | cons a t ih =>
    intro s
    rw [List.foldl_cons, ih, h]
theorem mem_gridCells {cfg : Config} {c : Int × Int × Int} :
    c ∈ gridCells cfg ↔ InGrid cfg c.1 c.2.1 c.2.2 := by
  obtain ⟨i, j, k⟩ := c
  simp only [gridCells, mem_boxCells, InGrid]
  tauto

/-- Distinct cells of the grid have distinct flat indices, also after a shift of the cell by
`(di, dj, dk)` as long as the guard keeps the shifted `i` and `j` inside the grid. -/
theorem gridCells_pairwise (cfg : Config) (P : Int × Int × Int → Bool) (di dj dk : Int)
    (hP : ∀ c, InGrid cfg c.1 c.2.1 c.2.2 → P c = true →
      0 ≤ c.1 + di ∧ c.1 + di < cfg.Nx ∧ 0 ≤ c.2.1 + dj ∧ c.2.1 + dj < cfg.Ny) :
    (gridCells cfg).Pairwise (fun a b => P a = true → P b = true →
      ACC3D (a.1 + di) (a.2.1 + dj) (a.2.2 + dk) cfg.Ny cfg.Nx ≠
        ACC3D (b.1 + di) (b.2.1 + dj) (b.2.2 + dk) cfg.Ny cfg.Nx) := by
  refine List.Pairwise.imp_of_mem ?_ (nodup_boxCells 0 cfg.Nz 0 cfg.Ny 0 cfg.Nx)
  intro a b ha hb hab hPa hPb heq
  have ha' := hP a (mem_gridCells.mp ha) hPa
  have hb' := hP b (mem_gridCells.mp hb) hPb
  obtain ⟨h1, h2, h3⟩ := ACC3D_inj ha'.1 ha'.2.1 ha'.2.2.1 ha'.2.2.2 hb'.1 hb'.2.1 hb'.2.2.1
    hb'.2.2.2 heq
  apply hab
  obtain ⟨a1, a2, a3⟩ := a
  obtain ⟨b1, b2, b3⟩ := b
  simp only [Prod.mk.injEq]
  simp only at h1 h2 h3
  omega

/-- A loop over the grid that writes entry `ACC3D c` for guarded cells `c`: the value at a
grid cell after the loop. -/
theorem grid_write_at (cfg : Config) (P : Int × Int × Int → Bool)
    (upd : Int × Int × Int → ℚ → ℚ) (f : Field) (i j k : Int) (h : InGrid cfg i j k) :
    ((gridCells cfg).foldl
      (writeStep P (fun c => ACC3D c.1 c.2.1 c.2.2 cfg.Ny cfg.Nx) upd) f)
        (ACC3D i j k cfg.Ny cfg.Nx) =
      if P (i, j, k) = true then upd (i, j, k) (f (ACC3D i j k cfg.Ny cfg.Nx))
      else f (ACC3D i j k cfg.Ny cfg.Nx) := by
  have hpw := gridCells_pairwise cfg P 0 0 0 (fun c hc _ => by
    unfold InGrid at hc; omega)
  simp only [add_zero] at hpw
  split
  · rename_i hPc
    exact foldl_writeStep_hit P _ upd _ f hpw (i, j, k) (mem_gridCells.mpr h) hPc
  · rename_i hPc
    refine foldl_writeStep_miss P _ upd _ _ f ?_
    intro c hc hPc' heq
    have hc' := mem_gridCells.mp hc
    unfold InGrid at hc' h
    obtain ⟨h1, h2, h3⟩ := ACC3D_inj hc'.1 hc'.2.1 hc'.2.2.1 hc'.2.2.2.1 h.1 h.2.1 h.2.2.1
      h.2.2.2.1 heq
    obtain ⟨c1, c2, c3⟩ := c
    simp only at h1 h2 h3
    subst h1 h2 h3
    exact hPc hPc'

/-- A loop over the grid that writes face `(i+1, j, k)` from cell `(i, j, k)` when
`i < Nx - 1`: the value at a grid face after the loop. -/
theorem grid_shift_x_at (cfg : Config) (upd : Int × Int × Int → ℚ → ℚ) (f : Field)
    (i j k : Int) (h : InGrid cfg i j k) :
    ((gridCells cfg).foldl
      (writeStep (fun c => decide (c.1 < cfg.Nx - 1))
        (fun c => ACC3D (c.1 + 1) c.2.1 c.2.2 cfg.Ny cfg.Nx) upd) f)
        (ACC3D i j k cfg.Ny cfg.Nx) =
      if 1 ≤ i then upd (i - 1, j, k) (f (ACC3D i j k cfg.Ny cfg.Nx))
      else f (ACC3D i j k cfg.Ny cfg.Nx) := by
  have hpw := gridCells_pairwise cfg (fun c => decide (c.1 < cfg.Nx - 1)) 1 0 0 (fun c hc hP => by
    unfold InGrid at hc
    simp only [decide_eq_true_eq] at hP
    omega)
  simp only [add_zero] at hpw
  unfold InGrid at h
  split
  · rename_i hi
    have := foldl_writeStep_hit (fun c => decide (c.1 < cfg.Nx - 1))
      (fun c => ACC3D (c.1 + 1) c.2.1 c.2.2 cfg.Ny cfg.Nx) upd _ f hpw (i - 1, j, k)
      (mem_gridCells.mpr (by unfold InGrid; simp only; omega))
      (by simp only [decide_eq_true_eq]; omega)
    simpa only [sub_add_cancel] using this
  · rename_i hi
    refine foldl_writeStep_miss _ _ upd _ _ f ?_
    intro c hc hPc heq
    have hc' := mem_gridCells.mp hc
    unfold InGrid at hc'
    simp only [decide_eq_true_eq] at hPc
    have := (ACC3D_inj (by omega) (by omega) hc'.2.2.1 hc'.2.2.2.1 h.1 h.2.1 h.2.2.1
      h.2.2.2.1 heq).1
    omega

/-- A loop over the grid that writes face `(i, j+1, k)` from cell `(i, j, k)` when
`j < Ny - 1`: the value at a grid face after the loop. -/
theorem grid_shift_y_at (cfg : Config) (upd : Int × Int × Int → ℚ → ℚ) (f : Field)
    (i j k : Int) (h : InGrid cfg i j k) :
    ((gridCells cfg).foldl
      (writeStep (fun c => decide (c.2.1 < cfg.Ny - 1))
        (fun c => ACC3D c.1 (c.2.1 + 1) c.2.2 cfg.Ny cfg.Nx) upd) f)
        (ACC3D i j k cfg.Ny cfg.Nx) =
      if 1 ≤ j then upd (i, j - 1, k) (f (ACC3D i j k cfg.Ny cfg.Nx))
      else f (ACC3D i j k cfg.Ny cfg.Nx) := by
  have hpw := gridCells_pairwise cfg (fun c => decide (c.2.1 < cfg.Ny - 1)) 0 1 0
    (fun c hc hP => by
      unfold InGrid at hc
      simp only [decide_eq_true_eq] at hP
      omega)
  simp only [add_zero] at hpw
  unfold InGrid at h
  split
  · rename_i hj
    have := foldl_writeStep_hit (fun c => decide (c.2.1 < cfg.Ny - 1))
      (fun c => ACC3D c.1 (c.2.1 + 1) c.2.2 cfg.Ny cfg.Nx) upd _ f hpw (i, j - 1, k)
      (mem_gridCells.mpr (by unfold InGrid; simp only; omega))
      (by simp only [decide_eq_true_eq]; omega)
    simpa only [sub_add_cancel] using this
  · rename_i hj
    refine foldl_writeStep_miss _ _ upd _ _ f ?_
    intro c hc hPc heq
    have hc' := mem_gridCells.mp hc
    unfold InGrid at hc'
    simp only [decide_eq_true_eq] at hPc
    have := (ACC3D_inj hc'.1 hc'.2.1 (by omega) (by omega) h.1 h.2.1 h.2.2.1
      h.2.2.2.1 heq).2.1
    omega

/-- A loop over the grid that writes face `(i, j, k+1)` from cell `(i, j, k)` when
`k < Nz - 1`: the value at a grid face after the loop. -/
theorem grid_shift_z_at (cfg : Config) (upd : Int × Int × Int → ℚ → ℚ) (f : Field)
    (i j k : Int) (h : InGrid cfg i j k) :
    ((gridCells cfg).foldl
      (writeStep (fun c => decide (c.2.2 < cfg.Nz - 1))
        (fun c => ACC3D c.1 c.2.1 (c.2.2 + 1) cfg.Ny cfg.Nx) upd) f)
        (ACC3D i j k cfg.Ny cfg.Nx) =
      if 1 ≤ k then upd (i, j, k - 1) (f (ACC3D i j k cfg.Ny cfg.Nx))
      else f (ACC3D i j k cfg.Ny cfg.Nx) := by
  have hpw := gridCells_pairwise cfg (fun c => decide (c.2.2 < cfg.Nz - 1)) 0 0 1
    (fun c hc hP => by
      unfold InGrid at hc
      omega)
  simp only [add_zero] at hpw
  unfold InGrid at h
  split
  · rename_i hk
    have := foldl_writeStep_hit (fun c => decide (c.2.2 < cfg.Nz - 1))
      (fun c => ACC3D c.1 c.2.1 (c.2.2 + 1) cfg.Ny cfg.Nx) upd _ f hpw (i, j, k - 1)
      (mem_gridCells.mpr (by unfold InGrid; simp only; omega))
      (by simp only [decide_eq_true_eq]; omega)
    simpa only [sub_add_cancel] using this
  · rename_i hk
    refine foldl_writeStep_miss _ _ upd _ _ f ?_
    intro c hc hPc heq
    have hc' := mem_gridCells.mp hc
    unfold InGrid at hc'
    have := (ACC3D_inj hc'.1 hc'.2.1 hc'.2.2.1 hc'.2.2.2.1 h.1 h.2.1 h.2.2.1
      h.2.2.2.1 heq).2.2
    omega

/-- A loop whose every guarded write stores the value already there leaves the array as is. -/
theorem foldl_writeStep_id {α : Type} (P : α → Bool) (g : α → Int) (upd : α → ℚ → ℚ) :
    ∀ (l : List α) (f : Field), (∀ c ∈ l, P c = true → ∀ y, upd c y = y) →
      l.foldl (writeStep P g upd) f = f := by
  intro l
  induction l with
  | nil => intro f _; rfl
  | cons a t ih =>
    intro f h
    rw [List.foldl_cons, ih _ (fun c hc => h c (List.mem_cons_of_mem _ hc))]
    unfold writeStep
    split
    · rename_i hP
      rw [h a (List.mem_cons_self _ _) hP]
      exact Function.update_eq_self _ _
    · rfl

/-! ## `apply_pressure` -/

theorem apply_pressure_pressure (cfg : Config) (s : State) :
    (apply_pressure cfg s).pressure = s.pressure := by
  unfold apply_pressure FOR_EACH_CELL forBox
  refine foldl_frame _ (fun t : State => t.pressure) ?_ _ s
  intro t c
  simp only
  split_ifs <;> rfl

theorem apply_pressure_u (cfg : Config) (s : State) :
    (apply_pressure cfg s).u = (gridCells cfg).foldl
      (writeStep (fun c => decide (c.1 < cfg.Nx - 1))
        (fun c => ACC3D (c.1 + 1) c.2.1 c.2.2 cfg.Ny cfg.Nx)
        (fun c y => y - cfg.DT * (s.pressure (ACC3D (c.1 + 1) c.2.1 c.2.2 cfg.Ny cfg.Nx) -
          s.pressure (ACC3D c.1 c.2.1 c.2.2 cfg.Ny cfg.Nx)) / cfg.VOXEL_SIZE)) s.u := by
  unfold apply_pressure FOR_EACH_CELL forBox
  refine foldl_proj _ (fun t : State => t.u) _ (fun t => t.pressure = s.pressure) ?_ ?_ _ s rfl
  · intro t c ht
    simp only
    split_ifs <;> exact ht
  · intro t c ht
    simp only at ht
    simp only [writeStep, decide_eq_true_eq]
    split_ifs <;> simp only [ht]

theorem apply_pressure_v (cfg : Config) (s : State) :
    (apply_pressure cfg s).v = (gridCells cfg).foldl
      (writeStep (fun c => decide (c.2.1 < cfg.Ny - 1))
        (fun c => ACC3D c.1 (c.2.1 + 1) c.2.2 cfg.Ny cfg.Nx)
        (fun c y => y - cfg.DT * (s.pressure (ACC3D c.1 (c.2.1 + 1) c.2.2 cfg.Ny cfg.Nx) -
          s.pressure (ACC3D c.1 c.2.1 c.2.2 cfg.Ny cfg.Nx)) / cfg.VOXEL_SIZE)) s.v := by
  unfold apply_pressure FOR_EACH_CELL forBox
  refine foldl_proj _ (fun t : State => t.v) _ (fun t => t.pressure = s.pressure) ?_ ?_ _ s rfl
  · intro t c ht
    simp only
    split_ifs <;> exact ht
  · intro t c ht
    simp only at ht
    simp only [writeStep, decide_eq_true_eq]
    split_ifs <;> simp only [ht]

theorem apply_pressure_w (cfg : Config) (s : State) :
    (apply_pressure cfg s).w = (gridCells cfg).foldl
      (writeStep (fun c => decide (c.2.2 < cfg.Nz - 1))
        (fun c => ACC3D c.1 c.2.1 (c.2.2 + 1) cfg.Ny cfg.Nx)
        (fun c y => y - cfg.DT * (s.pressure (ACC3D c.1 c.2.1 (c.2.2 + 1) cfg.Ny cfg.Nx) -
          s.pressure (ACC3D c.1 c.2.1 c.2.2 cfg.Ny cfg.Nx)) / cfg.VOXEL_SIZE)) s.w := by
  unfold apply_pressure FOR_EACH_CELL forBox
  refine foldl_proj _ (fun t : State => t.w) _ (fun t => t.pressure = s.pressure) ?_ ?_ _ s rfl
  · intro t c ht
    simp only
    split_ifs <;> exact ht
  · intro t c ht
    simp only at ht
    simp only [writeStep, decide_eq_true_eq]
    split_ifs <;> simp only [ht]

/-- The value of every velocity face and the pressure after `apply_pressure`. -/
theorem apply_pressure_at (cfg : Config) (s : State) (i j k : Int)
    (h : InGrid cfg i j k) :
    ((1 ≤ i → (apply_pressure cfg s).u (ACC3D i j k cfg.Ny cfg.Nx) =
        s.u (ACC3D i j k cfg.Ny cfg.Nx) -
          cfg.DT * (s.pressure (ACC3D i j k cfg.Ny cfg.Nx) -
            s.pressure (ACC3D (i - 1) j k cfg.Ny cfg.Nx)) / cfg.VOXEL_SIZE) ∧
      (i = 0 → (apply_pressure cfg s).u (ACC3D i j k cfg.Ny cfg.Nx) =
        s.u (ACC3D i j k cfg.Ny cfg.Nx))) ∧
    ((1 ≤ j → (apply_pressure cfg s).v (ACC3D i j k cfg.Ny cfg.Nx) =
        s.v (ACC3D i j k cfg.Ny cfg.Nx) -
          cfg.DT * (s.pressure (ACC3D i j k cfg.Ny cfg.Nx) -
            s.pressure (ACC3D i (j - 1) k cfg.Ny cfg.Nx)) / cfg.VOXEL_SIZE) ∧
      (j = 0 → (apply_pressure cfg s).v (ACC3D i j k cfg.Ny cfg.Nx) =
        s.v (ACC3D i j k cfg.Ny cfg.Nx))) ∧
    ((1 ≤ k → (apply_pressure cfg s).w (ACC3D i j k cfg.Ny cfg.Nx) =
        s.w (ACC3D i j k cfg.Ny cfg.Nx) -
          cfg.DT * (s.pressure (ACC3D i j k cfg.Ny cfg.Nx) -
            s.pressure (ACC3D i j (k - 1) cfg.Ny cfg.Nx)) / cfg.VOXEL_SIZE) ∧
      (k = 0 → (apply_pressure cfg s).w (ACC3D i j k cfg.Ny cfg.Nx) =
        s.w (ACC3D i j k cfg.Ny cfg.Nx))) ∧
    (apply_pressure cfg s).pressure = s.pressure := by
  refine ⟨⟨?_, ?_⟩, ⟨?_, ?_⟩, ⟨?_, ?_⟩, apply_pressure_pressure cfg s⟩
  · intro hi
    rw [apply_pressure_u, grid_shift_x_at cfg _ _ i j k h, if_pos hi]
    simp only [sub_add_cancel]
  · intro hi
    rw [apply_pressure_u, grid_shift_x_at cfg _ _ i j k h, if_neg (by omega)]
  · intro hj
    rw [apply_pressure_v, grid_shift_y_at cfg _ _ i j k h, if_pos hj]
    simp only [sub_add_cancel]
  · intro hj
    rw [apply_pressure_v, grid_shift_y_at cfg _ _ i j k h, if_neg (by omega)]
  · intro hk
    rw [apply_pressure_w, grid_shift_z_at cfg _ _ i j k h, if_pos hk]
    simp only [sub_add_cancel]
  · intro hk
    rw [apply_pressure_w, grid_shift_z_at cfg _ _ i j k h, if_neg (by omega)]

/-- C5: `apply_pressure`, run as the in-place sequential loop over all cells, equals the
point-wise definition. At every grid position `(i, j, k)`: if `i ≥ 1` the face ends as
`u(i,j,k) − dt·(pressure(i,j,k) − pressure(i−1,j,k))/h` (the subtraction is applied once, so
the face is written exactly once), and `u(0,j,k)` is unchanged; likewise for `v` along `j`
and `w` along `k`; the pressure field is unchanged. -/
theorem apply_pressure_pointwise (cfg : Config) (s : State) (i j k : Int)
    (h : InGrid cfg i j k) :
    ((1 ≤ i → (apply_pressure cfg s).u (ACC3D i j k cfg.Ny cfg.Nx) =
        s.u (ACC3D i j k cfg.Ny cfg.Nx) -
          cfg.DT * (s.pressure (ACC3D i j k cfg.Ny cfg.Nx) -
            s.pressure (ACC3D (i - 1) j k cfg.Ny cfg.Nx)) / cfg.VOXEL_SIZE) ∧
      (i = 0 → (apply_pressure cfg s).u (ACC3D i j k cfg.Ny cfg.Nx) =
        s.u (ACC3D i j k cfg.Ny cfg.Nx))) ∧
    ((1 ≤ j → (apply_pressure cfg s).v (ACC3D i j k cfg.Ny cfg.Nx) =
        s.v (ACC3D i j k cfg.Ny cfg.Nx) -
          cfg.DT * (s.pressure (ACC3D i j k cfg.Ny cfg.Nx) -
            s.pressure (ACC3D i (j - 1) k cfg.Ny cfg.Nx)) / cfg.VOXEL_SIZE) ∧
      (j = 0 → (apply_pressure cfg s).v (ACC3D i j k cfg.Ny cfg.Nx) =
        s.v (ACC3D i j k cfg.Ny cfg.Nx))) ∧
    ((1 ≤ k → (apply_pressure cfg s).w (ACC3D i j k cfg.Ny cfg.Nx) =
        s.w (ACC3D i j k cfg.Ny cfg.Nx) -
          cfg.DT * (s.pressure (ACC3D i j k cfg.Ny cfg.Nx) -
            s.pressure (ACC3D i j (k - 1) cfg.Ny cfg.Nx)) / cfg.VOXEL_SIZE) ∧
      (k = 0 → (apply_pressure cfg s).w (ACC3D i j k cfg.Ny cfg.Nx) =
        s.w (ACC3D i j k cfg.Ny cfg.Nx))) ∧
    (apply_pressure cfg s).pressure = s.pressure :=
  apply_pressure_at cfg s i j k h

/-- Witness for C5 on the 3 × 3 × 3 grid: face `u(1,2,0)` (flat index 7) goes from 14 to
`14 − (1/10)·(70 − 60)/1 = 13`, and `v(1,0,2)` (a `j = 0` face) keeps its value. -/
theorem apply_pressure_pointwise_witness :
    InGrid cfg3 1 2 0 ∧ (apply_pressure cfg3 rampState).u 7 = 13 ∧
      InGrid cfg3 1 0 2 ∧ (apply_pressure cfg3 rampState).v 19 = 20 := by
  have h1 : InGrid cfg3 1 2 0 := by decide
  have h2 : InGrid cfg3 1 0 2 := by decide
  have e1 := (apply_pressure_pointwise cfg3 rampState 1 2 0 h1).1.1 (by decide)
  have e2 := (apply_pressure_pointwise cfg3 rampState 1 0 2 h2).2.1.2 rfl
  refine ⟨h1, ?_, h2, ?_⟩
  · norm_num [ACC3D, cfg3, rampState, zeroState] at e1
    exact e1
  · norm_num [ACC3D, cfg3, rampState, zeroState] at e2
    exact e2

/-- C6: for every velocity field and every pressure field that has the same value `c` in all
cells of the grid, `apply_pressure` returns `u`, `v` and `w` unchanged at every index (exact
arithmetic, voxel size `h > 0`). -/
theorem apply_pressure_uniform (cfg : Config) (s : State) (c : ℚ)
    (hh : 0 < cfg.VOXEL_SIZE)
    (hp : ∀ i j k, InGrid cfg i j k → s.pressure (ACC3D i j k cfg.Ny cfg.Nx) = c) :
    (apply_pressure cfg s).u = s.u ∧ (apply_pressure cfg s).v = s.v ∧
      (apply_pressure cfg s).w = s.w := by
  have _ := hh
  refine ⟨?_, ?_, ?_⟩
  · rw [apply_pressure_u]
    refine foldl_writeStep_id _ _ _ _ _ ?_
    intro a ha hPa y
    have hg := mem_gridCells.mp ha
    simp only [decide_eq_true_eq] at hPa
    have hg' : InGrid cfg (a.1 + 1) a.2.1 a.2.2 := by
      unfold InGrid at hg ⊢
      omega
    simp only [hp _ _ _ hg, hp _ _ _ hg', sub_self, mul_zero, zero_div, sub_zero]
  · rw [apply_pressure_v]
    refine foldl_writeStep_id _ _ _ _ _ ?_
    intro a ha hPa y
    have hg := mem_gridCells.mp ha
    simp only [decide_eq_true_eq] at hPa
    have hg' : InGrid cfg a.1 (a.2.1 + 1) a.2.2 := by
      unfold InGrid at hg ⊢
      omega
    simp only [hp _ _ _ hg, hp _ _ _ hg', sub_self, mul_zero, zero_div, sub_zero]
  · rw [apply_pressure_w]
    refine foldl_writeStep_id _ _ _ _ _ ?_
    intro a ha hPa y
    have hg := mem_gridCells.mp ha
    simp only [decide_eq_true_eq] at hPa
    have hg' : InGrid cfg a.1 a.2.1 (a.2.2 + 1) := by
      unfold InGrid at hg ⊢
      omega
    simp only [hp _ _ _ hg, hp _ _ _ hg', sub_self, mul_zero, zero_div, sub_zero]

/-- Witness for C6: on the 3 × 3 × 3 grid with pressure 7 everywhere the velocity is kept. -/
theorem apply_pressure_uniform_witness :
    (apply_pressure cfg3 uniformPressureState).u = uniformPressureState.u ∧
      (apply_pressure cfg3 uniformPressureState).v = uniformPressureState.v ∧
      (apply_pressure cfg3 uniformPressureState).w = uniformPressureState.w :=
  apply_pressure_uniform cfg3 uniformPressureState 7 (by norm_num [cfg3])
    (fun _ _ _ _ => rfl)

/-! ## `calculate_external_force` -/

theorem calculate_external_force_density (cfg : Config) (s : State) :
    (calculate_external_force cfg s).density = s.density := by
  unfold calculate_external_force FOR_EACH_CELL forBox
  refine foldl_frame _ (fun t : State => t.density) ?_ _ s
  intro t c
  rfl

theorem calculate_external_force_temperature (cfg : Config) (s : State) :
    (calculate_external_force cfg s).temperature = s.temperature := by
  unfold calculate_external_force FOR_EACH_CELL forBox
  refine foldl_frame _ (fun t : State => t.temperature) ?_ _ s
  intro t c
  rfl

theorem calculate_external_force_m_time (cfg : Config) (s : State) :
    (calculate_external_force cfg s).m_time = s.m_time := by
  unfold calculate_external_force FOR_EACH_CELL forBox
  refine foldl_frame _ (fun t : State => t.m_time) ?_ _ s
  intro t c
  rfl

theorem calculate_external_force_fx (cfg : Config) (s : State) :
    (calculate_external_force cfg s).fx = (gridCells cfg).foldl
      (writeStep (fun _ => true) (fun c => ACC3D c.1 c.2.1 c.2.2 cfg.Ny cfg.Nx)
        (fun _ _ => 0)) s.fx := by
  unfold calculate_external_force FOR_EACH_CELL forBox
  refine foldl_proj _ (fun t : State => t.fx) _ (fun _ => True) ?_ ?_ _ s trivial
  · intro _ _ _
    trivial
  · intro t c _
    simp only [writeStep, if_true]

theorem calculate_external_force_fz (cfg : Config) (s : State) :
    (calculate_external_force cfg s).fz = (gridCells cfg).foldl
      (writeStep (fun _ => true) (fun c => ACC3D c.1 c.2.1 c.2.2 cfg.Ny cfg.Nx)
        (fun _ _ => 0)) s.fz := by
  unfold calculate_external_force FOR_EACH_CELL forBox
  refine foldl_proj _ (fun t : State => t.fz) _ (fun _ => True) ?_ ?_ _ s trivial
  · intro _ _ _
    trivial
  · intro t c _
    simp only [writeStep, if_true]

theorem calculate_external_force_fy (cfg : Config) (s : State) :
    (calculate_external_force cfg s).fy = (gridCells cfg).foldl
      (writeStep (fun _ => true) (fun c => ACC3D c.1 c.2.1 c.2.2 cfg.Ny cfg.Nx)
        (fun c _ => -cfg.ALPHA * s.density (ACC3D c.1 c.2.1 c.2.2 cfg.Ny cfg.Nx) +
          cfg.BETA * (s.temperature (ACC3D c.1 c.2.1 c.2.2 cfg.Ny cfg.Nx) - cfg.T_AMBIENT)))
        s.fy := by
  unfold calculate_external_force FOR_EACH_CELL forBox
  refine foldl_proj _ (fun t : State => t.fy) _
    (fun t => t.density = s.density ∧ t.temperature = s.temperature) ?_ ?_ _ s ⟨rfl, rfl⟩
  · intro t c ht
    exact ht
  · intro t c ht
    simp only [writeStep, if_true, ht.1, ht.2]

/-- C2: after `calculate_external_force`, for every cell `(i, j, k)` of the grid, `fx = 0`,
`fz = 0` and `fy = −ALPHA·density(i,j,k) + BETA·(temperature(i,j,k) − T_AMBIENT)`, whatever
`fx`, `fy`, `fz` held before; `density` and `temperature` are unchanged. -/
theorem calculate_external_force_spec (cfg : Config) (s : State) (i j k : Int)
    (h : InGrid cfg i j k) :
    (calculate_external_force cfg s).fx (ACC3D i j k cfg.Ny cfg.Nx) = 0 ∧
    (calculate_external_force cfg s).fz (ACC3D i j k cfg.Ny cfg.Nx) = 0 ∧
    (calculate_external_force cfg s).fy (ACC3D i j k cfg.Ny cfg.Nx) =
      -cfg.ALPHA * s.density (ACC3D i j k cfg.Ny cfg.Nx) +
        cfg.BETA * (s.temperature (ACC3D i j k cfg.Ny cfg.Nx) - cfg.T_AMBIENT) ∧
    (calculate_external_force cfg s).density = s.density ∧
    (calculate_external_force cfg s).temperature = s.temperature := by
  refine ⟨?_, ?_, ?_, calculate_external_force_density cfg s,
    calculate_external_force_temperature cfg s⟩
  · rw [calculate_external_force_fx, grid_write_at cfg _ _ _ i j k h, if_pos rfl]
  · rw [calculate_external_force_fz, grid_write_at cfg _ _ _ i j k h, if_pos rfl]
  · rw [calculate_external_force_fy, grid_write_at cfg _ _ _ i j k h, if_pos rfl]

/-- Witness for C2 on the 3 × 3 × 3 grid at cell `(2, 1, 0)` (flat index 5): with density 1/2
and temperature 300 the stale forces 4, 5, 6 become `0`, `−(49/5)/2 + (300 − 273) = 221/10`
and `0`. -/
theorem calculate_external_force_spec_witness :
    InGrid cfg3 2 1 0 ∧ (calculate_external_force cfg3 smokeState).fx 5 = 0 ∧
      (calculate_external_force cfg3 smokeState).fz 5 = 0 ∧
      (calculate_external_force cfg3 smokeState).fy 5 = 221 / 10 := by
  have h : InGrid cfg3 2 1 0 := by decide
  have e := calculate_external_force_spec cfg3 smokeState 2 1 0 h
  norm_num [ACC3D, cfg3, smokeState, zeroState] at e
  exact ⟨h, e.1, e.2.1, e.2.2.1⟩

/-! ## `fix_occupied_voxels` -/

theorem fix_occupied_voxels_mask (cfg : Config) (s : State) :
    (fix_occupied_voxels cfg s).m_occupied_voxels = s.m_occupied_voxels := by
  unfold fix_occupied_voxels FOR_EACH_CELL forBox
  refine foldl_frame _ (fun t : State => t.m_occupied_voxels) ?_ _ s
  intro t c
  simp only
  split_ifs <;> rfl

theorem fix_occupied_voxels_m_time (cfg : Config) (s : State) :
    (fix_occupied_voxels cfg s).m_time = s.m_time := by
  unfold fix_occupied_voxels FOR_EACH_CELL forBox
  refine foldl_frame _ (fun t : State => t.m_time) ?_ _ s
  intro t c
  simp only
  split_ifs <;> rfl

/-- Each of the five arrays that `fix_occupied_voxels` writes is the result of a loop that
stores 0 (for `temperature`: `T_AMBIENT`) at the occupied cells. -/
theorem fix_occupied_voxels_fields (cfg : Config) (s : State) :
    (fix_occupied_voxels cfg s).u = (gridCells cfg).foldl
      (writeStep (fun c => s.m_occupied_voxels (ACC3D c.1 c.2.1 c.2.2 cfg.Ny cfg.Nx))
        (fun c => ACC3D c.1 c.2.1 c.2.2 cfg.Ny cfg.Nx) (fun _ _ => 0)) s.u ∧
    (fix_occupied_voxels cfg s).v = (gridCells cfg).foldl
      (writeStep (fun c => s.m_occupied_voxels (ACC3D c.1 c.2.1 c.2.2 cfg.Ny cfg.Nx))
        (fun c => ACC3D c.1 c.2.1 c.2.2 cfg.Ny cfg.Nx) (fun _ _ => 0)) s.v ∧
    (fix_occupied_voxels cfg s).w = (gridCells cfg).foldl
      (writeStep (fun c => s.m_occupied_voxels (ACC3D c.1 c.2.1 c.2.2 cfg.Ny cfg.Nx))
        (fun c => ACC3D c.1 c.2.1 c.2.2 cfg.Ny cfg.Nx) (fun _ _ => 0)) s.w ∧
    (fix_occupied_voxels cfg s).density = (gridCells cfg).foldl
      (writeStep (fun c => s.m_occupied_voxels (ACC3D c.1 c.2.1 c.2.2 cfg.Ny cfg.Nx))
        (fun c => ACC3D c.1 c.2.1 c.2.2 cfg.Ny cfg.Nx) (fun _ _ => 0)) s.density ∧
    (fix_occupied_voxels cfg s).temperature = (gridCells cfg).foldl
      (writeStep (fun c => s.m_occupied_voxels (ACC3D c.1 c.2.1 c.2.2 cfg.Ny cfg.Nx))
        (fun c => ACC3D c.1 c.2.1 c.2.2 cfg.Ny cfg.Nx) (fun _ _ => cfg.T_AMBIENT))
        s.temperature := by
  unfold fix_occupied_voxels FOR_EACH_CELL forBox
  refine ⟨?_, ?_, ?_, ?_, ?_⟩
  · refine foldl_proj _ (fun t : State => t.u) _
      (fun t => t.m_occupied_voxels = s.m_occupied_voxels) ?_ ?_ _ s rfl
    · intro t c ht
      simp only
      split_ifs <;> exact ht
    · intro t c ht
      simp only at ht
      simp only [writeStep, ht]
      split_ifs <;> rfl
  · refine foldl_proj _ (fun t : State => t.v) _
      (fun t => t.m_occupied_voxels = s.m_occupied_voxels) ?_ ?_ _ s rfl
    · intro t c ht
      simp only
      split_ifs <;> exact ht
    · intro t c ht
      simp only at ht
      simp only [writeStep, ht]
      split_ifs <;> rfl
  · refine foldl_proj _ (fun t : State => t.w) _
      (fun t => t.m_occupied_voxels = s.m_occupied_voxels) ?_ ?_ _ s rfl
    · intro t c ht
      simp only
      split_ifs <;> exact ht
    · intro t c ht
      simp only at ht
      simp only [writeStep, ht]
      split_ifs <;> rfl
  · refine foldl_proj _ (fun t : State => t.density) _
      (fun t => t.m_occupied_voxels = s.m_occupied_voxels) ?_ ?_ _ s rfl
    · intro t c ht
      simp only
      split_ifs <;> exact ht
    · intro t c ht
      simp only at ht
      simp only [writeStep, ht]
      split_ifs <;> rfl
  · refine foldl_proj _ (fun t : State => t.temperature) _
      (fun t => t.m_occupied_voxels = s.m_occupied_voxels) ?_ ?_ _ s rfl
    · intro t c ht
      simp only
      split_ifs <;> exact ht
    · intro t c ht
      simp only at ht
      simp only [writeStep, ht]
      split_ifs <;> rfl

/-- The post-state of `fix_occupied_voxels` at a grid cell, for all five arrays. -/
theorem fix_occupied_voxels_at (cfg : Config) (s : State) (i j k : Int)
    (h : InGrid cfg i j k) :
    (s.m_occupied_voxels (ACC3D i j k cfg.Ny cfg.Nx) = true →
      (fix_occupied_voxels cfg s).u (ACC3D i j k cfg.Ny cfg.Nx) = 0 ∧
      (fix_occupied_voxels cfg s).v (ACC3D i j k cfg.Ny cfg.Nx) = 0 ∧
      (fix_occupied_voxels cfg s).w (ACC3D i j k cfg.Ny cfg.Nx) = 0 ∧
      (fix_occupied_voxels cfg s).density (ACC3D i j k cfg.Ny cfg.Nx) = 0 ∧
      (fix_occupied_voxels cfg s).temperature (ACC3D i j k cfg.Ny cfg.Nx) = cfg.T_AMBIENT) ∧
    (s.m_occupied_voxels (ACC3D i j k cfg.Ny cfg.Nx) = false →
      (fix_occupied_voxels cfg s).u (ACC3D i j k cfg.Ny cfg.Nx) =
        s.u (ACC3D i j k cfg.Ny cfg.Nx) ∧
      (fix_occupied_voxels cfg s).v (ACC3D i j k cfg.Ny cfg.Nx) =
        s.v (ACC3D i j k cfg.Ny cfg.Nx) ∧
      (fix_occupied_voxels cfg s).w (ACC3D i j k cfg.Ny cfg.Nx) =
        s.w (ACC3D i j k cfg.Ny cfg.Nx) ∧
      (fix_occupied_voxels cfg s).density (ACC3D i j k cfg.Ny cfg.Nx) =
        s.density (ACC3D i j k cfg.Ny cfg.Nx) ∧
      (fix_occupied_voxels cfg s).temperature (ACC3D i j k cfg.Ny cfg.Nx) =
        s.temperature (ACC3D i j k cfg.Ny cfg.Nx)) := by
  obtain ⟨hu, hv, hw, hd, ht⟩ := fix_occupied_voxels_fields cfg s
  rw [hu, hv, hw, hd, ht]
  simp only [grid_write_at cfg _ _ _ i j k h]
  constructor
  · intro ho
    simp only [ho, if_true, and_self]
  · intro ho
    simp [ho]

/-- C7: the exact post-state of `fix_occupied_voxels`, for every occupancy mask and every
pre-state: at each grid cell with `occupied = true`, `u`, `v`, `w` and `density` are 0 and
`temperature` is `T_AMBIENT`; at each grid cell with `occupied = false`, `u`, `v`, `w`,
`density` and `temperature` keep their previous values; the occupancy mask is unchanged. -/
theorem fix_occupied_voxels_spec (cfg : Config) (s : State) (i j k : Int)
    (h : InGrid cfg i j k) :
    (s.m_occupied_voxels (ACC3D i j k cfg.Ny cfg.Nx) = true →
      (fix_occupied_voxels cfg s).u (ACC3D i j k cfg.Ny cfg.Nx) = 0 ∧
      (fix_occupied_voxels cfg s).v (ACC3D i j k cfg.Ny cfg.Nx) = 0 ∧
      (fix_occupied_voxels cfg s).w (ACC3D i j k cfg.Ny cfg.Nx) = 0 ∧
      (fix_occupied_voxels cfg s).density (ACC3D i j k cfg.Ny cfg.Nx) = 0 ∧
      (fix_occupied_voxels cfg s).temperature (ACC3D i j k cfg.Ny cfg.Nx) = cfg.T_AMBIENT) ∧
    (s.m_occupied_voxels (ACC3D i j k cfg.Ny cfg.Nx) = false →
      (fix_occupied_voxels cfg s).u (ACC3D i j k cfg.Ny cfg.Nx) =
        s.u (ACC3D i j k cfg.Ny cfg.Nx) ∧
      (fix_occupied_voxels cfg s).v (ACC3D i j k cfg.Ny cfg.Nx) =
        s.v (ACC3D i j k cfg.Ny cfg.Nx) ∧
      (fix_occupied_voxels cfg s).w (ACC3D i j k cfg.Ny cfg.Nx) =
        s.w (ACC3D i j k cfg.Ny cfg.Nx) ∧
      (fix_occupied_voxels cfg s).density (ACC3D i j k cfg.Ny cfg.Nx) =
        s.density (ACC3D i j k cfg.Ny cfg.Nx) ∧
      (fix_occupied_voxels cfg s).temperature (ACC3D i j k cfg.Ny cfg.Nx) =
        s.temperature (ACC3D i j k cfg.Ny cfg.Nx)) ∧
    (fix_occupied_voxels cfg s).m_occupied_voxels = s.m_occupied_voxels :=
  ⟨(fix_occupied_voxels_at cfg s i j k h).1, (fix_occupied_voxels_at cfg s i j k h).2,
    fix_occupied_voxels_mask cfg s⟩

/-- Witness for C7 on the 3 × 3 × 3 grid: the occupied cell `(1, 1, 1)` (flat index 13) is
cleared, the free cell `(0, 1, 1)` (flat index 12) keeps its density 1/2. -/
theorem fix_occupied_voxels_spec_witness :
    InGrid cfg3 1 1 1 ∧ (fix_occupied_voxels cfg3 occupiedState).density 13 = 0 ∧
      (fix_occupied_voxels cfg3 occupiedState).temperature 13 = 273 ∧
      InGrid cfg3 0 1 1 ∧ (fix_occupied_voxels cfg3 occupiedState).density 12 = 1 / 2 := by
  have h1 : InGrid cfg3 1 1 1 := by decide
  have h2 : InGrid cfg3 0 1 1 := by decide
  have e1 := (fix_occupied_voxels_spec cfg3 occupiedState 1 1 1 h1).1 (by decide)
  have e2 := (fix_occupied_voxels_spec cfg3 occupiedState 0 1 1 h2).2.1 (by decide)
  norm_num [ACC3D, cfg3, occupiedState, zeroState] at e1 e2
  exact ⟨h1, e1.2.2.2.1, e1.2.2.2.2, h2, e2.2.2.2.1⟩

/-! ## `calculate_pressure` -/

theorem build_b_cell_u (cfg : Config) (coeff : ℚ) (i j k : Int) (t : State) :
    (build_b_cell cfg coeff i j k t).u = t.u := rfl

theorem build_b_cell_v (cfg : Config) (coeff : ℚ) (i j k : Int) (t : State) :
    (build_b_cell cfg coeff i j k t).v = t.v := rfl

theorem build_b_cell_w (cfg : Config) (coeff : ℚ) (i j k : Int) (t : State) :
    (build_b_cell cfg coeff i j k t).w = t.w := rfl

theorem build_b_cell_x (cfg : Config) (coeff : ℚ) (i j k : Int) (t : State) :
    (build_b_cell cfg coeff i j k t).x = t.x := rfl

/-- The six accumulations and the scaling of one "Build b" iteration, as one write. -/
theorem build_b_cell_b (cfg : Config) (coeff : ℚ) (i j k : Int) (t : State) :
    (build_b_cell cfg coeff i j k t).b = Function.update t.b (ACC3D i j k cfg.Ny cfg.Nx)
      ((t.b (ACC3D i j k cfg.Ny cfg.Nx) +
        -1 * (if k > 0 then 1 else 0) * t.w (ACC3D i j k cfg.Ny cfg.Nx) +
        -1 * (if j > 0 then 1 else 0) * t.v (ACC3D i j k cfg.Ny cfg.Nx) +
        -1 * (if i > 0 then 1 else 0) * t.u (ACC3D i j k cfg.Ny cfg.Nx) +
        1 * (if i < cfg.Nx - 1 then 1 else 0) * t.u (ACC3D (i + 1) j k cfg.Ny cfg.Nx) +
        1 * (if j < cfg.Ny - 1 then 1 else 0) * t.v (ACC3D i (j + 1) k cfg.Ny cfg.Nx) +
        1 * (if k < cfg.Nz - 1 then 1 else 0) * t.w (ACC3D i j (k + 1) cfg.Ny cfg.Nx)) *
          coeff) := by
  have h6 : List.range 6 = [0, 1, 2, 3, 4, 5] := rfl
  simp only [build_b_cell, h6, List.foldl_cons, List.foldl_nil, Function.update_same,
    Function.update_idem, List.getD_cons_zero, List.getD_cons_succ]

theorem calculate_pressure_build_b_b (cfg : Config) (s : State) :
    (calculate_pressure_build_b cfg s).b = (gridCells cfg).foldl
      (writeStep (fun _ => true) (fun c => ACC3D c.1 c.2.1 c.2.2 cfg.Ny cfg.Nx)
        (fun c y => (y +
          -1 * (if c.2.2 > 0 then 1 else 0) * s.w (ACC3D c.1 c.2.1 c.2.2 cfg.Ny cfg.Nx) +
          -1 * (if c.2.1 > 0 then 1 else 0) * s.v (ACC3D c.1 c.2.1 c.2.2 cfg.Ny cfg.Nx) +
          -1 * (if c.1 > 0 then 1 else 0) * s.u (ACC3D c.1 c.2.1 c.2.2 cfg.Ny cfg.Nx) +
          1 * (if c.1 < cfg.Nx - 1 then 1 else 0) *
            s.u (ACC3D (c.1 + 1) c.2.1 c.2.2 cfg.Ny cfg.Nx) +
          1 * (if c.2.1 < cfg.Ny - 1 then 1 else 0) *
            s.v (ACC3D c.1 (c.2.1 + 1) c.2.2 cfg.Ny cfg.Nx) +
          1 * (if c.2.2 < cfg.Nz - 1 then 1 else 0) *
            s.w (ACC3D c.1 c.2.1 (c.2.2 + 1) cfg.Ny cfg.Nx)) * 1)) (fun _ => 0) := by
  unfold calculate_pressure_build_b FOR_EACH_CELL forBox
  refine foldl_proj _ (fun t : State => t.b) _
    (fun t => t.u = s.u ∧ t.v = s.v ∧ t.w = s.w) ?_ ?_ _ _ ⟨rfl, rfl, rfl⟩
  · intro t c ht
    exact ht
  · intro t c ht
    simp only [build_b_cell_b, writeStep, if_true, ht.1, ht.2.1, ht.2.2]

theorem calculate_pressure_build_b_frame (cfg : Config) (s : State) :
    (calculate_pressure_build_b cfg s).u = s.u ∧ (calculate_pressure_build_b cfg s).v = s.v ∧
      (calculate_pressure_build_b cfg s).w = s.w ∧
      (calculate_pressure_build_b cfg s).x = s.x := by
  unfold calculate_pressure_build_b FOR_EACH_CELL forBox
  refine ⟨?_, ?_, ?_, ?_⟩
  · exact foldl_frame _ (fun t : State => t.u) (fun t c => build_b_cell_u cfg 1 _ _ _ t) _ _
  · exact foldl_frame _ (fun t : State => t.v) (fun t c => build_b_cell_v cfg 1 _ _ _ t) _ _
  · exact foldl_frame _ (fun t : State => t.w) (fun t c => build_b_cell_w cfg 1 _ _ _ t) _ _
  · exact foldl_frame _ (fun t : State => t.x) (fun t c => build_b_cell_x cfg 1 _ _ _ t) _ _

/-- The "Build b" loop leaves the right-hand side of spec §4.6 in `b` at every grid cell. -/
theorem calculate_pressure_build_b_at (cfg : Config) (s : State) (i j k : Int)
    (h : InGrid cfg i j k) :
    (calculate_pressure_build_b cfg s).b (ACC3D i j k cfg.Ny cfg.Nx) = rhs_spec cfg s i j k := by
  rw [calculate_pressure_build_b_b, grid_write_at cfg _ _ _ i j k h, if_pos rfl]
  simp only [rhs_spec, mask]
  ring

theorem calculate_pressure_update_frame (cfg : Config) (s : State) :
    (calculate_pressure_update cfg s).u = s.u ∧ (calculate_pressure_update cfg s).v = s.v ∧
      (calculate_pressure_update cfg s).w = s.w ∧ (calculate_pressure_update cfg s).x = s.x ∧
      (calculate_pressure_update cfg s).b = s.b := by
  unfold calculate_pressure_update FOR_EACH_CELL forBox
  refine ⟨?_, ?_, ?_, ?_, ?_⟩
  · refine foldl_frame _ (fun t : State => t.u) ?_ _ s
    intro t c
    rfl
  · refine foldl_frame _ (fun t : State => t.v) ?_ _ s
    intro t c
    rfl
  · refine foldl_frame _ (fun t : State => t.w) ?_ _ s
    intro t c
    rfl
  · refine foldl_frame _ (fun t : State => t.x) ?_ _ s
    intro t c
    rfl
  · refine foldl_frame _ (fun t : State => t.b) ?_ _ s
    intro t c
    rfl

theorem calculate_pressure_update_pressure (cfg : Config) (s : State) :
    (calculate_pressure_update cfg s).pressure = (gridCells cfg).foldl
      (writeStep (fun _ => true) (fun c => ACC3D c.1 c.2.1 c.2.2 cfg.Ny cfg.Nx)
        (fun c _ => s.x (ACC3D c.1 c.2.1 c.2.2 cfg.Ny cfg.Nx) *
          (cfg.VOXEL_SIZE / cfg.DT))) s.pressure := by
  unfold calculate_pressure_update FOR_EACH_CELL forBox
  refine foldl_proj _ (fun t : State => t.pressure) _ (fun t => t.x = s.x) ?_ ?_ _ s rfl
  · intro t c ht
    exact ht
  · intro t c ht
    simp only at ht
    simp only [writeStep, if_true, ht]

/-- What `calculate_pressure` leaves behind: the velocity is untouched, `b` holds the
right-hand side of spec §4.6 and `pressure = x·(h/dt)` at every grid cell. -/
theorem calculate_pressure_at (cfg : Config) (solve : Field → Field → Field) (s : State) :
    (calculate_pressure cfg solve s).u = s.u ∧ (calculate_pressure cfg solve s).v = s.v ∧
    (calculate_pressure cfg solve s).w = s.w ∧
    ∀ i j k, InGrid cfg i j k →
      (calculate_pressure cfg solve s).b (ACC3D i j k cfg.Ny cfg.Nx) = rhs_spec cfg s i j k ∧
      (calculate_pressure cfg solve s).pressure (ACC3D i j k cfg.Ny cfg.Nx) =
        (calculate_pressure cfg solve s).x (ACC3D i j k cfg.Ny cfg.Nx) *
          (cfg.VOXEL_SIZE / cfg.DT) := by
  unfold calculate_pressure
  simp only
  obtain ⟨hu, hv, hw, hx, hb⟩ := calculate_pressure_update_frame cfg
    { calculate_pressure_build_b cfg s with
      x := solve (calculate_pressure_build_b cfg s).x (calculate_pressure_build_b cfg s).b }
  obtain ⟨hu', hv', hw', _⟩ := calculate_pressure_build_b_frame cfg s
  refine ⟨by rw [hu, ← hu'], by rw [hv, ← hv'], by rw [hw, ← hw'], ?_⟩
  intro i j k h
  constructor
  · rw [hb]
    exact calculate_pressure_build_b_at cfg s i j k h
  · rw [calculate_pressure_update_pressure, grid_write_at cfg _ _ _ i j k h, if_pos rfl, hx]

/-! ## The right-hand side of `calculate_pressure` on `double`s with non-finite values -/

theorem Double.fin_add_fin (a b : ℚ) : Double.fin a + Double.fin b = Double.fin (a + b) := rfl

theorem Double.fin_mul_fin (a b : ℚ) : Double.fin a * Double.fin b = Double.fin (a * b) := rfl

theorem Double.fin_zero_mul_inf (n : Bool) : Double.fin 0 * Double.inf n = Double.nan := by
  show Double.mul (Double.fin 0) (Double.inf n) = Double.nan
  simp only [Double.mul, if_true]

theorem Double.add_nan (a : Double) : a + Double.nan = Double.nan := by
  cases a <;> rfl

theorem Double.nan_add (a : Double) : Double.nan + a = Double.nan := rfl

theorem Double.nan_mul (a : Double) : Double.nan * a = Double.nan := rfl

/-- The `double` cast of a comparison is the mask of spec §4.6. -/
theorem Double.ite_fin (p : Prop) [Decidable p] :
    (if p then Double.fin 1 else Double.fin 0) = Double.fin (mask p) := by
  unfold mask
  split <;> rfl

/-- A loop that writes entry `g c` once for every cell `c` of a list on which `g` is
injective: the entry of a visited cell after the loop. -/
theorem foldl_update_hit {α β : Type} (g : α → Int) (upd : α → (Int → β) → β) :
    ∀ (l : List α) (f : Int → β),
      (∀ (c : α) (f1 f2 : Int → β), f1 (g c) = f2 (g c) → upd c f1 = upd c f2) →
      l.Pairwise (fun a b => g a ≠ g b) →
      ∀ c ∈ l, (l.foldl (fun f a => Function.update f (g a) (upd a f)) f) (g c) = upd c f := by
  intro l
  induction l with
  | nil => intro f _ _ c hc; cases hc
  | cons a t ih =>
    intro f hloc hpw c hc
    rw [List.pairwise_cons] at hpw
    rw [List.foldl_cons]
    rcases List.mem_cons.mp hc with rfl | hct
    · have hmiss : ∀ (l : List α) (f : Int → β), (∀ b ∈ l, g b ≠ g c) →
          (l.foldl (fun f a => Function.update f (g a) (upd a f)) f) (g c) = f (g c) := by
        intro l
        induction l with
        | nil => intro f _; rfl
        | cons b t ih2 =>
          intro f h
          rw [List.foldl_cons, ih2 _ (fun x hx => h x (List.mem_cons_of_mem _ hx))]
          exact Function.update_noteq (h b (List.mem_cons_self _ _)).symm _ _
      rw [hmiss t _ (fun b hb => (hpw.1 b hb).symm), Function.update_same]
    · rw [ih _ hloc hpw.2 c hct]
      exact hloc c _ _ (Function.update_noteq (hpw.1 c hct).symm _ _)

/-- The six accumulations and the scaling of one "Build b" iteration, as one write. -/
theorem build_b_cell_double_eq (cfg : Config) (coeff : Double) (u v w : Int → Double)
    (i j k : Int) (b : Int → Double) :
    build_b_cell_double cfg coeff u v w i j k b = Function.update b (ACC3D i j k cfg.Ny cfg.Nx)
      ((b (ACC3D i j k cfg.Ny cfg.Nx) +
        Double.fin (-1) * (if k > 0 then Double.fin 1 else Double.fin 0) *
          w (ACC3D i j k cfg.Ny cfg.Nx) +
        Double.fin (-1) * (if j > 0 then Double.fin 1 else Double.fin 0) *
          v (ACC3D i j k cfg.Ny cfg.Nx) +
        Double.fin (-1) * (if i > 0 then Double.fin 1 else Double.fin 0) *
          u (ACC3D i j k cfg.Ny cfg.Nx) +
        Double.fin 1 * (if i < cfg.Nx - 1 then Double.fin 1 else Double.fin 0) *
          u (ACC3D (i + 1) j k cfg.Ny cfg.Nx) +
        Double.fin 1 * (if j < cfg.Ny - 1 then Double.fin 1 else Double.fin 0) *
          v (ACC3D i (j + 1) k cfg.Ny cfg.Nx) +
        Double.fin 1 * (if k < cfg.Nz - 1 then Double.fin 1 else Double.fin 0) *
          w (ACC3D i j (k + 1) cfg.Ny cfg.Nx)) * coeff) := by
  have h6 : List.range 6 = [0, 1, 2, 3, 4, 5] := rfl
  simp only [build_b_cell_double, h6, List.foldl_cons, List.foldl_nil, Function.update_same,
    Function.update_idem, List.getD_cons_zero, List.getD_cons_succ]

/-- The entry of `b` at a grid cell after the "Build b" loop on `double`s: the six terms
`D[n] * F[n] * U[n]` added to 0 in the order `n = 0..5`, times `coeff = 1`. -/
theorem calculate_pressure_build_b_double_at (cfg : Config) (u v w : Int → Double)
    (i j k : Int) (h : InGrid cfg i j k) :
    calculate_pressure_build_b_double cfg u v w (ACC3D i j k cfg.Ny cfg.Nx) =
      (Double.fin 0 +
        Double.fin (-1) * (if k > 0 then Double.fin 1 else Double.fin 0) *
          w (ACC3D i j k cfg.Ny cfg.Nx) +
        Double.fin (-1) * (if j > 0 then Double.fin 1 else Double.fin 0) *
          v (ACC3D i j k cfg.Ny cfg.Nx) +
        Double.fin (-1) * (if i > 0 then Double.fin 1 else Double.fin 0) *
          u (ACC3D i j k cfg.Ny cfg.Nx) +
        Double.fin 1 * (if i < cfg.Nx - 1 then Double.fin 1 else Double.fin 0) *
          u (ACC3D (i + 1) j k cfg.Ny cfg.Nx) +
        Double.fin 1 * (if j < cfg.Ny - 1 then Double.fin 1 else Double.fin 0) *
          v (ACC3D i (j + 1) k cfg.Ny cfg.Nx) +
        Double.fin 1 * (if k < cfg.Nz - 1 then Double.fin 1 else Double.fin 0) *
          w (ACC3D i j (k + 1) cfg.Ny cfg.Nx)) * Double.fin 1 := by
  have hpw := gridCells_pairwise cfg (fun _ => true) 0 0 0 (fun c hc _ => by
    unfold InGrid at hc; omega)
  simp only [add_zero, forall_true_left] at hpw
  have e := foldl_update_hit (fun c : Int × Int × Int => ACC3D c.1 c.2.1 c.2.2 cfg.Ny cfg.Nx)
    (fun c b => (b (ACC3D c.1 c.2.1 c.2.2 cfg.Ny cfg.Nx) +
        Double.fin (-1) * (if c.2.2 > 0 then Double.fin 1 else Double.fin 0) *
          w (ACC3D c.1 c.2.1 c.2.2 cfg.Ny cfg.Nx) +
        Double.fin (-1) * (if c.2.1 > 0 then Double.fin 1 else Double.fin 0) *
          v (ACC3D c.1 c.2.1 c.2.2 cfg.Ny cfg.Nx) +
        Double.fin (-1) * (if c.1 > 0 then Double.fin 1 else Double.fin 0) *
          u (ACC3D c.1 c.2.1 c.2.2 cfg.Ny cfg.Nx) +
        Double.fin 1 * (if c.1 < cfg.Nx - 1 then Double.fin 1 else Double.fin 0) *
          u (ACC3D (c.1 + 1) c.2.1 c.2.2 cfg.Ny cfg.Nx) +
        Double.fin 1 * (if c.2.1 < cfg.Ny - 1 then Double.fin 1 else Double.fin 0) *
          v (ACC3D c.1 (c.2.1 + 1) c.2.2 cfg.Ny cfg.Nx) +
        Double.fin 1 * (if c.2.2 < cfg.Nz - 1 then Double.fin 1 else Double.fin 0) *
          w (ACC3D c.1 c.2.1 (c.2.2 + 1) cfg.Ny cfg.Nx)) * Double.fin 1)
    (gridCells cfg) (fun _ => Double.fin 0)
    (fun c f1 f2 hf => by simp only [hf]) hpw (i, j, k) (mem_gridCells.mpr h)
  unfold calculate_pressure_build_b_double
  simp only [build_b_cell_double_eq]
  exact e

/-- On finite values the "Build b" loop on `double`s leaves in `b` what the loop in exact
arithmetic leaves. -/
theorem calculate_pressure_build_b_double_fin (cfg : Config) (s : State) (i j k : Int)
    (h : InGrid cfg i j k) :
    calculate_pressure_build_b_double cfg (fun n => Double.fin (s.u n))
      (fun n => Double.fin (s.v n)) (fun n => Double.fin (s.w n))
        (ACC3D i j k cfg.Ny cfg.Nx) =
      Double.fin ((calculate_pressure_build_b cfg s).b (ACC3D i j k cfg.Ny cfg.Nx)) := by
  rw [calculate_pressure_build_b_double_at cfg _ _ _ i j k h,
    calculate_pressure_build_b_at cfg s i j k h]
  simp only [Double.ite_fin, Double.fin_mul_fin, Double.fin_add_fin, rhs_spec]
  exact congrArg Double.fin (by ring)

theorem calculate_pressure_x (cfg : Config) (solve : Field → Field → Field) (s : State) :
    (calculate_pressure cfg solve s).x =
      solve s.x (calculate_pressure_build_b cfg s).b := by
  unfold calculate_pressure
  simp only
  rw [(calculate_pressure_update_frame cfg _).2.2.2.1, (calculate_pressure_build_b_frame cfg s).2.2.2]

/-- With `pressure = x·(h/dt)` the pressure-gradient term `dt·(p₁ − p₀)/h` is `x₁ − x₀`. -/
theorem gradient_rescale (h dt x1 x0 : ℚ) (hh : h ≠ 0) (hdt : dt ≠ 0) :
    dt * (x1 * (h / dt) - x0 * (h / dt)) / h = x1 - x0 := by
  field_simp
  ring

/-- Row `(i, j, k)` of `L·x` at a cell with all six neighbours. -/
theorem laplace_interior (cfg : Config) (x : Field) (i j k : Int)
    (hi : 1 ≤ i ∧ i ≤ cfg.Nx - 2) (hj : 1 ≤ j ∧ j ≤ cfg.Ny - 2) (hk : 1 ≤ k ∧ k ≤ cfg.Nz - 2) :
    laplace cfg x i j k = -6 * x (ACC3D i j k cfg.Ny cfg.Nx) +
      (x (ACC3D (i - 1) j k cfg.Ny cfg.Nx) + x (ACC3D (i + 1) j k cfg.Ny cfg.Nx) +
        x (ACC3D i (j - 1) k cfg.Ny cfg.Nx) + x (ACC3D i (j + 1) k cfg.Ny cfg.Nx) +
        x (ACC3D i j (k - 1) cfg.Ny cfg.Nx) + x (ACC3D i j (k + 1) cfg.Ny cfg.Nx)) := by
  have h1 : i > 0 := by omega
  have h2 : i < cfg.Nx - 1 := by omega
  have h3 : j > 0 := by omega
  have h4 : j < cfg.Ny - 1 := by omega
  have h5 : k > 0 := by omega
  have h6 : k < cfg.Nz - 1 := by omega
  simp only [laplace, neighbours, if_pos h1, if_pos h2, if_pos h3, if_pos h4, if_pos h5,
    if_pos h6, List.cons_append, List.nil_append, List.length_cons, List.length_nil,
    List.map_cons, List.map_nil, List.sum_cons, List.sum_nil]
  norm_num
  ring

/-- The divergence after projection at a cell with all six neighbours, when row `(i, j, k)`
of `L·x = b` holds. -/
theorem projection_at (cfg : Config) (solve : Field → Field → Field) (s : State)
    (hh : cfg.VOXEL_SIZE ≠ 0) (hdt : cfg.DT ≠ 0) (i j k : Int)
    (hi : 1 ≤ i ∧ i ≤ cfg.Nx - 2) (hj : 1 ≤ j ∧ j ≤ cfg.Ny - 2) (hk : 1 ≤ k ∧ k ≤ cfg.Nz - 2)
    (hsol : laplace cfg (calculate_pressure cfg solve s).x i j k =
      (calculate_pressure cfg solve s).b (ACC3D i j k cfg.Ny cfg.Nx)) :
    divergence cfg (apply_pressure cfg (calculate_pressure cfg solve s)) i j k = 0 := by
  obtain ⟨hu, hv, hw, hcell⟩ := calculate_pressure_at cfg solve s
  have g0 : InGrid cfg i j k := by unfold InGrid; omega
  have gxp : InGrid cfg (i + 1) j k := by unfold InGrid; omega
  have gxm : InGrid cfg (i - 1) j k := by unfold InGrid; omega
  have gyp : InGrid cfg i (j + 1) k := by unfold InGrid; omega
  have gym : InGrid cfg i (j - 1) k := by unfold InGrid; omega
  have gzp : InGrid cfg i j (k + 1) := by unfold InGrid; omega
  have gzm : InGrid cfg i j (k - 1) := by unfold InGrid; omega
  have pu1 := (apply_pressure_at cfg (calculate_pressure cfg solve s) (i + 1) j k gxp).1.1
    (by omega)
  have pu0 := (apply_pressure_at cfg (calculate_pressure cfg solve s) i j k g0).1.1 hi.1
  have pv1 := (apply_pressure_at cfg (calculate_pressure cfg solve s) i (j + 1) k gyp).2.1.1
    (by omega)
  have pv0 := (apply_pressure_at cfg (calculate_pressure cfg solve s) i j k g0).2.1.1 hj.1
  have pw1 := (apply_pressure_at cfg (calculate_pressure cfg solve s) i j (k + 1) gzp).2.2.1.1
    (by omega)
  have pw0 := (apply_pressure_at cfg (calculate_pressure cfg solve s) i j k g0).2.2.1.1 hk.1
  simp only [add_sub_cancel_right] at pu1 pv1 pw1
  rw [(hcell _ _ _ g0).2, (hcell _ _ _ gxp).2, gradient_rescale _ _ _ _ hh hdt, hu] at pu1
  rw [(hcell _ _ _ g0).2, (hcell _ _ _ gxm).2, gradient_rescale _ _ _ _ hh hdt, hu] at pu0
  rw [(hcell _ _ _ g0).2, (hcell _ _ _ gyp).2, gradient_rescale _ _ _ _ hh hdt, hv] at pv1
  rw [(hcell _ _ _ g0).2, (hcell _ _ _ gym).2, gradient_rescale _ _ _ _ hh hdt, hv] at pv0
  rw [(hcell _ _ _ g0).2, (hcell _ _ _ gzp).2, gradient_rescale _ _ _ _ hh hdt, hw] at pw1
  rw [(hcell _ _ _ g0).2, (hcell _ _ _ gzm).2, gradient_rescale _ _ _ _ hh hdt, hw] at pw0
  rw [laplace_interior cfg _ i j k hi hj hk, (hcell _ _ _ g0).1] at hsol
  have m1 : mask (i < cfg.Nx - 1) = 1 := if_pos (by omega)
  have m2 : mask (i > 0) = 1 := if_pos (by omega)
  have m3 : mask (j < cfg.Ny - 1) = 1 := if_pos (by omega)
  have m4 : mask (j > 0) = 1 := if_pos (by omega)
  have m5 : mask (k < cfg.Nz - 1) = 1 := if_pos (by omega)
  have m6 : mask (k > 0) = 1 := if_pos (by omega)
  simp only [rhs_spec, m1, m2, m3, m4, m5, m6, mul_one] at hsol
  unfold divergence
  rw [pu1, pu0, pv1, pv0, pw1, pw0]
  linarith

/-- C1: projection makes the velocity divergence-free. For every grid, all `h, dt > 0` and
every velocity field `(u, v, w)`: if the `x` left by the solver in `calculate_pressure` is an
exact solution of `L·x = b` (all rows of the grid), where `b` is the right-hand side assembled
by `calculate_pressure` and `L` is the 7-point Neumann Laplacian of spec §4.6, then after
`pressure = x·(h/dt)` and `apply_pressure` the discrete divergence
`[u(i+1,j,k) − u(i,j,k)] + [v(i,j+1,k) − v(i,j,k)] + [w(i,j,k+1) − w(i,j,k)]` is exactly 0 at
every interior cell, i.e. `1 ≤ i ≤ Nx−2`, `1 ≤ j ≤ Ny−2`, `1 ≤ k ≤ Nz−2` (spec §4.3). -/
theorem projection_divergence_free (cfg : Config) (solve : Field → Field → Field) (s : State)
    (hN : 1 ≤ cfg.Nx ∧ 1 ≤ cfg.Ny ∧ 1 ≤ cfg.Nz)
    (hh : 0 < cfg.VOXEL_SIZE) (hdt : 0 < cfg.DT)
    (hsol : ∀ i j k, InGrid cfg i j k →
      laplace cfg (calculate_pressure cfg solve s).x i j k =
        (calculate_pressure cfg solve s).b (ACC3D i j k cfg.Ny cfg.Nx))
    (i j k : Int)
    (hi : 1 ≤ i ∧ i ≤ cfg.Nx - 2) (hj : 1 ≤ j ∧ j ≤ cfg.Ny - 2) (hk : 1 ≤ k ∧ k ≤ cfg.Nz - 2) :
    divergence cfg (apply_pressure cfg (calculate_pressure cfg solve s)) i j k = 0 := by
  have _ := hN
  exact projection_at cfg solve s (ne_of_gt hh) (ne_of_gt hdt) i j k hi hj hk
    (hsol i j k (by unfold InGrid; omega))

/-- On the 3 × 3 × 3 grid `potential3` solves `L·x = b` for the velocity of `gradientState`. -/
theorem potential3_solves (i j k : Int) (h : InGrid cfg3 i j k) :
    laplace cfg3 potential3 i j k = rhs_spec cfg3 gradientState i j k := by
  have hb : 0 ≤ i ∧ i < 3 ∧ 0 ≤ j ∧ j < 3 ∧ 0 ≤ k ∧ k < 3 := h
  obtain ⟨h1, h2, h3, h4, h5, h6⟩ := hb
  interval_cases i <;> interval_cases j <;> interval_cases k <;>
    norm_num [laplace, neighbours, rhs_spec, mask, ACC3D, cfg3, gradientState, zeroState,
      potential3]

/-- Witness for C1 on the 3 × 3 × 3 grid: the velocity of `gradientState` has divergence −6 at
the interior cell `(1, 1, 1)`; `potential3` is an exact solution of `L·x = b`, and after the
projection the divergence at `(1, 1, 1)` is 0. -/
theorem projection_divergence_free_witness :
    divergence cfg3 gradientState 1 1 1 = -6 ∧
      divergence cfg3
        (apply_pressure cfg3 (calculate_pressure cfg3 (fun _ _ => potential3) gradientState))
        1 1 1 = 0 := by
  refine ⟨by norm_num [divergence, ACC3D, cfg3, gradientState, zeroState, potential3], ?_⟩
  refine projection_divergence_free cfg3 (fun _ _ => potential3) gradientState
    (by decide) (by norm_num [cfg3]) (by norm_num [cfg3]) ?_ 1 1 1 (by decide) (by decide)
    (by decide)
  intro i j k h
  rw [calculate_pressure_x, ((calculate_pressure_at cfg3 _ gradientState).2.2.2 i j k h).1]
  exact potential3_solves i j k h

/-! ## `apply_external_force` -/

theorem apply_external_force_frame (cfg : Config) (s : State) :
    (apply_external_force cfg s).fx = s.fx ∧ (apply_external_force cfg s).fy = s.fy ∧
      (apply_external_force cfg s).fz = s.fz := by
  unfold apply_external_force FOR_EACH_CELL forBox
  refine ⟨?_, ?_, ?_⟩
  · refine foldl_frame _ (fun t : State => t.fx) ?_ _ s
    intro t c
    simp only
    split_ifs <;> rfl
  · refine foldl_frame _ (fun t : State => t.fy) ?_ _ s
    intro t c
    simp only
    split_ifs <;> rfl
  · refine foldl_frame _ (fun t : State => t.fz) ?_ _ s
    intro t c
    simp only
    split_ifs <;> rfl

theorem apply_external_force_u (cfg : Config) (s : State) :
    (apply_external_force cfg s).u = (gridCells cfg).foldl
      (writeStep (fun c => decide (c.1 < cfg.Nx - 1))
        (fun c => ACC3D (c.1 + 1) c.2.1 c.2.2 cfg.Ny cfg.Nx)
        (fun c y => y + cfg.DT * (s.fx (ACC3D c.1 c.2.1 c.2.2 cfg.Ny cfg.Nx) +
          s.fx (ACC3D (c.1 + 1) c.2.1 c.2.2 cfg.Ny cfg.Nx)) * 0.5)) s.u := by
  unfold apply_external_force FOR_EACH_CELL forBox
  refine foldl_proj _ (fun t : State => t.u) _ (fun t => t.fx = s.fx) ?_ ?_ _ s rfl
  · intro t c ht
    simp only
    split_ifs <;> exact ht
  · intro t c ht
    simp only at ht
    simp only [writeStep, decide_eq_true_eq]
    split_ifs <;> simp only [ht]

theorem apply_external_force_v (cfg : Config) (s : State) :
    (apply_external_force cfg s).v = (gridCells cfg).foldl
      (writeStep (fun c => decide (c.2.1 < cfg.Ny - 1))
        (fun c => ACC3D c.1 (c.2.1 + 1) c.2.2 cfg.Ny cfg.Nx)
        (fun c y => y + cfg.DT * (s.fy (ACC3D c.1 c.2.1 c.2.2 cfg.Ny cfg.Nx) +
          s.fx (ACC3D c.1 (c.2.1 + 1) c.2.2 cfg.Ny cfg.Nx)) * 0.5)) s.v := by
  unfold apply_external_force FOR_EACH_CELL forBox
  refine foldl_proj _ (fun t : State => t.v) _ (fun t => t.fx = s.fx ∧ t.fy = s.fy) ?_ ?_ _ s
    ⟨rfl, rfl⟩
  · intro t c ht
    simp only
    split_ifs <;> exact ht
  · intro t c ht
    simp only at ht
    simp only [writeStep, decide_eq_true_eq]
    split_ifs <;> simp only [ht.1, ht.2]

theorem apply_external_force_w (cfg : Config) (s : State) :
    (apply_external_force cfg s).w = (gridCells cfg).foldl
      (writeStep (fun c => decide (c.2.2 < cfg.Nz - 1))
        (fun c => ACC3D c.1 c.2.1 (c.2.2 + 1) cfg.Ny cfg.Nx)
        (fun c y => y + cfg.DT * (s.fz (ACC3D c.1 c.2.1 c.2.2 cfg.Ny cfg.Nx) +
          s.fx (ACC3D c.1 c.2.1 (c.2.2 + 1) cfg.Ny cfg.Nx)) * 0.5)) s.w := by
  unfold apply_external_force FOR_EACH_CELL forBox
  refine foldl_proj _ (fun t : State => t.w) _ (fun t => t.fx = s.fx ∧ t.fz = s.fz) ?_ ?_ _ s
    ⟨rfl, rfl⟩
  · intro t c ht
    simp only
    split_ifs <;> exact ht
  · intro t c ht
    simp only at ht
    simp only [writeStep, decide_eq_true_eq]
    split_ifs <;> simp only [ht.1, ht.2]

/-- The value of every velocity face after `apply_external_force`, with the operands the
source reads: the `v` update adds `fy(i,j,k) + fx(i,j+1,k)` and the `w` update adds
`fz(i,j,k) + fx(i,j,k+1)`. -/
theorem apply_external_force_at (cfg : Config) (s : State) (i j k : Int)
    (h : InGrid cfg i j k) :
    (apply_external_force cfg s).u (ACC3D i j k cfg.Ny cfg.Nx) =
      (if 1 ≤ i then s.u (ACC3D i j k cfg.Ny cfg.Nx) +
          cfg.DT * (s.fx (ACC3D (i - 1) j k cfg.Ny cfg.Nx) +
            s.fx (ACC3D i j k cfg.Ny cfg.Nx)) * 0.5
        else s.u (ACC3D i j k cfg.Ny cfg.Nx)) ∧
    (apply_external_force cfg s).v (ACC3D i j k cfg.Ny cfg.Nx) =
      (if 1 ≤ j then s.v (ACC3D i j k cfg.Ny cfg.Nx) +
          cfg.DT * (s.fy (ACC3D i (j - 1) k cfg.Ny cfg.Nx) +
            s.fx (ACC3D i j k cfg.Ny cfg.Nx)) * 0.5
        else s.v (ACC3D i j k cfg.Ny cfg.Nx)) ∧
    (apply_external_force cfg s).w (ACC3D i j k cfg.Ny cfg.Nx) =
      (if 1 ≤ k then s.w (ACC3D i j k cfg.Ny cfg.Nx) +
          cfg.DT * (s.fz (ACC3D i j (k - 1) cfg.Ny cfg.Nx) +
            s.fx (ACC3D i j k cfg.Ny cfg.Nx)) * 0.5
        else s.w (ACC3D i j k cfg.Ny cfg.Nx)) := by
  refine ⟨?_, ?_, ?_⟩
  · rw [apply_external_force_u, grid_shift_x_at cfg _ _ i j k h]
    simp only [sub_add_cancel]
  · rw [apply_external_force_v, grid_shift_y_at cfg _ _ i j k h]
    simp only [sub_add_cancel]
  · rw [apply_external_force_w, grid_shift_z_at cfg _ _ i j k h]
    simp only [sub_add_cancel]

/-- C4 (the code departs from the claim): on the 3 × 3 × 3 grid with `dt = 1/10`, velocity 0
and force `fx = 0`, `fy = 1`, `apply_external_force` leaves `v(0,1,0) = 1/20`, because line 335
adds `fy(0,0,0) + fx(0,1,0)`; the corrected stencil of the claim,
`v(0,1,0) + dt·0.5·(fy(0,0,0) + fy(0,1,0))`, is `1/10`. -/
theorem apply_external_force_v_reads_fx :
    InGrid cfg3 0 1 0 ∧
    (apply_external_force cfg3 forceState).v (ACC3D 0 1 0 cfg3.Ny cfg3.Nx) = 1 / 20 ∧
    forceState.v (ACC3D 0 1 0 cfg3.Ny cfg3.Nx) +
      cfg3.DT * 0.5 * (forceState.fy (ACC3D 0 0 0 cfg3.Ny cfg3.Nx) +
        forceState.fy (ACC3D 0 1 0 cfg3.Ny cfg3.Nx)) = 1 / 10 := by
  have h : InGrid cfg3 0 1 0 := by decide
  refine ⟨h, (apply_external_force_at cfg3 forceState 0 1 0 h).2.1.trans ?_, ?_⟩
  · norm_num [ACC3D, cfg3, forceState, zeroState]
  · norm_num [ACC3D, cfg3, forceState, zeroState]

/-! ## `addSource` and `setEmitterVelocity` -/

theorem mem_sourceCells {cfg : Config} {i j k : Int} :
    (i, j, k) ∈ sourceCells cfg ↔ InSourceBox cfg i j k := by
  unfold sourceCells InSourceBox
  cases cfg.EMITTER_POS <;> simp only [mem_boxCells]

theorem nodup_sourceCells (cfg : Config) : (sourceCells cfg).Nodup := by
  unfold sourceCells
  cases cfg.EMITTER_POS <;> exact nodup_boxCells _ _ _ _ _ _

/-- A loop over distinct grid cells that writes entry `ACC3D c` for every visited cell `c`:
the value at a grid cell after the loop. -/
theorem cells_write_at (cfg : Config) (l : List (Int × Int × Int)) (hl : l.Nodup)
    (hg : ∀ c ∈ l, InGrid cfg c.1 c.2.1 c.2.2) (upd : Int × Int × Int → ℚ → ℚ) (f : Field)
    (i j k : Int) (h : InGrid cfg i j k) :
    (l.foldl (writeStep (fun _ => true) (fun c => ACC3D c.1 c.2.1 c.2.2 cfg.Ny cfg.Nx) upd) f)
        (ACC3D i j k cfg.Ny cfg.Nx) =
      if (i, j, k) ∈ l then upd (i, j, k) (f (ACC3D i j k cfg.Ny cfg.Nx))
      else f (ACC3D i j k cfg.Ny cfg.Nx) := by
  have hinj : ∀ c ∈ l, ACC3D c.1 c.2.1 c.2.2 cfg.Ny cfg.Nx = ACC3D i j k cfg.Ny cfg.Nx →
      c = (i, j, k) := by
    intro c hc heq
    have hc' := hg c hc
    unfold InGrid at hc' h
    obtain ⟨h1, h2, h3⟩ := ACC3D_inj hc'.1 hc'.2.1 hc'.2.2.1 hc'.2.2.2.1 h.1 h.2.1 h.2.2.1
      h.2.2.2.1 heq
    obtain ⟨c1, c2, c3⟩ := c
    simp only at h1 h2 h3
    subst h1 h2 h3
    rfl
  split
  · rename_i hmem
    have hpw : l.Pairwise (fun a b => (fun _ : Int × Int × Int => true) a = true →
        (fun _ : Int × Int × Int => true) b = true →
        ACC3D a.1 a.2.1 a.2.2 cfg.Ny cfg.Nx ≠ ACC3D b.1 b.2.1 b.2.2 cfg.Ny cfg.Nx) := by
      refine List.Pairwise.imp_of_mem ?_ hl
      intro a b ha hb hab _ _ heq
      have ha' := hg a ha
      have hb' := hg b hb
      unfold InGrid at ha' hb'
      obtain ⟨h1, h2, h3⟩ := ACC3D_inj ha'.1 ha'.2.1 ha'.2.2.1 ha'.2.2.2.1 hb'.1 hb'.2.1
        hb'.2.2.1 hb'.2.2.2.1 heq
      apply hab
      obtain ⟨a1, a2, a3⟩ := a
      obtain ⟨b1, b2, b3⟩ := b
      simp only at h1 h2 h3
      subst h1 h2 h3
      rfl
    exact foldl_writeStep_hit _ _ upd l f hpw (i, j, k) hmem rfl
  · rename_i hmem
    refine foldl_writeStep_miss _ _ upd _ l f ?_
    intro c hc _ heq
    exact hmem (hinj c hc heq ▸ hc)

theorem addSource_frame (cfg : Config) (dist : Int → Int → Int → ℚ) (s : State) :
    (addSource cfg dist s).u = s.u ∧ (addSource cfg dist s).v = s.v ∧
      (addSource cfg dist s).w = s.w ∧ (addSource cfg dist s).m_time = s.m_time ∧
      (addSource cfg dist s).m_occupied_voxels = s.m_occupied_voxels := by
  unfold addSource forBox
  refine ⟨?_, ?_, ?_, ?_, ?_⟩
  · refine foldl_frame _ (fun t : State => t.u) ?_ _ s
    intro t c
    rfl
  · refine foldl_frame _ (fun t : State => t.v) ?_ _ s
    intro t c
    rfl
  · refine foldl_frame _ (fun t : State => t.w) ?_ _ s
    intro t c
    rfl
  · refine foldl_frame _ (fun t : State => t.m_time) ?_ _ s
    intro t c
    rfl
  · refine foldl_frame _ (fun t : State => t.m_occupied_voxels) ?_ _ s
    intro t c
    rfl

theorem addSource_density (cfg : Config) (dist : Int → Int → Int → ℚ) (s : State) :
    (addSource cfg dist s).density = (sourceCells cfg).foldl
      (writeStep (fun _ => true) (fun c => ACC3D c.1 c.2.1 c.2.2 cfg.Ny cfg.Nx)
        (fun _ _ => cfg.INIT_DENSITY)) s.density := by
  unfold addSource forBox
  refine foldl_proj _ (fun t : State => t.density) _ (fun _ => True) ?_ ?_ _ s trivial
  · intro _ _ _
    trivial
  · intro t c _
    simp only [writeStep, if_true]

theorem addSource_temperature (cfg : Config) (dist : Int → Int → Int → ℚ) (s : State) :
    (addSource cfg dist s).temperature = (sourceCells cfg).foldl
      (writeStep (fun _ => true) (fun c => ACC3D c.1 c.2.1 c.2.2 cfg.Ny cfg.Nx)
        (fun c _ => dist c.1 c.2.1 c.2.2)) s.temperature := by
  unfold addSource forBox
  refine foldl_proj _ (fun t : State => t.temperature) _ (fun _ => True) ?_ ?_ _ s trivial
  · intro _ _ _
    trivial
  · intro t c _
    simp only [writeStep, if_true]

/-- Density and temperature at a grid cell after `addSource`, when the source box lies inside
the grid. -/
theorem addSource_at (cfg : Config) (dist : Int → Int → Int → ℚ) (s : State)
    (hbox : SourceBoxInGrid cfg) (i j k : Int) (h : InGrid cfg i j k) :
    (InSourceBox cfg i j k →
      (addSource cfg dist s).density (ACC3D i j k cfg.Ny cfg.Nx) = cfg.INIT_DENSITY ∧
      (addSource cfg dist s).temperature (ACC3D i j k cfg.Ny cfg.Nx) = dist i j k) ∧
    (¬ InSourceBox cfg i j k →
      (addSource cfg dist s).density (ACC3D i j k cfg.Ny cfg.Nx) =
        s.density (ACC3D i j k cfg.Ny cfg.Nx) ∧
      (addSource cfg dist s).temperature (ACC3D i j k cfg.Ny cfg.Nx) =
        s.temperature (ACC3D i j k cfg.Ny cfg.Nx)) := by
  have hg : ∀ c ∈ sourceCells cfg, InGrid cfg c.1 c.2.1 c.2.2 := hbox
  rw [addSource_density, addSource_temperature,
    cells_write_at cfg _ (nodup_sourceCells cfg) hg _ _ i j k h,
    cells_write_at cfg _ (nodup_sourceCells cfg) hg _ _ i j k h]
  constructor
  · intro hin
    simp only [if_pos (mem_sourceCells.mpr hin), and_self]
  · intro hout
    simp only [if_neg (fun hm => hout (mem_sourceCells.mp hm)), and_self]

/-- C10: `addSource` writes exactly the source box (for `E_TOP` `j` in
`[SOURCE_Y_MERGIN, SOURCE_Y_MERGIN+SOURCE_SIZE_Y)`, for `E_BOTTOM` `j` in
`[Ny−SOURCE_Y_MERGIN−SOURCE_SIZE_Y, Ny−SOURCE_Y_MERGIN)`, with the centred `i` and `k` ranges),
the box being inside the grid. For every pre-state and every random draw in `[800, 1000]`,
each cell in the box ends with `density = INIT_DENSITY` and `temperature` in `[800, 1000]`;
`density` and `temperature` of every grid cell outside the box, and all of `u`, `v`, `w`, are
unchanged. -/
theorem addSource_spec (cfg : Config) (dist : Int → Int → Int → ℚ) (s : State)
    (hbox : SourceBoxInGrid cfg)
    (hdist : ∀ i j k, 800 ≤ dist i j k ∧ dist i j k ≤ 1000) :
    (∀ i j k, InSourceBox cfg i j k →
      (addSource cfg dist s).density (ACC3D i j k cfg.Ny cfg.Nx) = cfg.INIT_DENSITY ∧
      800 ≤ (addSource cfg dist s).temperature (ACC3D i j k cfg.Ny cfg.Nx) ∧
      (addSource cfg dist s).temperature (ACC3D i j k cfg.Ny cfg.Nx) ≤ 1000) ∧
    (∀ i j k, InGrid cfg i j k → ¬ InSourceBox cfg i j k →
      (addSource cfg dist s).density (ACC3D i j k cfg.Ny cfg.Nx) =
        s.density (ACC3D i j k cfg.Ny cfg.Nx) ∧
      (addSource cfg dist s).temperature (ACC3D i j k cfg.Ny cfg.Nx) =
        s.temperature (ACC3D i j k cfg.Ny cfg.Nx)) ∧
    (addSource cfg dist s).u = s.u ∧ (addSource cfg dist s).v = s.v ∧
      (addSource cfg dist s).w = s.w := by
  refine ⟨?_, ?_, (addSource_frame cfg dist s).1, (addSource_frame cfg dist s).2.1,
    (addSource_frame cfg dist s).2.2.1⟩
  · intro i j k hin
    obtain ⟨hd, ht⟩ :=
      (addSource_at cfg dist s hbox i j k (hbox (i, j, k) (mem_sourceCells.mpr hin))).1 hin
    rw [hd, ht]
    exact ⟨rfl, hdist i j k⟩
  · intro i j k hg hout
    exact (addSource_at cfg dist s hbox i j k hg).2 hout

/-- The source box of `cfg3` is the single cell `(1, 0, 1)`. -/
theorem inSourceBox_cfg3 (i j k : Int) : InSourceBox cfg3 i j k ↔ i = 1 ∧ j = 0 ∧ k = 1 := by
  have e1 : (cfg3.Nx - cfg3.SOURCE_SIZE_X).tdiv 2 = 1 := by decide
  have e2 : (cfg3.Nx + cfg3.SOURCE_SIZE_X).tdiv 2 = 2 := by decide
  have e3 : (cfg3.Nz - cfg3.SOURCE_SIZE_Z).tdiv 2 = 1 := by decide
  have e4 : (cfg3.Nz + cfg3.SOURCE_SIZE_Z).tdiv 2 = 2 := by decide
  have e5 : cfg3.SOURCE_Y_MERGIN = 0 := rfl
  have e6 : cfg3.SOURCE_SIZE_Y = 1 := rfl
  have e7 : cfg3.EMITTER_POS = EmitterPos.E_TOP := rfl
  unfold InSourceBox
  rw [e1, e2, e3, e4, e5, e6, e7]
  simp only
  omega

theorem sourceBoxInGrid_cfg3 : SourceBoxInGrid cfg3 := by
  rintro ⟨i, j, k⟩ h
  obtain ⟨rfl, rfl, rfl⟩ := (inSourceBox_cfg3 i j k).mp (mem_sourceCells.mp h)
  decide

/-- Witness for C10 on the 3 × 3 × 3 grid with every draw equal to 900: the box cell
`(1, 0, 1)` (flat index 10) gets density 1 and a temperature in `[800, 1000]`, the cell
`(1, 1, 1)` (flat index 13) outside the box keeps density 1/2 and temperature 300. -/
theorem addSource_spec_witness :
    InSourceBox cfg3 1 0 1 ∧
    (addSource cfg3 (fun _ _ _ => 900) smokeState).density 10 = 1 ∧
    800 ≤ (addSource cfg3 (fun _ _ _ => 900) smokeState).temperature 10 ∧
    (addSource cfg3 (fun _ _ _ => 900) smokeState).temperature 10 ≤ 1000 ∧
    ¬ InSourceBox cfg3 1 1 1 ∧
    (addSource cfg3 (fun _ _ _ => 900) smokeState).density 13 = 1 / 2 ∧
    (addSource cfg3 (fun _ _ _ => 900) smokeState).temperature 13 = 300 := by
  have hin : InSourceBox cfg3 1 0 1 := (inSourceBox_cfg3 1 0 1).mpr ⟨rfl, rfl, rfl⟩
  have hout : ¬ InSourceBox cfg3 1 1 1 := fun h => by
    have := (inSourceBox_cfg3 1 1 1).mp h
    omega
  have e := addSource_spec cfg3 (fun _ _ _ => 900) smokeState sourceBoxInGrid_cfg3
    (fun _ _ _ => by norm_num)
  have e1 := e.1 1 0 1 hin
  have e2 := e.2.1 1 1 1 (by decide) hout
  have i1 : ACC3D 1 0 1 cfg3.Ny cfg3.Nx = 10 := by decide
  have i2 : ACC3D 1 1 1 cfg3.Ny cfg3.Nx = 13 := by decide
  rw [i1] at e1
  rw [i2] at e2
  exact ⟨hin, e1.1, e1.2.1, e1.2.2, hout, e2.1, e2.2⟩

theorem setEmitterVelocity_frame (cfg : Config) (rand : Int → Int → Int → Nat) (s : State) :
    (setEmitterVelocity cfg rand s).density = s.density ∧
      (setEmitterVelocity cfg rand s).temperature = s.temperature ∧
      (setEmitterVelocity cfg rand s).m_time = s.m_time ∧
      (setEmitterVelocity cfg rand s).m_occupied_voxels = s.m_occupied_voxels ∧
      (setEmitterVelocity cfg rand s).u = s.u ∧ (setEmitterVelocity cfg rand s).w = s.w := by
  unfold setEmitterVelocity forBox
  refine ⟨?_, ?_, ?_, ?_, ?_, ?_⟩
  · refine foldl_frame _ (fun t : State => t.density) ?_ _ s
    intro t c
    simp only
    split <;> rfl
  · refine foldl_frame _ (fun t : State => t.temperature) ?_ _ s
    intro t c
    simp only
    split <;> rfl
  · refine foldl_frame _ (fun t : State => t.m_time) ?_ _ s
    intro t c
    simp only
    split <;> rfl
  · refine foldl_frame _ (fun t : State => t.m_occupied_voxels) ?_ _ s
    intro t c
    simp only
    split <;> rfl
  · refine foldl_frame _ (fun t : State => t.u) ?_ _ s
    intro t c
    simp only
    split <;> rfl
  · refine foldl_frame _ (fun t : State => t.w) ?_ _ s
    intro t c
    simp only
    split <;> rfl

/-! ## `update` -/

theorem calculate_external_force_mask (cfg : Config) (s : State) :
    (calculate_external_force cfg s).m_occupied_voxels = s.m_occupied_voxels := by
  unfold calculate_external_force FOR_EACH_CELL forBox
  refine foldl_frame _ (fun t : State => t.m_occupied_voxels) ?_ _ s
  intro t c
  rfl

theorem calculate_pressure_build_b_clock_mask (cfg : Config) (s : State) :
    (calculate_pressure_build_b cfg s).m_time = s.m_time ∧
      (calculate_pressure_build_b cfg s).m_occupied_voxels = s.m_occupied_voxels := by
  unfold calculate_pressure_build_b FOR_EACH_CELL forBox
  constructor
  · refine foldl_frame _ (fun t : State => t.m_time) ?_ _ _
    intro t c
    rfl
  · refine foldl_frame _ (fun t : State => t.m_occupied_voxels) ?_ _ _
    intro t c
    rfl

theorem calculate_pressure_update_clock_mask (cfg : Config) (s : State) :
    (calculate_pressure_update cfg s).m_time = s.m_time ∧
      (calculate_pressure_update cfg s).m_occupied_voxels = s.m_occupied_voxels := by
  unfold calculate_pressure_update FOR_EACH_CELL forBox
  constructor
  · refine foldl_frame _ (fun t : State => t.m_time) ?_ _ _
    intro t c
    rfl
  · refine foldl_frame _ (fun t : State => t.m_occupied_voxels) ?_ _ _
    intro t c
    rfl

theorem calculate_pressure_clock_mask (cfg : Config) (solve : Field → Field → Field)
    (s : State) :
    (calculate_pressure cfg solve s).m_time = s.m_time ∧
      (calculate_pressure cfg solve s).m_occupied_voxels = s.m_occupied_voxels := by
  unfold calculate_pressure
  simp only
  rw [(calculate_pressure_update_clock_mask cfg _).1,
    (calculate_pressure_update_clock_mask cfg _).2]
  exact calculate_pressure_build_b_clock_mask cfg s

theorem apply_pressure_clock_mask (cfg : Config) (s : State) :
    (apply_pressure cfg s).m_time = s.m_time ∧
      (apply_pressure cfg s).m_occupied_voxels = s.m_occupied_voxels := by
  unfold apply_pressure FOR_EACH_CELL forBox
  constructor
  · refine foldl_frame _ (fun t : State => t.m_time) ?_ _ s
    intro t c
    simp only
    split_ifs <;> rfl
  · refine foldl_frame _ (fun t : State => t.m_occupied_voxels) ?_ _ s
    intro t c
    simp only
    split_ifs <;> rfl

/-- The stages before the occupancy fix-up leave the clock and the occupancy mask alone. -/
theorem update_advance_clock_mask (cfg : Config) (cw : CudaWorker) (s : State) :
    (update_advance cfg cw s).m_time = s.m_time ∧
      (update_advance cfg cw s).m_occupied_voxels = s.m_occupied_voxels := by
  unfold update_advance
  simp only [(apply_pressure_clock_mask cfg _).1, (apply_pressure_clock_mask cfg _).2,
    (calculate_pressure_clock_mask cfg _ _).1, (calculate_pressure_clock_mask cfg _ _).2,
    calculate_external_force_m_time, calculate_external_force_mask, and_self]

/-- A call of `update` past `FINISH_TIME` returns the state as it is. -/
theorem update_finished (cfg : Config) (cw : CudaWorker) (dist : Int → Int → Int → ℚ)
    (rand : Int → Int → Int → Nat) (s : State) (h : s.m_time > cfg.FINISH_TIME) :
    update cfg cw dist rand s = s := by
  unfold update
  rw [if_pos h]

/-- A call of `update` that runs advances the clock by `DT`. -/
theorem update_m_time (cfg : Config) (cw : CudaWorker) (dist : Int → Int → Int → ℚ)
    (rand : Int → Int → Int → Nat) (s : State) (h : ¬ s.m_time > cfg.FINISH_TIME) :
    (update cfg cw dist rand s).m_time = s.m_time + cfg.DT := by
  unfold update
  rw [if_neg h]
  have ht : (genTransparencyMap cw (fix_occupied_voxels cfg (update_advance cfg cw s))).m_time =
      s.m_time := by
    show (fix_occupied_voxels cfg (update_advance cfg cw s)).m_time = s.m_time
    rw [fix_occupied_voxels_m_time, (update_advance_clock_mask cfg cw s).1]
  simp only
  split_ifs
  · rw [(setEmitterVelocity_frame cfg rand _).2.2.1, (addSource_frame cfg dist _).2.2.2.1, ht]
  · rw [ht]

/-- In a step that emits, a cell of the source box ends the step with the emitted density and
temperature, whatever the occupancy fix-up did before. -/
theorem update_emitted_at (cfg : Config) (cw : CudaWorker) (dist : Int → Int → Int → ℚ)
    (rand : Int → Int → Int → Nat) (s : State) (hbox : SourceBoxInGrid cfg)
    (hrun : ¬ s.m_time > cfg.FINISH_TIME) (hemit : s.m_time < cfg.EMIT_DURATION)
    (i j k : Int) (hin : InSourceBox cfg i j k) :
    (update cfg cw dist rand s).density (ACC3D i j k cfg.Ny cfg.Nx) = cfg.INIT_DENSITY ∧
      (update cfg cw dist rand s).temperature (ACC3D i j k cfg.Ny cfg.Nx) = dist i j k := by
  unfold update
  rw [if_neg hrun]
  have ht : (genTransparencyMap cw (fix_occupied_voxels cfg (update_advance cfg cw s))).m_time =
      s.m_time := by
    show (fix_occupied_voxels cfg (update_advance cfg cw s)).m_time = s.m_time
    rw [fix_occupied_voxels_m_time, (update_advance_clock_mask cfg cw s).1]
  simp only
  rw [if_pos (by rw [ht]; exact hemit), (setEmitterVelocity_frame cfg rand _).1,
    (setEmitterVelocity_frame cfg rand _).2.1]
  exact (addSource_at cfg dist _ hbox i j k (hbox (i, j, k) (mem_sourceCells.mpr hin))).1 hin

/-- In a step that does not emit, or at a grid cell outside the source box, density and
temperature at the end of the step are those left by the occupancy fix-up. -/
theorem update_fixed_at (cfg : Config) (cw : CudaWorker) (dist : Int → Int → Int → ℚ)
    (rand : Int → Int → Int → Nat) (s : State) (hbox : SourceBoxInGrid cfg)
    (hrun : ¬ s.m_time > cfg.FINISH_TIME) (i j k : Int) (hg : InGrid cfg i j k)
    (hout : cfg.EMIT_DURATION ≤ s.m_time ∨ ¬ InSourceBox cfg i j k) :
    (update cfg cw dist rand s).density (ACC3D i j k cfg.Ny cfg.Nx) =
        (fix_occupied_voxels cfg (update_advance cfg cw s)).density
          (ACC3D i j k cfg.Ny cfg.Nx) ∧
      (update cfg cw dist rand s).temperature (ACC3D i j k cfg.Ny cfg.Nx) =
        (fix_occupied_voxels cfg (update_advance cfg cw s)).temperature
          (ACC3D i j k cfg.Ny cfg.Nx) := by
  unfold update
  rw [if_neg hrun]
  have ht : (genTransparencyMap cw (fix_occupied_voxels cfg (update_advance cfg cw s))).m_time =
      s.m_time := by
    show (fix_occupied_voxels cfg (update_advance cfg cw s)).m_time = s.m_time
    rw [fix_occupied_voxels_m_time, (update_advance_clock_mask cfg cw s).1]
  simp only
  split_ifs with hemit
  · rw [ht] at hemit
    have hnot : ¬ InSourceBox cfg i j k := by
      rcases hout with h | h
      · exact absurd hemit (not_lt.mpr h)
      · exact h
    rw [(setEmitterVelocity_frame cfg rand _).1, (setEmitterVelocity_frame cfg rand _).2.1]
    exact (addSource_at cfg dist _ hbox i j k hg).2 hnot
  · exact ⟨rfl, rfl⟩

/-- C8 as stated fails: on the 3 × 3 × 3 grid the voxel `(1, 0, 1)` (flat index 10) is occupied
and lies in the source box; the step at time 0 runs (`0 ≤ FINISH_TIME = 6`) and emits
(`0 < EMIT_DURATION = 2`), and ends with density 1 and temperature 900 in that occupied voxel
instead of density 0 and `T_AMBIENT = 273`. -/
theorem update_occupied_counterexample :
    ¬ occupiedSourceState.m_time > cfg3.FINISH_TIME ∧
    InGrid cfg3 1 0 1 ∧
    occupiedSourceState.m_occupied_voxels (ACC3D 1 0 1 cfg3.Ny cfg3.Nx) = true ∧
    (update cfg3 cwIdle (fun _ _ _ => 900) (fun _ _ _ => 0) occupiedSourceState).density
      (ACC3D 1 0 1 cfg3.Ny cfg3.Nx) = 1 ∧
    (update cfg3 cwIdle (fun _ _ _ => 900) (fun _ _ _ => 0) occupiedSourceState).temperature
      (ACC3D 1 0 1 cfg3.Ny cfg3.Nx) = 900 ∧
    ¬ ((update cfg3 cwIdle (fun _ _ _ => 900) (fun _ _ _ => 0) occupiedSourceState).density
        (ACC3D 1 0 1 cfg3.Ny cfg3.Nx) = 0 ∧
      (update cfg3 cwIdle (fun _ _ _ => 900) (fun _ _ _ => 0) occupiedSourceState).temperature
        (ACC3D 1 0 1 cfg3.Ny cfg3.Nx) = cfg3.T_AMBIENT) := by
  have hrun : ¬ occupiedSourceState.m_time > cfg3.FINISH_TIME := by
    norm_num [occupiedSourceState, zeroState, cfg3]
  have hemit : occupiedSourceState.m_time < cfg3.EMIT_DURATION := by
    norm_num [occupiedSourceState, zeroState, cfg3]
  have hin : InSourceBox cfg3 1 0 1 := (inSourceBox_cfg3 1 0 1).mpr ⟨rfl, rfl, rfl⟩
  obtain ⟨hd, ht⟩ := update_emitted_at cfg3 cwIdle (fun _ _ _ => 900) (fun _ _ _ => 0)
    occupiedSourceState sourceBoxInGrid_cfg3 hrun hemit 1 0 1 hin
  refine ⟨hrun, by decide, by decide, hd, ht, ?_⟩
  rw [hd]
  intro h
  exact absurd h.1 (by norm_num [cfg3])

/-- C8 (amended): at the end of every `update` call that is not a no-op, for every device,
every occupancy mask and every state, with the source box inside the grid, each occupied
voxel of the grid has `density = 0` and `temperature = T_AMBIENT` provided the step does not
emit (`EMIT_DURATION ≤ time`) or the voxel lies outside the source box. -/
theorem update_occupied_cleared (cfg : Config) (cw : CudaWorker) (dist : Int → Int → Int → ℚ)
    (rand : Int → Int → Int → Nat) (s : State) (hbox : SourceBoxInGrid cfg)
    (hrun : ¬ s.m_time > cfg.FINISH_TIME) (i j k : Int) (hg : InGrid cfg i j k)
    (hocc : s.m_occupied_voxels (ACC3D i j k cfg.Ny cfg.Nx) = true)
    (hout : cfg.EMIT_DURATION ≤ s.m_time ∨ ¬ InSourceBox cfg i j k) :
    (update cfg cw dist rand s).density (ACC3D i j k cfg.Ny cfg.Nx) = 0 ∧
      (update cfg cw dist rand s).temperature (ACC3D i j k cfg.Ny cfg.Nx) = cfg.T_AMBIENT := by
  obtain ⟨hd, ht⟩ := update_fixed_at cfg cw dist rand s hbox hrun i j k hg hout
  have hocc' : (update_advance cfg cw s).m_occupied_voxels (ACC3D i j k cfg.Ny cfg.Nx) =
      true := by
    rw [(update_advance_clock_mask cfg cw s).2]
    exact hocc
  obtain ⟨_, _, _, hd0, ht0⟩ := (fix_occupied_voxels_at cfg (update_advance cfg cw s) i j k hg).1
    hocc'
  rw [hd, ht]
  exact ⟨hd0, ht0⟩

/-- Witness for the amended C8 on the 3 × 3 × 3 grid: the occupied voxel `(1, 1, 1)` (flat
index 13) lies outside the source box `{(1, 0, 1)}` and ends the emitting step at time 0 with
density 0 and temperature 273. -/
theorem update_occupied_cleared_witness :
    (update cfg3 cwIdle (fun _ _ _ => 900) (fun _ _ _ => 0) occupiedState).density 13 = 0 ∧
    (update cfg3 cwIdle (fun _ _ _ => 900) (fun _ _ _ => 0) occupiedState).temperature 13 =
      273 := by
  have hout : ¬ InSourceBox cfg3 1 1 1 := fun h => by
    have := (inSourceBox_cfg3 1 1 1).mp h
    omega
  have hrun : ¬ occupiedState.m_time > cfg3.FINISH_TIME := by
    norm_num [occupiedState, zeroState, cfg3]
  have hg : InGrid cfg3 1 1 1 := by decide
  have hocc : occupiedState.m_occupied_voxels (ACC3D 1 1 1 cfg3.Ny cfg3.Nx) = true := by decide
  have e := update_occupied_cleared cfg3 cwIdle (fun _ _ _ => 900) (fun _ _ _ => 0)
    occupiedState sourceBoxInGrid_cfg3 hrun 1 1 1 hg hocc (Or.inr hout)
  have hidx : ACC3D 1 1 1 cfg3.Ny cfg3.Nx = 13 := by decide
  have hamb : cfg3.T_AMBIENT = 273 := rfl
  rw [hidx, hamb] at e
  exact e

/-- C9: `update` is a no-op exactly when the clock exceeds `FINISH_TIME`: for every state with
`time > FINISH_TIME`, `update` leaves every field and the clock unchanged; for every state
with `time ≤ FINISH_TIME` (including `time = FINISH_TIME`) the clock after `update` is
`time + DT`. -/
theorem update_noop_iff_finished (cfg : Config) (cw : CudaWorker)
    (dist : Int → Int → Int → ℚ) (rand : Int → Int → Int → Nat) (s : State) :
    (s.m_time > cfg.FINISH_TIME → update cfg cw dist rand s = s) ∧
    (s.m_time ≤ cfg.FINISH_TIME →
      (update cfg cw dist rand s).m_time = s.m_time + cfg.DT) :=
  ⟨update_finished cfg cw dist rand s,
    fun h => update_m_time cfg cw dist rand s (not_lt.mpr h)⟩

/-- Witness for C9 with `FINISH_TIME = 6`, `DT = 1/10`: at time 7 the state is returned as it
is; at time 6 the clock becomes `61/10`. -/
theorem update_noop_iff_finished_witness :
    update cfg3 cwIdle (fun _ _ _ => 900) (fun _ _ _ => 0) lateState = lateState ∧
    (update cfg3 cwIdle (fun _ _ _ => 900) (fun _ _ _ => 0) finishState).m_time = 61 / 10 := by
  refine ⟨(update_noop_iff_finished cfg3 cwIdle (fun _ _ _ => 900) (fun _ _ _ => 0)
      lateState).1 (by norm_num [lateState, smokeState, zeroState, cfg3]), ?_⟩
  rw [(update_noop_iff_finished cfg3 cwIdle (fun _ _ _ => 900) (fun _ _ _ => 0)
      finishState).2 (by norm_num [finishState, smokeState, zeroState, cfg3])]
  norm_num [finishState, smokeState, zeroState, cfg3]

/-! ## `apply_external_force`: boundary faces and operands -/

/-- C15: `apply_external_force` never writes a boundary face: for every force field and every
velocity field, `u(0,j,k)`, `v(i,0,k)` and `w(i,j,0)` have the same value after the call as
before, for all in-range `i`, `j`, `k`; in particular if they were 0 they remain 0. -/
theorem apply_external_force_boundary_faces (cfg : Config) (s : State) (i j k : Int)
    (h : InGrid cfg i j k) :
    (i = 0 → (apply_external_force cfg s).u (ACC3D i j k cfg.Ny cfg.Nx) =
      s.u (ACC3D i j k cfg.Ny cfg.Nx)) ∧
    (j = 0 → (apply_external_force cfg s).v (ACC3D i j k cfg.Ny cfg.Nx) =
      s.v (ACC3D i j k cfg.Ny cfg.Nx)) ∧
    (k = 0 → (apply_external_force cfg s).w (ACC3D i j k cfg.Ny cfg.Nx) =
      s.w (ACC3D i j k cfg.Ny cfg.Nx)) := by
  obtain ⟨hu, hv, hw⟩ := apply_external_force_at cfg s i j k h
  refine ⟨?_, ?_, ?_⟩
  · intro hi
    rw [hu, if_neg (by omega)]
  · intro hj
    rw [hv, if_neg (by omega)]
  · intro hk
    rw [hw, if_neg (by omega)]

/-- Witness for C15 on the 3 × 3 × 3 grid with the force `fy = 1`: the boundary faces
`u(0,1,2)`, `v(1,0,2)` and `w(1,2,0)` keep the value 0 they had. -/
theorem apply_external_force_boundary_faces_witness :
    (apply_external_force cfg3 forceState).u (ACC3D 0 1 2 cfg3.Ny cfg3.Nx) = 0 ∧
    (apply_external_force cfg3 forceState).v (ACC3D 1 0 2 cfg3.Ny cfg3.Nx) = 0 ∧
    (apply_external_force cfg3 forceState).w (ACC3D 1 2 0 cfg3.Ny cfg3.Nx) = 0 :=
  ⟨(apply_external_force_boundary_faces cfg3 forceState 0 1 2 (by decide)).1 rfl,
    (apply_external_force_boundary_faces cfg3 forceState 1 0 2 (by decide)).2.1 rfl,
    (apply_external_force_boundary_faces cfg3 forceState 1 2 0 (by decide)).2.2 rfl⟩

/-- C19 as stated fails: on the 3 × 3 × 3 grid `forceState` and `zeroState` have the same
velocity and the same `fx = 0` and differ in `fy` (1 against 0), yet `apply_external_force`
leaves `v(0,1,0) = 1/20` for the first and `0` for the second; the gain the claim states,
`dt·0.5·(fx(0,0,0) + fx(0,1,0))`, is 0. -/
theorem apply_external_force_v_depends_on_fy :
    forceState.fx = zeroState.fx ∧ forceState.u = zeroState.u ∧
    forceState.v = zeroState.v ∧ forceState.w = zeroState.w ∧
    (apply_external_force cfg3 forceState).v (ACC3D 0 1 0 cfg3.Ny cfg3.Nx) = 1 / 20 ∧
    (apply_external_force cfg3 zeroState).v (ACC3D 0 1 0 cfg3.Ny cfg3.Nx) = 0 ∧
    forceState.v (ACC3D 0 1 0 cfg3.Ny cfg3.Nx) +
      cfg3.DT * 0.5 * (forceState.fx (ACC3D 0 0 0 cfg3.Ny cfg3.Nx) +
        forceState.fx (ACC3D 0 1 0 cfg3.Ny cfg3.Nx)) = 0 := by
  have h : InGrid cfg3 0 1 0 := by decide
  refine ⟨rfl, rfl, rfl, rfl, (apply_external_force_at cfg3 forceState 0 1 0 h).2.1.trans ?_,
    (apply_external_force_at cfg3 zeroState 0 1 0 h).2.1.trans ?_, ?_⟩
  · norm_num [ACC3D, cfg3, forceState, zeroState]
  · norm_num [ACC3D, cfg3, zeroState]
  · norm_num [ACC3D, cfg3, forceState, zeroState]

/-- C19 (amended): in the source's `apply_external_force` the `v` and `w` updates read `fx`
in their second operand only: for every grid cell `(i, j, k)`, `v(i,j+1,k)` gains
`dt·0.5·(fy(i,j,k) + fx(i,j+1,k))` when `j < Ny−1` and `w(i,j,k+1)` gains
`dt·0.5·(fz(i,j,k) + fx(i,j,k+1))` when `k < Nz−1`; so two pre-states with the same `v`, `fx`
and `fy` end with the same `v` whatever their `fz`, and two pre-states with the same `w`, `fx`
and `fz` end with the same `w` whatever their `fy`. -/
theorem apply_external_force_second_operand_fx (cfg : Config) (s : State) (i j k : Int)
    (h : InGrid cfg i j k) :
    (j < cfg.Ny - 1 → (apply_external_force cfg s).v (ACC3D i (j + 1) k cfg.Ny cfg.Nx) =
      s.v (ACC3D i (j + 1) k cfg.Ny cfg.Nx) +
        cfg.DT * 0.5 * (s.fy (ACC3D i j k cfg.Ny cfg.Nx) +
          s.fx (ACC3D i (j + 1) k cfg.Ny cfg.Nx))) ∧
    (k < cfg.Nz - 1 → (apply_external_force cfg s).w (ACC3D i j (k + 1) cfg.Ny cfg.Nx) =
      s.w (ACC3D i j (k + 1) cfg.Ny cfg.Nx) +
        cfg.DT * 0.5 * (s.fz (ACC3D i j k cfg.Ny cfg.Nx) +
          s.fx (ACC3D i j (k + 1) cfg.Ny cfg.Nx))) ∧
    (∀ t : State, t.v = s.v → t.fx = s.fx → t.fy = s.fy →
      (apply_external_force cfg t).v = (apply_external_force cfg s).v) ∧
    (∀ t : State, t.w = s.w → t.fx = s.fx → t.fz = s.fz →
      (apply_external_force cfg t).w = (apply_external_force cfg s).w) := by
  unfold InGrid at h
  refine ⟨?_, ?_, ?_, ?_⟩
  · intro hj
    have hg : InGrid cfg i (j + 1) k := by unfold InGrid; omega
    rw [(apply_external_force_at cfg s i (j + 1) k hg).2.1, if_pos (by omega)]
    simp only [add_sub_cancel_right]
    ring
  · intro hk
    have hg : InGrid cfg i j (k + 1) := by unfold InGrid; omega
    rw [(apply_external_force_at cfg s i j (k + 1) hg).2.2, if_pos (by omega)]
    simp only [add_sub_cancel_right]
    ring
  · intro t hv hfx hfy
    rw [apply_external_force_v, apply_external_force_v, hv, hfx, hfy]
  · intro t hw hfx hfz
    rw [apply_external_force_w, apply_external_force_w, hw, hfx, hfz]

/-- Witness for the amended C19 on the 3 × 3 × 3 grid with `fy = 1`, `fx = 0`, `dt = 1/10`:
`v(0,1,0)` gains `(1/10)·0.5·(1 + 0) = 1/20`. -/
theorem apply_external_force_second_operand_fx_witness :
    InGrid cfg3 0 0 0 ∧
    (apply_external_force cfg3 forceState).v (ACC3D 0 (0 + 1) 0 cfg3.Ny cfg3.Nx) = 1 / 20 := by
  have h : InGrid cfg3 0 0 0 := by decide
  refine ⟨h, ((apply_external_force_second_operand_fx cfg3 forceState 0 0 0 h).1
    (by decide)).trans ?_⟩
  norm_num [ACC3D, cfg3, forceState, zeroState]

/-! ## The size of the source box -/

theorem length_intRange (lo hi : Int) : (intRange lo hi).length = (hi - lo).toNat := by
  unfold intRange
  rw [List.length_map, List.length_range]

theorem length_flatMap_const {α β : Type} (f : α → List β) (n : Nat)
    (h : ∀ a, (f a).length = n) : ∀ l : List α, (l.flatMap f).length = l.length * n := by
  intro l
  induction l with
  | nil => simp
  | cons a t ih =>
    rw [List.flatMap_cons, List.length_append, ih, h a, List.length_cons]
    ring

theorem length_boxCells (klo khi jlo jhi ilo ihi : Int) :
    (boxCells klo khi jlo jhi ilo ihi).length =
      (khi - klo).toNat * ((jhi - jlo).toNat * (ihi - ilo).toNat) := by
  unfold boxCells
  rw [length_flatMap_const _ ((jhi - jlo).toNat * (ihi - ilo).toNat), length_intRange]
  intro k
  rw [length_flatMap_const _ ((ihi - ilo).toNat), length_intRange]
  intro j
  rw [List.length_map, length_intRange]

/-- The centred range `[(N − S)/2, (N + S)/2)` with truncating division, for `0 ≤ S ≤ N`:
its ends lie in `[0, N]`, it has `S` elements and the margins differ by at most 1. -/
theorem centred_range (N S : Int) (h0 : 0 ≤ S) (hN : S ≤ N) :
    0 ≤ (N - S).tdiv 2 ∧ (N + S).tdiv 2 ≤ N ∧ (N + S).tdiv 2 - (N - S).tdiv 2 = S ∧
      (N - S).tdiv 2 - (N - (N + S).tdiv 2) ≤ 1 ∧
      (N - (N + S).tdiv 2) - (N - S).tdiv 2 ≤ 1 := by
  rw [Int.tdiv_eq_ediv (by omega) (by omega), Int.tdiv_eq_ediv (by omega) (by omega)]
  omega

/-- C16: the emitter source box has the stated size and is centred horizontally. For all
`0 ≤ SOURCE_SIZE_X ≤ Nx` the x-range `[(Nx−SOURCE_SIZE_X)/2, (Nx+SOURCE_SIZE_X)/2)` computed
with C++ integer division contains exactly `SOURCE_SIZE_X` indices, all within `[0, Nx)`, and
the numbers of cells left and right of it differ by at most 1; the same holds for z with
`SOURCE_SIZE_Z` and `Nz`; so (with `SOURCE_SIZE_Y ≥ 0`) the loop nest of `addSource` visits
exactly `SOURCE_SIZE_X·SOURCE_SIZE_Y·SOURCE_SIZE_Z` cells. -/
theorem source_box_size (cfg : Config)
    (hx : 0 ≤ cfg.SOURCE_SIZE_X ∧ cfg.SOURCE_SIZE_X ≤ cfg.Nx)
    (hz : 0 ≤ cfg.SOURCE_SIZE_Z ∧ cfg.SOURCE_SIZE_Z ≤ cfg.Nz)
    (hy : 0 ≤ cfg.SOURCE_SIZE_Y) :
    (((intRange ((cfg.Nx - cfg.SOURCE_SIZE_X).tdiv 2)
          ((cfg.Nx + cfg.SOURCE_SIZE_X).tdiv 2)).length : Int) = cfg.SOURCE_SIZE_X ∧
      (∀ i ∈ intRange ((cfg.Nx - cfg.SOURCE_SIZE_X).tdiv 2)
          ((cfg.Nx + cfg.SOURCE_SIZE_X).tdiv 2), 0 ≤ i ∧ i < cfg.Nx) ∧
      |(cfg.Nx - cfg.SOURCE_SIZE_X).tdiv 2 -
          (cfg.Nx - (cfg.Nx + cfg.SOURCE_SIZE_X).tdiv 2)| ≤ 1) ∧
    (((intRange ((cfg.Nz - cfg.SOURCE_SIZE_Z).tdiv 2)
          ((cfg.Nz + cfg.SOURCE_SIZE_Z).tdiv 2)).length : Int) = cfg.SOURCE_SIZE_Z ∧
      (∀ k ∈ intRange ((cfg.Nz - cfg.SOURCE_SIZE_Z).tdiv 2)
          ((cfg.Nz + cfg.SOURCE_SIZE_Z).tdiv 2), 0 ≤ k ∧ k < cfg.Nz) ∧
      |(cfg.Nz - cfg.SOURCE_SIZE_Z).tdiv 2 -
          (cfg.Nz - (cfg.Nz + cfg.SOURCE_SIZE_Z).tdiv 2)| ≤ 1) ∧
    ((sourceCells cfg).length : Int) =
      cfg.SOURCE_SIZE_X * cfg.SOURCE_SIZE_Y * cfg.SOURCE_SIZE_Z := by
  obtain ⟨x1, x2, x3, x4, x5⟩ := centred_range cfg.Nx cfg.SOURCE_SIZE_X hx.1 hx.2
  obtain ⟨z1, z2, z3, z4, z5⟩ := centred_range cfg.Nz cfg.SOURCE_SIZE_Z hz.1 hz.2
  refine ⟨⟨?_, ?_, ?_⟩, ⟨?_, ?_, ?_⟩, ?_⟩
  · rw [length_intRange, x3, Int.toNat_of_nonneg hx.1]
  · intro i hi
    have := mem_intRange.mp hi
    omega
  · rw [abs_le]
    omega
  · rw [length_intRange, z3, Int.toNat_of_nonneg hz.1]
  · intro k hk
    have := mem_intRange.mp hk
    omega
  · rw [abs_le]
    omega
  · have hlen : (sourceCells cfg).length = cfg.SOURCE_SIZE_Z.toNat *
        (cfg.SOURCE_SIZE_Y.toNat * cfg.SOURCE_SIZE_X.toNat) := by
      unfold sourceCells
      cases cfg.EMITTER_POS
      · simp only
        rw [length_boxCells, x3, z3]
        congr 2
        omega
      · simp only
        rw [length_boxCells, x3, z3]
        congr 2
        omega
    rw [hlen]
    push_cast
    rw [Int.toNat_of_nonneg hx.1, Int.toNat_of_nonneg hz.1, Int.toNat_of_nonneg hy]
    ring

/-- Witness for C16 on the 4 × 3 × 3 grid with a 1 × 1 × 1 box: the x-range is `[1, 2)` with
1 cell to its left and 2 to its right, and the box has 1 cell. -/
theorem source_box_size_witness :
    ((intRange ((cfgB.Nx - cfgB.SOURCE_SIZE_X).tdiv 2)
        ((cfgB.Nx + cfgB.SOURCE_SIZE_X).tdiv 2)).length : Int) = 1 ∧
    |(cfgB.Nx - cfgB.SOURCE_SIZE_X).tdiv 2 -
        (cfgB.Nx - (cfgB.Nx + cfgB.SOURCE_SIZE_X).tdiv 2)| ≤ 1 ∧
    ((sourceCells cfgB).length : Int) = 1 := by
  have e := source_box_size cfgB (by decide) (by decide) (by decide)
  exact ⟨e.1.1, e.1.2.2, e.2.2⟩

/-! ## `setEmitterVelocity` -/

theorem mem_emitterVelocityCells {cfg : Config} {i j k : Int} :
    (i, j, k) ∈ emitterVelocityCells cfg ↔ InEmitterBox cfg i j k := by
  unfold emitterVelocityCells InEmitterBox
  cases cfg.EMITTER_POS <;> simp only [mem_boxCells]

theorem nodup_emitterVelocityCells (cfg : Config) : (emitterVelocityCells cfg).Nodup := by
  unfold emitterVelocityCells
  cases cfg.EMITTER_POS <;> exact nodup_boxCells _ _ _ _ _ _

theorem setEmitterVelocity_top (cfg : Config) (rand : Int → Int → Int → Nat) (s : State)
    (h : cfg.EMITTER_POS = EmitterPos.E_TOP) :
    (setEmitterVelocity cfg rand s).v = (emitterVelocityCells cfg).foldl
      (writeStep (fun _ => true) (fun c => ACC3D c.1 c.2.1 c.2.2 cfg.Ny cfg.Nx)
        (fun c _ => cfg.INIT_VELOCITY * ((rand c.1 c.2.1 c.2.2 % 100 : Nat) : ℚ) / 100)) s.v ∧
    (setEmitterVelocity cfg rand s).v0 = (emitterVelocityCells cfg).foldl
      (writeStep (fun _ => true) (fun c => ACC3D c.1 c.2.1 c.2.2 cfg.Ny cfg.Nx)
        (fun c _ => cfg.INIT_VELOCITY * ((rand c.1 c.2.1 c.2.2 % 100 : Nat) : ℚ) / 100))
        s.v0 := by
  unfold setEmitterVelocity forBox
  constructor
  · refine foldl_proj _ (fun t : State => t.v) _ (fun _ => True) ?_ ?_ _ s trivial
    · intro _ _ _
      trivial
    · intro t c _
      simp only [h, writeStep, if_true]
  · refine foldl_proj _ (fun t : State => t.v0) _ (fun _ => True) ?_ ?_ _ s trivial
    · intro _ _ _
      trivial
    · intro t c _
      simp only [h, writeStep, if_true, Function.update_same]

theorem setEmitterVelocity_bottom (cfg : Config) (rand : Int → Int → Int → Nat) (s : State)
    (h : cfg.EMITTER_POS = EmitterPos.E_BOTTOM) :
    (setEmitterVelocity cfg rand s).v = (emitterVelocityCells cfg).foldl
      (writeStep (fun _ => true) (fun c => ACC3D c.1 c.2.1 c.2.2 cfg.Ny cfg.Nx)
        (fun _ _ => -cfg.INIT_VELOCITY)) s.v ∧
    (setEmitterVelocity cfg rand s).v0 = (emitterVelocityCells cfg).foldl
      (writeStep (fun _ => true) (fun c => ACC3D c.1 c.2.1 c.2.2 cfg.Ny cfg.Nx)
        (fun _ _ => -cfg.INIT_VELOCITY)) s.v0 := by
  unfold setEmitterVelocity forBox
  constructor
  · refine foldl_proj _ (fun t : State => t.v) _ (fun _ => True) ?_ ?_ _ s trivial
    · intro _ _ _
      trivial
    · intro t c _
      simp only [h, writeStep, if_true]
  · refine foldl_proj _ (fun t : State => t.v0) _ (fun _ => True) ?_ ?_ _ s trivial
    · intro _ _ _
      trivial
    · intro t c _
      simp only [h, writeStep, if_true, Function.update_same]

/-- The values of `v` and `v0` at a grid cell after `setEmitterVelocity`, when the box of its
loop nest lies inside the grid. -/
theorem setEmitterVelocity_at (cfg : Config) (rand : Int → Int → Int → Nat) (s : State)
    (hbox : EmitterBoxInGrid cfg) (i j k : Int) (h : InGrid cfg i j k) :
    (InEmitterBox cfg i j k →
      (setEmitterVelocity cfg rand s).v (ACC3D i j k cfg.Ny cfg.Nx) =
        (match cfg.EMITTER_POS with
          | .E_TOP => cfg.INIT_VELOCITY * ((rand i j k % 100 : Nat) : ℚ) / 100
          | .E_BOTTOM => -cfg.INIT_VELOCITY) ∧
      (setEmitterVelocity cfg rand s).v0 (ACC3D i j k cfg.Ny cfg.Nx) =
        (setEmitterVelocity cfg rand s).v (ACC3D i j k cfg.Ny cfg.Nx)) ∧
    (¬ InEmitterBox cfg i j k →
      (setEmitterVelocity cfg rand s).v (ACC3D i j k cfg.Ny cfg.Nx) =
        s.v (ACC3D i j k cfg.Ny cfg.Nx) ∧
      (setEmitterVelocity cfg rand s).v0 (ACC3D i j k cfg.Ny cfg.Nx) =
        s.v0 (ACC3D i j k cfg.Ny cfg.Nx)) := by
  cases hpos : cfg.EMITTER_POS
  · obtain ⟨hv, hv0⟩ := setEmitterVelocity_top cfg rand s hpos
    rw [hv, hv0, cells_write_at cfg _ (nodup_emitterVelocityCells cfg) hbox _ _ i j k h,
      cells_write_at cfg _ (nodup_emitterVelocityCells cfg) hbox _ _ i j k h]
    constructor
    · intro hin
      simp only [if_pos (mem_emitterVelocityCells.mpr hin), and_self]
    · intro hout
      simp only [if_neg (fun hm => hout (mem_emitterVelocityCells.mp hm)), and_self]
  · obtain ⟨hv, hv0⟩ := setEmitterVelocity_bottom cfg rand s hpos
    rw [hv, hv0, cells_write_at cfg _ (nodup_emitterVelocityCells cfg) hbox _ _ i j k h,
      cells_write_at cfg _ (nodup_emitterVelocityCells cfg) hbox _ _ i j k h]
    constructor
    · intro hin
      simp only [if_pos (mem_emitterVelocityCells.mpr hin), and_self]
    · intro hout
      simp only [if_neg (fun hm => hout (mem_emitterVelocityCells.mp hm)), and_self]

/-- The box of `setEmitterVelocity` for `cfgB` is the two cells `(1, 1, 1)` and `(1, 2, 1)`. -/
theorem inEmitterBox_cfgB (i j k : Int) :
    InEmitterBox cfgB i j k ↔ i = 1 ∧ (j = 1 ∨ j = 2) ∧ k = 1 := by
  have e1 : (cfgB.Nx - cfgB.SOURCE_SIZE_X).tdiv 2 = 1 := by decide
  have e2 : (cfgB.Nx + cfgB.SOURCE_SIZE_X).tdiv 2 = 2 := by decide
  have e3 : (cfgB.Nz - cfgB.SOURCE_SIZE_Z).tdiv 2 = 1 := by decide
  have e4 : (cfgB.Nz + cfgB.SOURCE_SIZE_Z).tdiv 2 = 2 := by decide
  have e5 : cfgB.SOURCE_Y_MERGIN = 1 := rfl
  have e6 : cfgB.SOURCE_SIZE_Y = 1 := rfl
  have e7 : cfgB.EMITTER_POS = EmitterPos.E_BOTTOM := rfl
  have e8 : cfgB.Ny = 3 := rfl
  unfold InEmitterBox
  rw [e1, e2, e3, e4, e5, e6, e7, e8]
  simp only
  omega

/-- The source box of `cfgB` is the single cell `(1, 1, 1)`. -/
theorem inSourceBox_cfgB (i j k : Int) : InSourceBox cfgB i j k ↔ i = 1 ∧ j = 1 ∧ k = 1 := by
  have e1 : (cfgB.Nx - cfgB.SOURCE_SIZE_X).tdiv 2 = 1 := by decide
  have e2 : (cfgB.Nx + cfgB.SOURCE_SIZE_X).tdiv 2 = 2 := by decide
  have e3 : (cfgB.Nz - cfgB.SOURCE_SIZE_Z).tdiv 2 = 1 := by decide
  have e4 : (cfgB.Nz + cfgB.SOURCE_SIZE_Z).tdiv 2 = 2 := by decide
  have e5 : cfgB.SOURCE_Y_MERGIN = 1 := rfl
  have e6 : cfgB.SOURCE_SIZE_Y = 1 := rfl
  have e7 : cfgB.EMITTER_POS = EmitterPos.E_BOTTOM := rfl
  have e8 : cfgB.Ny = 3 := rfl
  unfold InSourceBox
  rw [e1, e2, e3, e4, e5, e6, e7, e8]
  simp only
  omega

theorem emitterBoxInGrid_cfgB : EmitterBoxInGrid cfgB := by
  rintro ⟨i, j, k⟩ h
  obtain ⟨rfl, hj, rfl⟩ := (inEmitterBox_cfgB i j k).mp (mem_emitterVelocityCells.mp h)
  rcases hj with rfl | rfl <;> decide

/-- C11 as stated fails: with `EMITTER_POS = BOTTOM` on the 4 × 3 × 3 grid (source box
`{(1, 1, 1)}`) the cell `(1, 2, 1)` is outside the source box, and `setEmitterVelocity`
changes `v` there from 0 to `−INIT_VELOCITY = −80`, because its `j` loop runs to
`Ny − SOURCE_Y_MERGIN + 1`. -/
theorem setEmitterVelocity_extra_row :
    InGrid cfgB 1 2 1 ∧ ¬ InSourceBox cfgB 1 2 1 ∧
    zeroState.v (ACC3D 1 2 1 cfgB.Ny cfgB.Nx) = 0 ∧
    (setEmitterVelocity cfgB (fun _ _ _ => 0) zeroState).v (ACC3D 1 2 1 cfgB.Ny cfgB.Nx) =
      -80 := by
  have hg : InGrid cfgB 1 2 1 := by decide
  have hout : ¬ InSourceBox cfgB 1 2 1 := fun h => by
    have := (inSourceBox_cfgB 1 2 1).mp h
    omega
  have hin : InEmitterBox cfgB 1 2 1 := (inEmitterBox_cfgB 1 2 1).mpr ⟨rfl, Or.inr rfl, rfl⟩
  exact ⟨hg, hout, rfl,
    ((setEmitterVelocity_at cfgB (fun _ _ _ => 0) zeroState emitterBoxInGrid_cfgB 1 2 1 hg).1
      hin).1⟩

/-- C11 (amended): `setEmitterVelocity` writes `v` and `v0` exactly in the box of its own loop
nest, which for `EMITTER_POS = TOP` is the source box that `addSource` fills and for `BOTTOM`
has `j` in `[Ny−SOURCE_Y_MERGIN−SOURCE_SIZE_Y, Ny−SOURCE_Y_MERGIN+1)`, one row more than the
source box. With that box inside the grid and `INIT_VELOCITY > 0`: for `BOTTOM` it sets
`v = −INIT_VELOCITY` at every cell of the box, for `TOP` it sets `v` to a value in
`[0, INIT_VELOCITY)`, and `v0 = v` there; `v` and `v0` at every grid cell outside that box
are unchanged, and `u` and `w` are unchanged everywhere. -/
theorem setEmitterVelocity_spec (cfg : Config) (rand : Int → Int → Int → Nat) (s : State)
    (hbox : EmitterBoxInGrid cfg) (hvel : 0 < cfg.INIT_VELOCITY) :
    (cfg.EMITTER_POS = EmitterPos.E_TOP → ∀ i j k, InEmitterBox cfg i j k ↔ InSourceBox cfg i j k) ∧
    (∀ i j k, InEmitterBox cfg i j k →
      (cfg.EMITTER_POS = EmitterPos.E_BOTTOM →
        (setEmitterVelocity cfg rand s).v (ACC3D i j k cfg.Ny cfg.Nx) = -cfg.INIT_VELOCITY) ∧
      (cfg.EMITTER_POS = EmitterPos.E_TOP →
        0 ≤ (setEmitterVelocity cfg rand s).v (ACC3D i j k cfg.Ny cfg.Nx) ∧
        (setEmitterVelocity cfg rand s).v (ACC3D i j k cfg.Ny cfg.Nx) < cfg.INIT_VELOCITY) ∧
      (setEmitterVelocity cfg rand s).v0 (ACC3D i j k cfg.Ny cfg.Nx) =
        (setEmitterVelocity cfg rand s).v (ACC3D i j k cfg.Ny cfg.Nx)) ∧
    (∀ i j k, InGrid cfg i j k → ¬ InEmitterBox cfg i j k →
      (setEmitterVelocity cfg rand s).v (ACC3D i j k cfg.Ny cfg.Nx) =
        s.v (ACC3D i j k cfg.Ny cfg.Nx) ∧
      (setEmitterVelocity cfg rand s).v0 (ACC3D i j k cfg.Ny cfg.Nx) =
        s.v0 (ACC3D i j k cfg.Ny cfg.Nx)) ∧
    (setEmitterVelocity cfg rand s).u = s.u ∧ (setEmitterVelocity cfg rand s).w = s.w := by
  refine ⟨?_, ?_, ?_, (setEmitterVelocity_frame cfg rand s).2.2.2.2.1,
    (setEmitterVelocity_frame cfg rand s).2.2.2.2.2⟩
  · intro hpos i j k
    unfold InEmitterBox InSourceBox
    rw [hpos]
  · intro i j k hin
    have hg : InGrid cfg i j k := hbox (i, j, k) (mem_emitterVelocityCells.mpr hin)
    obtain ⟨hv, hv0⟩ := (setEmitterVelocity_at cfg rand s hbox i j k hg).1 hin
    refine ⟨?_, ?_, hv0⟩
    · intro hpos
      rw [hv, hpos]
    · intro hpos
      rw [hv, hpos]
      simp only
      have hr : ((rand i j k % 100 : Nat) : ℚ) < 100 := by
        exact_mod_cast Nat.mod_lt _ (by norm_num)
      have hr0 : (0 : ℚ) ≤ ((rand i j k % 100 : Nat) : ℚ) := Nat.cast_nonneg _
      constructor
      · positivity
      · rw [div_lt_iff₀ (by norm_num : (0 : ℚ) < 100)]
        nlinarith
  · intro i j k hg hout
    exact (setEmitterVelocity_at cfg rand s hbox i j k hg).2 hout

/-- Witness for the amended C11 on the 4 × 3 × 3 grid with `EMITTER_POS = BOTTOM`: both cells
`(1, 1, 1)` and `(1, 2, 1)` of the box get `v = −80`, the grid cell `(1, 0, 1)` outside it
keeps `v = 0`. -/
theorem setEmitterVelocity_spec_witness :
    (setEmitterVelocity cfgB (fun _ _ _ => 0) zeroState).v (ACC3D 1 1 1 cfgB.Ny cfgB.Nx) =
      -80 ∧
    (setEmitterVelocity cfgB (fun _ _ _ => 0) zeroState).v (ACC3D 1 2 1 cfgB.Ny cfgB.Nx) =
      -80 ∧
    (setEmitterVelocity cfgB (fun _ _ _ => 0) zeroState).v (ACC3D 1 0 1 cfgB.Ny cfgB.Nx) =
      0 := by
  have e := setEmitterVelocity_spec cfgB (fun _ _ _ => 0) zeroState emitterBoxInGrid_cfgB
    (by norm_num [cfgB])
  have hout : ¬ InEmitterBox cfgB 1 0 1 := fun h => by
    have := (inEmitterBox_cfgB 1 0 1).mp h
    omega
  exact ⟨(e.2.1 1 1 1 ((inEmitterBox_cfgB 1 1 1).mpr ⟨rfl, Or.inl rfl, rfl⟩)).1 rfl,
    (e.2.1 1 2 1 ((inEmitterBox_cfgB 1 2 1).mpr ⟨rfl, Or.inr rfl, rfl⟩)).1 rfl,
    (e.2.2.1 1 0 1 (by decide) hout).1⟩

/-! ## `reset` and the constructor -/

/-- The flat index of a grid cell is a valid index of an array of length `SIZE`. -/
theorem ACC3D_lt_SIZE (cfg : Config) (i j k : Int) (h : InGrid cfg i j k) :
    0 ≤ ACC3D i j k cfg.Ny cfg.Nx ∧ ACC3D i j k cfg.Ny cfg.Nx < SIZE cfg := by
  unfold InGrid at h
  obtain ⟨h1, h2, h3, h4, h5, h6⟩ := h
  unfold ACC3D SIZE
  have hNy : 0 ≤ cfg.Ny := by omega
  have hNx : 0 ≤ cfg.Nx := by omega
  have hA : 0 ≤ k * cfg.Ny + j := add_nonneg (mul_nonneg h5 hNy) h3
  have hB : k * cfg.Ny + j + 1 ≤ cfg.Nz * cfg.Ny := by nlinarith
  constructor
  · exact add_nonneg (mul_nonneg hA hNx) h1
  · nlinarith

/-- A loop over the flat indices `lo ≤ i < hi` that writes entry `i`: the value at an index
after the loop. -/
theorem range_write_at (lo hi : Int) (upd : Int → ℚ → ℚ) (f : Field) (n : Int) :
    ((intRange lo hi).foldl (writeStep (fun _ => true) (fun i => i) upd) f) n =
      if lo ≤ n ∧ n < hi then upd n (f n) else f n := by
  split
  · rename_i hn
    have hpw : (intRange lo hi).Pairwise (fun a b => (fun _ : Int => true) a = true →
        (fun _ : Int => true) b = true → (fun i : Int => i) a ≠ (fun i : Int => i) b) :=
      (nodup_intRange lo hi).imp (fun hab _ _ => hab)
    exact foldl_writeStep_hit _ (fun i => i) upd _ f hpw n (mem_intRange.mpr hn) rfl
  · rename_i hn
    refine foldl_writeStep_miss _ (fun i => i) upd n _ f ?_
    intro c hc _ heq
    exact hn (heq ▸ mem_intRange.mp hc)

theorem reset_m_time (cfg : Config) (s : State) : (reset cfg s).m_time = 0 := rfl

/-- The arrays that `reset` does not write. -/
theorem reset_frame (cfg : Config) (s : State) :
    (reset cfg s).fx = s.fx ∧ (reset cfg s).fy = s.fy ∧ (reset cfg s).fz = s.fz ∧
    (reset cfg s).omg_x = s.omg_x ∧ (reset cfg s).omg_y = s.omg_y ∧
    (reset cfg s).omg_z = s.omg_z ∧ (reset cfg s).avg_u = s.avg_u ∧
    (reset cfg s).avg_v = s.avg_v ∧ (reset cfg s).avg_w = s.avg_w := by
  unfold reset
  simp only
  refine ⟨?_, ?_, ?_, ?_, ?_, ?_, ?_, ?_, ?_⟩
  · refine foldl_frame _ (fun t : State => t.fx) ?_ _ s
    intro t c
    rfl
  · refine foldl_frame _ (fun t : State => t.fy) ?_ _ s
    intro t c
    rfl
  · refine foldl_frame _ (fun t : State => t.fz) ?_ _ s
    intro t c
    rfl
  · refine foldl_frame _ (fun t : State => t.omg_x) ?_ _ s
    intro t c
    rfl
  · refine foldl_frame _ (fun t : State => t.omg_y) ?_ _ s
    intro t c
    rfl
  · refine foldl_frame _ (fun t : State => t.omg_z) ?_ _ s
    intro t c
    rfl
  · refine foldl_frame _ (fun t : State => t.avg_u) ?_ _ s
    intro t c
    rfl
  · refine foldl_frame _ (fun t : State => t.avg_v) ?_ _ s
    intro t c
    rfl
  · refine foldl_frame _ (fun t : State => t.avg_w) ?_ _ s
    intro t c
    rfl

/-- Each array that `reset` writes is the result of a loop that stores a constant. -/
theorem reset_fields (cfg : Config) (s : State) :
    (reset cfg s).density = (intRange 0 (SIZE cfg)).foldl
      (writeStep (fun _ => true) (fun i => i) (fun _ _ => 0)) s.density ∧
    (reset cfg s).density0 = (intRange 0 (SIZE cfg)).foldl
      (writeStep (fun _ => true) (fun i => i) (fun _ _ => 0)) s.density0 ∧
    (reset cfg s).temperature = (intRange 0 (SIZE cfg)).foldl
      (writeStep (fun _ => true) (fun i => i) (fun _ _ => s.envTemp_)) s.temperature ∧
    (reset cfg s).temperature0 = (intRange 0 (SIZE cfg)).foldl
      (writeStep (fun _ => true) (fun i => i) (fun _ _ => s.envTemp_)) s.temperature0 ∧
    (reset cfg s).pressure = (intRange 0 (SIZE cfg)).foldl
      (writeStep (fun _ => true) (fun i => i) (fun _ _ => 0)) s.pressure ∧
    (reset cfg s).u = (intRange 0 (SIZE cfg)).foldl
      (writeStep (fun _ => true) (fun i => i) (fun _ _ => 0)) s.u ∧
    (reset cfg s).u0 = (intRange 0 (SIZE cfg)).foldl
      (writeStep (fun _ => true) (fun i => i) (fun _ _ => 0)) s.u0 ∧
    (reset cfg s).v = (intRange 0 (SIZE cfg)).foldl
      (writeStep (fun _ => true) (fun i => i) (fun _ _ => 0)) s.v ∧
    (reset cfg s).v0 = (intRange 0 (SIZE cfg)).foldl
      (writeStep (fun _ => true) (fun i => i) (fun _ _ => 0)) s.v0 ∧
    (reset cfg s).w = (intRange 0 (SIZE cfg)).foldl
      (writeStep (fun _ => true) (fun i => i) (fun _ _ => 0)) s.w ∧
    (reset cfg s).w0 = (intRange 0 (SIZE cfg)).foldl
      (writeStep (fun _ => true) (fun i => i) (fun _ _ => 0)) s.w0 := by
  unfold reset
  simp only
  refine ⟨?_, ?_, ?_, ?_, ?_, ?_, ?_, ?_, ?_, ?_, ?_⟩
  · refine foldl_proj _ (fun t : State => t.density) _ (fun _ => True) ?_ ?_ _ s trivial
    · intro _ _ _
      trivial
    · intro t c _
      simp only [writeStep, if_true]
  · refine foldl_proj _ (fun t : State => t.density0) _ (fun _ => True) ?_ ?_ _ s trivial
    · intro _ _ _
      trivial
    · intro t c _
      simp only [writeStep, if_true]
  · refine foldl_proj _ (fun t : State => t.temperature) _ (fun t => t.envTemp_ = s.envTemp_)
      ?_ ?_ _ s rfl
    · intro t c ht
      exact ht
    · intro t c ht
      simp only at ht
      simp only [writeStep, if_true, ht]
  · refine foldl_proj _ (fun t : State => t.temperature0) _ (fun t => t.envTemp_ = s.envTemp_)
      ?_ ?_ _ s rfl
    · intro t c ht
      exact ht
    · intro t c ht
      simp only at ht
      simp only [writeStep, if_true, ht]
  · refine foldl_proj _ (fun t : State => t.pressure) _ (fun _ => True) ?_ ?_ _ s trivial
    · intro _ _ _
      trivial
    · intro t c _
      simp only [writeStep, if_true]
  · refine foldl_proj _ (fun t : State => t.u) _ (fun _ => True) ?_ ?_ _ s trivial
    · intro _ _ _
      trivial
    · intro t c _
      simp only [writeStep, if_true]
  · refine foldl_proj _ (fun t : State => t.u0) _ (fun _ => True) ?_ ?_ _ s trivial
    · intro _ _ _
      trivial
    · intro t c _
      simp only [writeStep, if_true]
  · refine foldl_proj _ (fun t : State => t.v) _ (fun _ => True) ?_ ?_ _ s trivial
    · intro _ _ _
      trivial
    · intro t c _
      simp only [writeStep, if_true]
  · refine foldl_proj _ (fun t : State => t.v0) _ (fun _ => True) ?_ ?_ _ s trivial
    · intro _ _ _
      trivial
    · intro t c _
      simp only [writeStep, if_true]
  · refine foldl_proj _ (fun t : State => t.w) _ (fun _ => True) ?_ ?_ _ s trivial
    · intro _ _ _
      trivial
    · intro t c _
      simp only [writeStep, if_true]
  · refine foldl_proj _ (fun t : State => t.w0) _ (fun _ => True) ?_ ?_ _ s trivial
    · intro _ _ _
      trivial
    · intro t c _
      simp only [writeStep, if_true]

/-- The eleven arrays that `reset` writes, at an index of the arrays. -/
theorem reset_at (cfg : Config) (s : State) (n : Int) (h0 : 0 ≤ n) (h1 : n < SIZE cfg) :
    (reset cfg s).density n = 0 ∧ (reset cfg s).density0 n = 0 ∧
    (reset cfg s).temperature n = s.envTemp_ ∧ (reset cfg s).temperature0 n = s.envTemp_ ∧
    (reset cfg s).pressure n = 0 ∧ (reset cfg s).u n = 0 ∧ (reset cfg s).u0 n = 0 ∧
    (reset cfg s).v n = 0 ∧ (reset cfg s).v0 n = 0 ∧ (reset cfg s).w n = 0 ∧
    (reset cfg s).w0 n = 0 := by
  obtain ⟨e1, e2, e3, e4, e5, e6, e7, e8, e9, e10, e11⟩ := reset_fields cfg s
  rw [e1, e2, e3, e4, e5, e6, e7, e8, e9, e10, e11]
  simp only [range_write_at, if_pos (And.intro h0 h1), and_self]

/-- C12 as stated fails: `0` is an index of the arrays of the 3 × 3 × 3 grid, `fx` holds 4
there before `reset`, and still holds 4 after it instead of 0. -/
theorem reset_keeps_fx :
    (0 : Int) < SIZE cfg3 ∧ smokeState.fx 0 = 4 ∧ (reset cfg3 smokeState).fx 0 = 4 := by
  refine ⟨by decide, rfl, ?_⟩
  rw [(reset_frame cfg3 smokeState).1]
  rfl

/-- C12 (amended): after `reset`, for every pre-state, `u`, `v`, `w`, `u0`, `v0`, `w0`,
`density`, `density0` and `pressure` are zero at every index `0 ≤ n < SIZE`, `temperature`
and `temperature0` equal `envTemp_` at every such index, and the clock is 0; the arrays `fx`,
`fy`, `fz`, `omg_x`, `omg_y`, `omg_z`, `avg_u`, `avg_v`, `avg_w` are not written and keep
their previous contents. -/
theorem reset_spec (cfg : Config) (s : State) (n : Int) (h0 : 0 ≤ n) (h1 : n < SIZE cfg) :
    ((reset cfg s).u n = 0 ∧ (reset cfg s).v n = 0 ∧ (reset cfg s).w n = 0 ∧
      (reset cfg s).u0 n = 0 ∧ (reset cfg s).v0 n = 0 ∧ (reset cfg s).w0 n = 0 ∧
      (reset cfg s).density n = 0 ∧ (reset cfg s).density0 n = 0 ∧
      (reset cfg s).pressure n = 0) ∧
    ((reset cfg s).temperature n = s.envTemp_ ∧ (reset cfg s).temperature0 n = s.envTemp_) ∧
    (reset cfg s).m_time = 0 ∧
    ((reset cfg s).fx = s.fx ∧ (reset cfg s).fy = s.fy ∧ (reset cfg s).fz = s.fz ∧
      (reset cfg s).omg_x = s.omg_x ∧ (reset cfg s).omg_y = s.omg_y ∧
      (reset cfg s).omg_z = s.omg_z ∧ (reset cfg s).avg_u = s.avg_u ∧
      (reset cfg s).avg_v = s.avg_v ∧ (reset cfg s).avg_w = s.avg_w) := by
  obtain ⟨e1, e2, e3, e4, e5, e6, e7, e8, e9, e10, e11⟩ := reset_at cfg s n h0 h1
  exact ⟨⟨e6, e8, e10, e7, e9, e11, e1, e2, e5⟩, ⟨e3, e4⟩, reset_m_time cfg s,
    reset_frame cfg s⟩

/-- Witness for the amended C12 on the 3 × 3 × 3 grid at index 13: density 1/2 and
temperature 300 become 0 and `envTemp_ = 0`, the clock 7 becomes 0, and `fy` keeps 5. -/
theorem reset_spec_witness :
    (reset cfg3 lateState).density 13 = 0 ∧ (reset cfg3 lateState).temperature 13 = 0 ∧
    (reset cfg3 lateState).m_time = 0 ∧ (reset cfg3 lateState).fy 13 = 5 := by
  have e := reset_spec cfg3 lateState 13 (by decide) (by decide)
  refine ⟨e.1.2.2.2.2.2.2.1, e.2.1.1, e.2.2.1, ?_⟩
  rw [e.2.2.2.2.1]
  rfl

theorem addSource_frame_prev (cfg : Config) (dist : Int → Int → Int → ℚ) (s : State) :
    (addSource cfg dist s).u0 = s.u0 ∧ (addSource cfg dist s).v0 = s.v0 ∧
      (addSource cfg dist s).w0 = s.w0 ∧ (addSource cfg dist s).density0 = s.density0 ∧
      (addSource cfg dist s).pressure = s.pressure ∧
      (addSource cfg dist s).temperature0 = s.temperature0 := by
  unfold addSource forBox
  refine ⟨?_, ?_, ?_, ?_, ?_, ?_⟩
  · refine foldl_frame _ (fun t : State => t.u0) ?_ _ s
    intro t c
    rfl
  · refine foldl_frame _ (fun t : State => t.v0) ?_ _ s
    intro t c
    rfl
  · refine foldl_frame _ (fun t : State => t.w0) ?_ _ s
    intro t c
    rfl
  · refine foldl_frame _ (fun t : State => t.density0) ?_ _ s
    intro t c
    rfl
  · refine foldl_frame _ (fun t : State => t.pressure) ?_ _ s
    intro t c
    rfl
  · refine foldl_frame _ (fun t : State => t.temperature0) ?_ _ s
    intro t c
    rfl

theorem setEmitterVelocity_frame_prev (cfg : Config) (rand : Int → Int → Int → Nat)
    (s : State) :
    (setEmitterVelocity cfg rand s).u0 = s.u0 ∧ (setEmitterVelocity cfg rand s).w0 = s.w0 ∧
      (setEmitterVelocity cfg rand s).density0 = s.density0 ∧
      (setEmitterVelocity cfg rand s).pressure = s.pressure ∧
      (setEmitterVelocity cfg rand s).temperature0 = s.temperature0 := by
  unfold setEmitterVelocity forBox
  refine ⟨?_, ?_, ?_, ?_, ?_⟩
  · refine foldl_frame _ (fun t : State => t.u0) ?_ _ s
    intro t c
    simp only
    split <;> rfl
  · refine foldl_frame _ (fun t : State => t.w0) ?_ _ s
    intro t c
    simp only
    split <;> rfl
  · refine foldl_frame _ (fun t : State => t.density0) ?_ _ s
    intro t c
    simp only
    split <;> rfl
  · refine foldl_frame _ (fun t : State => t.pressure) ?_ _ s
    intro t c
    simp only
    split <;> rfl
  · refine foldl_frame _ (fun t : State => t.temperature0) ?_ _ s
    intro t c
    simp only
    split <;> rfl

/-- The constructor leaves every array but `temperature`, `density`, `v`, `v0` as it found
it. -/
theorem Simulator_Simulator_frame (cfg : Config) (dist : Int → Int → Int → ℚ)
    (rand : Int → Int → Int → Nat) (s0 : State) :
    (Simulator_Simulator cfg dist rand s0).u = s0.u ∧
    (Simulator_Simulator cfg dist rand s0).w = s0.w ∧
    (Simulator_Simulator cfg dist rand s0).u0 = s0.u0 ∧
    (Simulator_Simulator cfg dist rand s0).w0 = s0.w0 ∧
    (Simulator_Simulator cfg dist rand s0).density0 = s0.density0 ∧
    (Simulator_Simulator cfg dist rand s0).pressure = s0.pressure ∧
    (Simulator_Simulator cfg dist rand s0).temperature0 = s0.temperature0 := by
  unfold Simulator_Simulator
  simp only
  obtain ⟨f1, f2, f3, f4, f5⟩ := setEmitterVelocity_frame_prev cfg rand
    (addSource cfg dist (FOR_EACH_CELL cfg (fun i j k s =>
      { s with temperature :=
        (Function.update s.temperature (ACC3D i j k cfg.Ny cfg.Nx) cfg.T_AMBIENT) }) s0))
  obtain ⟨_, _, _, _, g5, g6⟩ := setEmitterVelocity_frame cfg rand
    (addSource cfg dist (FOR_EACH_CELL cfg (fun i j k s =>
      { s with temperature :=
        (Function.update s.temperature (ACC3D i j k cfg.Ny cfg.Nx) cfg.T_AMBIENT) }) s0))
  obtain ⟨a1, _, a3, _, _⟩ := addSource_frame cfg dist
    (FOR_EACH_CELL cfg (fun i j k s =>
      { s with temperature :=
        (Function.update s.temperature (ACC3D i j k cfg.Ny cfg.Nx) cfg.T_AMBIENT) }) s0)
  obtain ⟨b1, _, b3, b4, b5, b6⟩ := addSource_frame_prev cfg dist
    (FOR_EACH_CELL cfg (fun i j k s =>
      { s with temperature :=
        (Function.update s.temperature (ACC3D i j k cfg.Ny cfg.Nx) cfg.T_AMBIENT) }) s0)
  rw [g5, g6, f1, f2, f3, f4, f5, a1, a3, b1, b3, b4, b5, b6]
  unfold FOR_EACH_CELL forBox
  refine ⟨?_, ?_, ?_, ?_, ?_, ?_, ?_⟩
  · refine foldl_frame _ (fun t : State => t.u) ?_ _ s0
    intro t c
    rfl
  · refine foldl_frame _ (fun t : State => t.w) ?_ _ s0
    intro t c
    rfl
  · refine foldl_frame _ (fun t : State => t.u0) ?_ _ s0
    intro t c
    rfl
  · refine foldl_frame _ (fun t : State => t.w0) ?_ _ s0
    intro t c
    rfl
  · refine foldl_frame _ (fun t : State => t.density0) ?_ _ s0
    intro t c
    rfl
  · refine foldl_frame _ (fun t : State => t.pressure) ?_ _ s0
    intro t c
    rfl
  · refine foldl_frame _ (fun t : State => t.temperature0) ?_ _ s0
    intro t c
    rfl

/-- The arrays `density`, `temperature`, `v`, `v0` at a grid cell after the constructor. -/
theorem Simulator_Simulator_at (cfg : Config) (dist : Int → Int → Int → ℚ)
    (rand : Int → Int → Int → Nat) (s0 : State) (hsrc : SourceBoxInGrid cfg)
    (hemit : EmitterBoxInGrid cfg) (i j k : Int) (h : InGrid cfg i j k) :
    (InSourceBox cfg i j k →
      (Simulator_Simulator cfg dist rand s0).density (ACC3D i j k cfg.Ny cfg.Nx) =
        cfg.INIT_DENSITY ∧
      (Simulator_Simulator cfg dist rand s0).temperature (ACC3D i j k cfg.Ny cfg.Nx) =
        dist i j k) ∧
    (¬ InSourceBox cfg i j k →
      (Simulator_Simulator cfg dist rand s0).density (ACC3D i j k cfg.Ny cfg.Nx) =
        s0.density (ACC3D i j k cfg.Ny cfg.Nx) ∧
      (Simulator_Simulator cfg dist rand s0).temperature (ACC3D i j k cfg.Ny cfg.Nx) =
        cfg.T_AMBIENT) ∧
    (¬ InEmitterBox cfg i j k →
      (Simulator_Simulator cfg dist rand s0).v (ACC3D i j k cfg.Ny cfg.Nx) =
        s0.v (ACC3D i j k cfg.Ny cfg.Nx) ∧
      (Simulator_Simulator cfg dist rand s0).v0 (ACC3D i j k cfg.Ny cfg.Nx) =
        s0.v0 (ACC3D i j k cfg.Ny cfg.Nx)) := by
  unfold Simulator_Simulator
  simp only
  have hA : (FOR_EACH_CELL cfg (fun i j k s =>
      { s with temperature :=
        (Function.update s.temperature (ACC3D i j k cfg.Ny cfg.Nx) cfg.T_AMBIENT) })
      s0).temperature (ACC3D i j k cfg.Ny cfg.Nx) = cfg.T_AMBIENT := by
    have hf : (FOR_EACH_CELL cfg (fun i j k s =>
        { s with temperature :=
          (Function.update s.temperature (ACC3D i j k cfg.Ny cfg.Nx) cfg.T_AMBIENT) })
        s0).temperature = (gridCells cfg).foldl
          (writeStep (fun _ => true) (fun c => ACC3D c.1 c.2.1 c.2.2 cfg.Ny cfg.Nx)
            (fun _ _ => cfg.T_AMBIENT)) s0.temperature := by
      unfold FOR_EACH_CELL forBox
      refine foldl_proj _ (fun t : State => t.temperature) _ (fun _ => True) ?_ ?_ _ s0 trivial
      · intro _ _ _
        trivial
      · intro t c _
        simp only [writeStep, if_true]
    rw [hf, grid_write_at cfg _ _ _ i j k h, if_pos rfl]
  have hD : (FOR_EACH_CELL cfg (fun i j k s =>
      { s with temperature :=
        (Function.update s.temperature (ACC3D i j k cfg.Ny cfg.Nx) cfg.T_AMBIENT) })
      s0).density = s0.density := by
    unfold FOR_EACH_CELL forBox
    refine foldl_frame _ (fun t : State => t.density) ?_ _ s0
    intro t c
    rfl
  have hV : (FOR_EACH_CELL cfg (fun i j k s =>
      { s with temperature :=
        (Function.update s.temperature (ACC3D i j k cfg.Ny cfg.Nx) cfg.T_AMBIENT) })
      s0).v = s0.v := by
    unfold FOR_EACH_CELL forBox
    refine foldl_frame _ (fun t : State => t.v) ?_ _ s0
    intro t c
    rfl
  have hV0 : (FOR_EACH_CELL cfg (fun i j k s =>
      { s with temperature :=
        (Function.update s.temperature (ACC3D i j k cfg.Ny cfg.Nx) cfg.T_AMBIENT) })
      s0).v0 = s0.v0 := by
    unfold FOR_EACH_CELL forBox
    refine foldl_frame _ (fun t : State => t.v0) ?_ _ s0
    intro t c
    rfl
  rw [(setEmitterVelocity_frame cfg rand _).1, (setEmitterVelocity_frame cfg rand _).2.1]
  refine ⟨?_, ?_, ?_⟩
  · intro hin
    exact (addSource_at cfg dist _ hsrc i j k h).1 hin
  · intro hout
    obtain ⟨hd, ht⟩ := (addSource_at cfg dist _ hsrc i j k h).2 hout
    rw [hd, ht, hD, hA]
    exact ⟨rfl, rfl⟩
  · intro hout
    obtain ⟨hv, hv0⟩ := (setEmitterVelocity_at cfg rand _ hemit i j k h).2 hout
    rw [hv, hv0, (addSource_frame cfg dist _).2.1, (addSource_frame_prev cfg dist _).2.1, hV,
      hV0]
    exact ⟨rfl, rfl⟩

theorem emitterBoxInGrid_cfg3 : EmitterBoxInGrid cfg3 := by
  rintro ⟨i, j, k⟩ h
  have hin : InSourceBox cfg3 i j k := by
    have := mem_emitterVelocityCells.mp h
    unfold InEmitterBox at this
    unfold InSourceBox
    exact this
  obtain ⟨rfl, rfl, rfl⟩ := (inSourceBox_cfg3 i j k).mp hin
  decide

/-- C13 as stated fails: on the 3 × 3 × 3 grid the constructor, started on arrays that hold 0,
leaves density `INIT_DENSITY = 1` in the source cell `(1, 0, 1)` (flat index 10); `reset`,
called on the constructed state itself, leaves density 0 there. -/
theorem reset_clears_constructed_source :
    InGrid cfg3 1 0 1 ∧ InSourceBox cfg3 1 0 1 ∧
    (Simulator_Simulator cfg3 (fun _ _ _ => 900) (fun _ _ _ => 0)
      { zeroState with envTemp_ := 273 }).density (ACC3D 1 0 1 cfg3.Ny cfg3.Nx) = 1 ∧
    (reset cfg3 (Simulator_Simulator cfg3 (fun _ _ _ => 900) (fun _ _ _ => 0)
      { zeroState with envTemp_ := 273 })).density (ACC3D 1 0 1 cfg3.Ny cfg3.Nx) = 0 := by
  have hg : InGrid cfg3 1 0 1 := by decide
  have hin : InSourceBox cfg3 1 0 1 := (inSourceBox_cfg3 1 0 1).mpr ⟨rfl, rfl, rfl⟩
  refine ⟨hg, hin, ((Simulator_Simulator_at cfg3 _ _ _ sourceBoxInGrid_cfg3
    emitterBoxInGrid_cfg3 1 0 1 hg).1 hin).1, ?_⟩
  exact (reset_at cfg3 _ _ (ACC3D_lt_SIZE cfg3 1 0 1 hg).1 (ACC3D_lt_SIZE cfg3 1 0 1 hg).2).1

/-- C13 (amended): of the constructed state, `reset` restores the ambient temperature outside
the source box, and any other entry only where the array held the reset value before the
constructor ran. Let `s0` be the contents of the arrays when the constructor body starts (the
source does not initialise them) and `s` any state whose `envTemp_` is still `T_AMBIENT`, with
the source box and the box of `setEmitterVelocity` inside the grid. At every grid cell:
`temperature` after `reset` equals its constructed value outside the source box; `u`, `w`,
`u0`, `w0`, `density0`, `pressure` equal their constructed values exactly when `s0` held 0
there, `temperature0` exactly when `s0` held `T_AMBIENT`, `density` outside the source box and
`v`, `v0` outside the box of `setEmitterVelocity` exactly when `s0` held 0; inside the source
box `density` is restored only if `INIT_DENSITY = 0` and `temperature` only if the draw equals
`T_AMBIENT`. -/
theorem reset_vs_constructed (cfg : Config) (dist : Int → Int → Int → ℚ)
    (rand : Int → Int → Int → Nat) (s0 s : State) (hsrc : SourceBoxInGrid cfg)
    (hemit : EmitterBoxInGrid cfg) (henv : s.envTemp_ = cfg.T_AMBIENT) (i j k : Int)
    (h : InGrid cfg i j k) :
    (¬ InSourceBox cfg i j k →
      (reset cfg s).temperature (ACC3D i j k cfg.Ny cfg.Nx) =
        (Simulator_Simulator cfg dist rand s0).temperature (ACC3D i j k cfg.Ny cfg.Nx)) ∧
    (((reset cfg s).u (ACC3D i j k cfg.Ny cfg.Nx) =
          (Simulator_Simulator cfg dist rand s0).u (ACC3D i j k cfg.Ny cfg.Nx) ↔
        s0.u (ACC3D i j k cfg.Ny cfg.Nx) = 0) ∧
      ((reset cfg s).w (ACC3D i j k cfg.Ny cfg.Nx) =
          (Simulator_Simulator cfg dist rand s0).w (ACC3D i j k cfg.Ny cfg.Nx) ↔
        s0.w (ACC3D i j k cfg.Ny cfg.Nx) = 0) ∧
      ((reset cfg s).u0 (ACC3D i j k cfg.Ny cfg.Nx) =
          (Simulator_Simulator cfg dist rand s0).u0 (ACC3D i j k cfg.Ny cfg.Nx) ↔
        s0.u0 (ACC3D i j k cfg.Ny cfg.Nx) = 0) ∧
      ((reset cfg s).w0 (ACC3D i j k cfg.Ny cfg.Nx) =
          (Simulator_Simulator cfg dist rand s0).w0 (ACC3D i j k cfg.Ny cfg.Nx) ↔
        s0.w0 (ACC3D i j k cfg.Ny cfg.Nx) = 0) ∧
      ((reset cfg s).density0 (ACC3D i j k cfg.Ny cfg.Nx) =
          (Simulator_Simulator cfg dist rand s0).density0 (ACC3D i j k cfg.Ny cfg.Nx) ↔
        s0.density0 (ACC3D i j k cfg.Ny cfg.Nx) = 0) ∧
      ((reset cfg s).pressure (ACC3D i j k cfg.Ny cfg.Nx) =
          (Simulator_Simulator cfg dist rand s0).pressure (ACC3D i j k cfg.Ny cfg.Nx) ↔
        s0.pressure (ACC3D i j k cfg.Ny cfg.Nx) = 0) ∧
      ((reset cfg s).temperature0 (ACC3D i j k cfg.Ny cfg.Nx) =
          (Simulator_Simulator cfg dist rand s0).temperature0 (ACC3D i j k cfg.Ny cfg.Nx) ↔
        s0.temperature0 (ACC3D i j k cfg.Ny cfg.Nx) = cfg.T_AMBIENT)) ∧
    (¬ InSourceBox cfg i j k →
      ((reset cfg s).density (ACC3D i j k cfg.Ny cfg.Nx) =
          (Simulator_Simulator cfg dist rand s0).density (ACC3D i j k cfg.Ny cfg.Nx) ↔
        s0.density (ACC3D i j k cfg.Ny cfg.Nx) = 0)) ∧
    (¬ InEmitterBox cfg i j k →
      ((reset cfg s).v (ACC3D i j k cfg.Ny cfg.Nx) =
          (Simulator_Simulator cfg dist rand s0).v (ACC3D i j k cfg.Ny cfg.Nx) ↔
        s0.v (ACC3D i j k cfg.Ny cfg.Nx) = 0) ∧
      ((reset cfg s).v0 (ACC3D i j k cfg.Ny cfg.Nx) =
          (Simulator_Simulator cfg dist rand s0).v0 (ACC3D i j k cfg.Ny cfg.Nx) ↔
        s0.v0 (ACC3D i j k cfg.Ny cfg.Nx) = 0)) ∧
    (InSourceBox cfg i j k →
      ((reset cfg s).density (ACC3D i j k cfg.Ny cfg.Nx) =
          (Simulator_Simulator cfg dist rand s0).density (ACC3D i j k cfg.Ny cfg.Nx) ↔
        cfg.INIT_DENSITY = 0) ∧
      ((reset cfg s).temperature (ACC3D i j k cfg.Ny cfg.Nx) =
          (Simulator_Simulator cfg dist rand s0).temperature (ACC3D i j k cfg.Ny cfg.Nx) ↔
        dist i j k = cfg.T_AMBIENT)) := by
  obtain ⟨e1, e2, e3, e4, e5, e6, e7, e8, e9, e10, e11⟩ := reset_at cfg s _
    (ACC3D_lt_SIZE cfg i j k h).1 (ACC3D_lt_SIZE cfg i j k h).2
  obtain ⟨c1, c2, c3, c4, c5, c6, c7⟩ := Simulator_Simulator_frame cfg dist rand s0
  obtain ⟨a1, a2, a3⟩ := Simulator_Simulator_at cfg dist rand s0 hsrc hemit i j k h
  rw [e1, e2, e3, e4, e5, e6, e7, e8, e9, e10, e11, c1, c2, c3, c4, c5, c6, c7, henv]
  refine ⟨?_, ⟨eq_comm, eq_comm, eq_comm, eq_comm, eq_comm, eq_comm, eq_comm⟩, ?_, ?_, ?_⟩
  · intro hout
    rw [(a2 hout).2]
  · intro hout
    rw [(a2 hout).1]
    exact eq_comm
  · intro hout
    rw [(a3 hout).1, (a3 hout).2]
    exact ⟨eq_comm, eq_comm⟩
  · intro hin
    rw [(a1 hin).1, (a1 hin).2]
    exact ⟨eq_comm, eq_comm⟩

/-- Witness for the amended C13 on the 3 × 3 × 3 grid at the cell `(1, 1, 1)` outside the
source box, with a constructor started on arrays that hold `u = 1` and temperature 300, and a
state with `envTemp_ = T_AMBIENT = 273` before `reset`: the temperature after `reset` is the
constructed one, 273, and `u` is not the constructed one, 0 against 1. -/
theorem reset_vs_constructed_witness :
    (reset cfg3 { smokeState with envTemp_ := 273 }).temperature
        (ACC3D 1 1 1 cfg3.Ny cfg3.Nx) =
      (Simulator_Simulator cfg3 (fun _ _ _ => 900) (fun _ _ _ => 0)
        occupiedState).temperature (ACC3D 1 1 1 cfg3.Ny cfg3.Nx) ∧
    (Simulator_Simulator cfg3 (fun _ _ _ => 900) (fun _ _ _ => 0)
        occupiedState).temperature (ACC3D 1 1 1 cfg3.Ny cfg3.Nx) = 273 ∧
    (reset cfg3 { smokeState with envTemp_ := 273 }).u (ACC3D 1 1 1 cfg3.Ny cfg3.Nx) ≠
      (Simulator_Simulator cfg3 (fun _ _ _ => 900) (fun _ _ _ => 0) occupiedState).u
        (ACC3D 1 1 1 cfg3.Ny cfg3.Nx) := by
  have hout : ¬ InSourceBox cfg3 1 1 1 := fun h => by
    have := (inSourceBox_cfg3 1 1 1).mp h
    omega
  have e := reset_vs_constructed cfg3 (fun _ _ _ => 900) (fun _ _ _ => 0) occupiedState
    { smokeState with envTemp_ := 273 } sourceBoxInGrid_cfg3 emitterBoxInGrid_cfg3 rfl
    1 1 1 (by decide)
  refine ⟨e.1 hout, ?_, ?_⟩
  · exact ((Simulator_Simulator_at cfg3 _ _ occupiedState sourceBoxInGrid_cfg3
      emitterBoxInGrid_cfg3 1 1 1 (by decide)).2.1 hout).2
  · intro hu
    have h0 := e.2.1.1.mp hu
    norm_num [occupiedState] at h0

/-! ## `calculate_vorticity` -/

theorem sqrtQ_mul_self (r : ℚ) : sqrtQ (r * r) = |r| := by
  unfold sqrtQ
  rw [Rat.mul_self_num, Rat.mul_self_den, Nat.sqrt_eq]
  have h : (r.num * r.num).toNat = r.num.natAbs * r.num.natAbs := by
    rw [← Int.natAbs_mul_self, Int.toNat_natCast]
  rw [h, Nat.sqrt_eq, Nat.cast_natAbs]
  conv_rhs => rw [← Rat.num_div_den r]
  rw [abs_div, Nat.abs_cast]
  push_cast
  rfl

/-- The function `vecNorm` is the Euclidean length on vectors along one axis. -/
theorem vecNorm_axis (a : ℚ) (h : 0 ≤ a) :
    vecNorm a 0 0 = a ∧ vecNorm 0 a 0 = a ∧ vecNorm 0 0 a = a := by
  unfold vecNorm
  simp only [mul_zero, add_zero, zero_add, sqrtQ_mul_self, abs_of_nonneg h, and_self]

theorem calculate_vorticity_avg_frame (cfg : Config) (s : State) :
    (calculate_vorticity_avg cfg s).u = s.u ∧
      (calculate_vorticity_avg cfg s).v = s.v ∧
      (calculate_vorticity_avg cfg s).w = s.w ∧
      (calculate_vorticity_avg cfg s).omg_x = s.omg_x ∧
      (calculate_vorticity_avg cfg s).omg_y = s.omg_y ∧
      (calculate_vorticity_avg cfg s).omg_z = s.omg_z ∧
      (calculate_vorticity_avg cfg s).fx = s.fx ∧
      (calculate_vorticity_avg cfg s).fy = s.fy ∧
      (calculate_vorticity_avg cfg s).fz = s.fz ∧
      (calculate_vorticity_avg cfg s).vort = s.vort := by
  unfold calculate_vorticity_avg FOR_EACH_CELL forBox
  refine ⟨?_, ?_, ?_, ?_, ?_, ?_, ?_, ?_, ?_, ?_⟩
  · refine foldl_frame _ (fun t : State => t.u) ?_ _ s
    intro t c
    rfl
  · refine foldl_frame _ (fun t : State => t.v) ?_ _ s
    intro t c
    rfl
  · refine foldl_frame _ (fun t : State => t.w) ?_ _ s
    intro t c
    rfl
  · refine foldl_frame _ (fun t : State => t.omg_x) ?_ _ s
    intro t c
    rfl
  · refine foldl_frame _ (fun t : State => t.omg_y) ?_ _ s
    intro t c
    rfl
  · refine foldl_frame _ (fun t : State => t.omg_z) ?_ _ s
    intro t c
    rfl
  · refine foldl_frame _ (fun t : State => t.fx) ?_ _ s
    intro t c
    rfl
  · refine foldl_frame _ (fun t : State => t.fy) ?_ _ s
    intro t c
    rfl
  · refine foldl_frame _ (fun t : State => t.fz) ?_ _ s
    intro t c
    rfl
  · refine foldl_frame _ (fun t : State => t.vort) ?_ _ s
    intro t c
    rfl

theorem calculate_vorticity_avg_avg_u (cfg : Config) (s : State) :
    (calculate_vorticity_avg cfg s).avg_u = (gridCells cfg).foldl
      (writeStep (fun _ => true) (fun c => ACC3D c.1 c.2.1 c.2.2 cfg.Ny cfg.Nx)
        (fun c _ => (s.u (ACC3D c.1 c.2.1 c.2.2 cfg.Ny cfg.Nx) + s.u (ACC3D (c.1 + 1) c.2.1 c.2.2 cfg.Ny cfg.Nx)) * 0.5)) s.avg_u := by
  unfold calculate_vorticity_avg FOR_EACH_CELL forBox
  refine foldl_proj _ (fun t : State => t.avg_u) _
    (fun t => t.u = s.u ∧ t.v = s.v ∧ t.w = s.w) ?_ ?_ _ s ⟨rfl, rfl, rfl⟩
  · intro t c ht
    exact ht
  · intro t c ht
    simp only [writeStep, if_true, ht.1, ht.2.1, ht.2.2]

theorem calculate_vorticity_avg_avg_v (cfg : Config) (s : State) :
    (calculate_vorticity_avg cfg s).avg_v = (gridCells cfg).foldl
      (writeStep (fun _ => true) (fun c => ACC3D c.1 c.2.1 c.2.2 cfg.Ny cfg.Nx)
        (fun c _ => (s.v (ACC3D c.1 c.2.1 c.2.2 cfg.Ny cfg.Nx) + s.v (ACC3D c.1 (c.2.1 + 1) c.2.2 cfg.Ny cfg.Nx)) * 0.5)) s.avg_v := by
  unfold calculate_vorticity_avg FOR_EACH_CELL forBox
  refine foldl_proj _ (fun t : State => t.avg_v) _
    (fun t => t.u = s.u ∧ t.v = s.v ∧ t.w = s.w) ?_ ?_ _ s ⟨rfl, rfl, rfl⟩
  · intro t c ht
    exact ht
  · intro t c ht
    simp only [writeStep, if_true, ht.1, ht.2.1, ht.2.2]

theorem calculate_vorticity_avg_avg_w (cfg : Config) (s : State) :
    (calculate_vorticity_avg cfg s).avg_w = (gridCells cfg).foldl
      (writeStep (fun _ => true) (fun c => ACC3D c.1 c.2.1 c.2.2 cfg.Ny cfg.Nx)
        (fun c _ => (s.w (ACC3D c.1 c.2.1 c.2.2 cfg.Ny cfg.Nx) + s.w (ACC3D c.1 c.2.1 (c.2.2 + 1) cfg.Ny cfg.Nx)) * 0.5)) s.avg_w := by
  unfold calculate_vorticity_avg FOR_EACH_CELL forBox
  refine foldl_proj _ (fun t : State => t.avg_w) _
    (fun t => t.u = s.u ∧ t.v = s.v ∧ t.w = s.w) ?_ ?_ _ s ⟨rfl, rfl, rfl⟩
  · intro t c ht
    exact ht
  · intro t c ht
    simp only [writeStep, if_true, ht.1, ht.2.1, ht.2.2]

theorem calculate_vorticity_curl_frame (cfg : Config) (s : State) :
    (calculate_vorticity_curl cfg s).avg_u = s.avg_u ∧
      (calculate_vorticity_curl cfg s).avg_v = s.avg_v ∧
      (calculate_vorticity_curl cfg s).avg_w = s.avg_w ∧
      (calculate_vorticity_curl cfg s).u = s.u ∧
      (calculate_vorticity_curl cfg s).v = s.v ∧
      (calculate_vorticity_curl cfg s).w = s.w ∧
      (calculate_vorticity_curl cfg s).fx = s.fx ∧
      (calculate_vorticity_curl cfg s).fy = s.fy ∧
      (calculate_vorticity_curl cfg s).fz = s.fz ∧
      (calculate_vorticity_curl cfg s).vort = s.vort := by
  unfold calculate_vorticity_curl FOR_EACH_CELL forBox
  refine ⟨?_, ?_, ?_, ?_, ?_, ?_, ?_, ?_, ?_, ?_⟩
  · refine foldl_frame _ (fun t : State => t.avg_u) ?_ _ s
    intro t c
    simp only
    split_ifs <;> rfl
  · refine foldl_frame _ (fun t : State => t.avg_v) ?_ _ s
    intro t c
    simp only
    split_ifs <;> rfl
  · refine foldl_frame _ (fun t : State => t.avg_w) ?_ _ s
    intro t c
    simp only
    split_ifs <;> rfl
  · refine foldl_frame _ (fun t : State => t.u) ?_ _ s
    intro t c
    simp only
    split_ifs <;> rfl
  · refine foldl_frame _ (fun t : State => t.v) ?_ _ s
    intro t c
    simp only
    split_ifs <;> rfl
  · refine foldl_frame _ (fun t : State => t.w) ?_ _ s
    intro t c
    simp only
    split_ifs <;> rfl
  · refine foldl_frame _ (fun t : State => t.fx) ?_ _ s
    intro t c
    simp only
    split_ifs <;> rfl
  · refine foldl_frame _ (fun t : State => t.fy) ?_ _ s
    intro t c
    simp only
    split_ifs <;> rfl
  · refine foldl_frame _ (fun t : State => t.fz) ?_ _ s
    intro t c
    simp only
    split_ifs <;> rfl
  · refine foldl_frame _ (fun t : State => t.vort) ?_ _ s
    intro t c
    simp only
    split_ifs <;> rfl

theorem calculate_vorticity_curl_omg_x (cfg : Config) (s : State) :
    (calculate_vorticity_curl cfg s).omg_x = (gridCells cfg).foldl
      (writeStep (fun c => decide (¬ (c.1 = 0 ∨ c.2.1 = 0 ∨ c.2.2 = 0) ∧
          ¬ (c.1 = cfg.Nx - 1 ∨ c.2.1 = cfg.Ny - 1 ∨ c.2.2 = cfg.Nz - 1)))
        (fun c => ACC3D c.1 c.2.1 c.2.2 cfg.Ny cfg.Nx)
        (fun c _ => (s.avg_w (ACC3D c.1 (c.2.1 + 1) c.2.2 cfg.Ny cfg.Nx) - s.avg_w (ACC3D c.1 (c.2.1 - 1) c.2.2 cfg.Ny cfg.Nx) -
          s.avg_v (ACC3D c.1 c.2.1 (c.2.2 + 1) cfg.Ny cfg.Nx) + s.avg_v (ACC3D c.1 c.2.1 (c.2.2 - 1) cfg.Ny cfg.Nx)) *
            0.5 / cfg.VOXEL_SIZE)) s.omg_x := by
  unfold calculate_vorticity_curl FOR_EACH_CELL forBox
  refine foldl_proj _ (fun t : State => t.omg_x) _
    (fun t => t.avg_u = s.avg_u ∧ t.avg_v = s.avg_v ∧ t.avg_w = s.avg_w) ?_ ?_ _ s
    ⟨rfl, rfl, rfl⟩
  · intro t c ht
    simp only
    split_ifs <;> exact ht
  · intro t c ht
    simp only at ht
    simp only [writeStep, decide_eq_true_eq]
    split_ifs <;> first | rfl | (exfalso; tauto) | simp only [ht.1, ht.2.1, ht.2.2]

theorem calculate_vorticity_curl_omg_y (cfg : Config) (s : State) :
    (calculate_vorticity_curl cfg s).omg_y = (gridCells cfg).foldl
      (writeStep (fun c => decide (¬ (c.1 = 0 ∨ c.2.1 = 0 ∨ c.2.2 = 0) ∧
          ¬ (c.1 = cfg.Nx - 1 ∨ c.2.1 = cfg.Ny - 1 ∨ c.2.2 = cfg.Nz - 1)))
        (fun c => ACC3D c.1 c.2.1 c.2.2 cfg.Ny cfg.Nx)
        (fun c _ => (s.avg_u (ACC3D c.1 c.2.1 (c.2.2 + 1) cfg.Ny cfg.Nx) - s.avg_u (ACC3D c.1 c.2.1 (c.2.2 - 1) cfg.Ny cfg.Nx) -
          s.avg_w (ACC3D (c.1 + 1) c.2.1 c.2.2 cfg.Ny cfg.Nx) + s.avg_w (ACC3D (c.1 - 1) c.2.1 c.2.2 cfg.Ny cfg.Nx)) *
            0.5 / cfg.VOXEL_SIZE)) s.omg_y := by
  unfold calculate_vorticity_curl FOR_EACH_CELL forBox
  refine foldl_proj _ (fun t : State => t.omg_y) _
    (fun t => t.avg_u = s.avg_u ∧ t.avg_v = s.avg_v ∧ t.avg_w = s.avg_w) ?_ ?_ _ s
    ⟨rfl, rfl, rfl⟩
  · intro t c ht
    simp only
    split_ifs <;> exact ht
  · intro t c ht
    simp only at ht
    simp only [writeStep, decide_eq_true_eq]
    split_ifs <;> first | rfl | (exfalso; tauto) | simp only [ht.1, ht.2.1, ht.2.2]

theorem calculate_vorticity_curl_omg_z (cfg : Config) (s : State) :
    (calculate_vorticity_curl cfg s).omg_z = (gridCells cfg).foldl
      (writeStep (fun c => decide (¬ (c.1 = 0 ∨ c.2.1 = 0 ∨ c.2.2 = 0) ∧
          ¬ (c.1 = cfg.Nx - 1 ∨ c.2.1 = cfg.Ny - 1 ∨ c.2.2 = cfg.Nz - 1)))
        (fun c => ACC3D c.1 c.2.1 c.2.2 cfg.Ny cfg.Nx)
        (fun c _ => (s.avg_v (ACC3D (c.1 + 1) c.2.1 c.2.2 cfg.Ny cfg.Nx) - s.avg_v (ACC3D (c.1 - 1) c.2.1 c.2.2 cfg.Ny cfg.Nx) -
          s.avg_u (ACC3D c.1 (c.2.1 + 1) c.2.2 cfg.Ny cfg.Nx) + s.avg_u (ACC3D c.1 (c.2.1 - 1) c.2.2 cfg.Ny cfg.Nx)) *
            0.5 / cfg.VOXEL_SIZE)) s.omg_z := by
  unfold calculate_vorticity_curl FOR_EACH_CELL forBox
  refine foldl_proj _ (fun t : State => t.omg_z) _
    (fun t => t.avg_u = s.avg_u ∧ t.avg_v = s.avg_v ∧ t.avg_w = s.avg_w) ?_ ?_ _ s
    ⟨rfl, rfl, rfl⟩
  · intro t c ht
    simp only
    split_ifs <;> exact ht
  · intro t c ht
    simp only at ht
    simp only [writeStep, decide_eq_true_eq]
    split_ifs <;> first | rfl | (exfalso; tauto) | simp only [ht.1, ht.2.1, ht.2.2]

theorem calculate_vorticity_confinement_frame (cfg : Config) (norm : ℚ → ℚ → ℚ → ℚ) (s : State) :
    (calculate_vorticity_confinement cfg norm s).omg_x = s.omg_x ∧
      (calculate_vorticity_confinement cfg norm s).omg_y = s.omg_y ∧
      (calculate_vorticity_confinement cfg norm s).omg_z = s.omg_z ∧
      (calculate_vorticity_confinement cfg norm s).avg_u = s.avg_u ∧
      (calculate_vorticity_confinement cfg norm s).avg_v = s.avg_v ∧
      (calculate_vorticity_confinement cfg norm s).avg_w = s.avg_w ∧
      (calculate_vorticity_confinement cfg norm s).u = s.u ∧
      (calculate_vorticity_confinement cfg norm s).v = s.v ∧
      (calculate_vorticity_confinement cfg norm s).w = s.w := by
  unfold calculate_vorticity_confinement FOR_EACH_CELL forBox
  refine ⟨?_, ?_, ?_, ?_, ?_, ?_, ?_, ?_, ?_⟩
  · refine foldl_frame _ (fun t : State => t.omg_x) ?_ _ s
    intro t c
    simp only
    split_ifs <;> rfl
  · refine foldl_frame _ (fun t : State => t.omg_y) ?_ _ s
    intro t c
    simp only
    split_ifs <;> rfl
  · refine foldl_frame _ (fun t : State => t.omg_z) ?_ _ s
    intro t c
    simp only
    split_ifs <;> rfl
  · refine foldl_frame _ (fun t : State => t.avg_u) ?_ _ s
    intro t c
    simp only
    split_ifs <;> rfl
  · refine foldl_frame _ (fun t : State => t.avg_v) ?_ _ s
    intro t c
    simp only
    split_ifs <;> rfl
  · refine foldl_frame _ (fun t : State => t.avg_w) ?_ _ s
    intro t c
    simp only
    split_ifs <;> rfl
  · refine foldl_frame _ (fun t : State => t.u) ?_ _ s
    intro t c
    simp only
    split_ifs <;> rfl
  · refine foldl_frame _ (fun t : State => t.v) ?_ _ s
    intro t c
    simp only
    split_ifs <;> rfl
  · refine foldl_frame _ (fun t : State => t.w) ?_ _ s
    intro t c
    simp only
    split_ifs <;> rfl

theorem calculate_vorticity_confinement_fx (cfg : Config) (norm : ℚ → ℚ → ℚ → ℚ)
    (s : State) :
    (calculate_vorticity_confinement cfg norm s).fx = (gridCells cfg).foldl
      (writeStep (fun c => decide (¬ (c.1 = 0 ∨ c.2.1 = 0 ∨ c.2.2 = 0) ∧
          ¬ (c.1 = cfg.Nx - 1 ∨ c.2.1 = cfg.Ny - 1 ∨ c.2.2 = cfg.Nz - 1)))
        (fun c => ACC3D c.1 c.2.1 c.2.2 cfg.Ny cfg.Nx)
        (fun c y => y + (confinement_force cfg norm s.omg_x s.omg_y s.omg_z c.1 c.2.1 c.2.2).1)) s.fx := by
  unfold calculate_vorticity_confinement FOR_EACH_CELL forBox
  refine foldl_proj _ (fun t : State => t.fx) _
    (fun t => t.omg_x = s.omg_x ∧ t.omg_y = s.omg_y ∧ t.omg_z = s.omg_z) ?_ ?_ _ s
    ⟨rfl, rfl, rfl⟩
  · intro t c ht
    simp only
    split_ifs <;> exact ht
  · intro t c ht
    simp only at ht
    simp only [writeStep, decide_eq_true_eq]
    split_ifs <;> first | rfl | (exfalso; tauto) | simp only [ht.1, ht.2.1, ht.2.2]

theorem calculate_vorticity_confinement_fy (cfg : Config) (norm : ℚ → ℚ → ℚ → ℚ)
    (s : State) :
    (calculate_vorticity_confinement cfg norm s).fy = (gridCells cfg).foldl
      (writeStep (fun c => decide (¬ (c.1 = 0 ∨ c.2.1 = 0 ∨ c.2.2 = 0) ∧
          ¬ (c.1 = cfg.Nx - 1 ∨ c.2.1 = cfg.Ny - 1 ∨ c.2.2 = cfg.Nz - 1)))
        (fun c => ACC3D c.1 c.2.1 c.2.2 cfg.Ny cfg.Nx)
        (fun c y => y + (confinement_force cfg norm s.omg_x s.omg_y s.omg_z c.1 c.2.1 c.2.2).2.1)) s.fy := by
  unfold calculate_vorticity_confinement FOR_EACH_CELL forBox
  refine foldl_proj _ (fun t : State => t.fy) _
    (fun t => t.omg_x = s.omg_x ∧ t.omg_y = s.omg_y ∧ t.omg_z = s.omg_z) ?_ ?_ _ s
    ⟨rfl, rfl, rfl⟩
  · intro t c ht
    simp only
    split_ifs <;> exact ht
  · intro t c ht
    simp only at ht
    simp only [writeStep, decide_eq_true_eq]
    split_ifs <;> first | rfl | (exfalso; tauto) | simp only [ht.1, ht.2.1, ht.2.2]

theorem calculate_vorticity_confinement_fz (cfg : Config) (norm : ℚ → ℚ → ℚ → ℚ)
    (s : State) :
    (calculate_vorticity_confinement cfg norm s).fz = (gridCells cfg).foldl
      (writeStep (fun c => decide (¬ (c.1 = 0 ∨ c.2.1 = 0 ∨ c.2.2 = 0) ∧
          ¬ (c.1 = cfg.Nx - 1 ∨ c.2.1 = cfg.Ny - 1 ∨ c.2.2 = cfg.Nz - 1)))
        (fun c => ACC3D c.1 c.2.1 c.2.2 cfg.Ny cfg.Nx)
        (fun c y => y + (confinement_force cfg norm s.omg_x s.omg_y s.omg_z c.1 c.2.1 c.2.2).2.2)) s.fz := by
  unfold calculate_vorticity_confinement FOR_EACH_CELL forBox
  refine foldl_proj _ (fun t : State => t.fz) _
    (fun t => t.omg_x = s.omg_x ∧ t.omg_y = s.omg_y ∧ t.omg_z = s.omg_z) ?_ ?_ _ s
    ⟨rfl, rfl, rfl⟩
  · intro t c ht
    simp only
    split_ifs <;> exact ht
  · intro t c ht
    simp only at ht
    simp only [writeStep, decide_eq_true_eq]
    split_ifs <;> first | rfl | (exfalso; tauto) | simp only [ht.1, ht.2.1, ht.2.2]

theorem calculate_vorticity_confinement_vort (cfg : Config) (norm : ℚ → ℚ → ℚ → ℚ)
    (s : State) :
    (calculate_vorticity_confinement cfg norm s).vort = (gridCells cfg).foldl
      (writeStep (fun c => decide (¬ (c.1 = 0 ∨ c.2.1 = 0 ∨ c.2.2 = 0) ∧
          ¬ (c.1 = cfg.Nx - 1 ∨ c.2.1 = cfg.Ny - 1 ∨ c.2.2 = cfg.Nz - 1)))
        (fun c => ACC3D c.1 c.2.1 c.2.2 cfg.Ny cfg.Nx)
        (fun c _ => norm (confinement_force cfg norm s.omg_x s.omg_y s.omg_z c.1 c.2.1 c.2.2).1
          (confinement_force cfg norm s.omg_x s.omg_y s.omg_z c.1 c.2.1 c.2.2).2.1
          (confinement_force cfg norm s.omg_x s.omg_y s.omg_z c.1 c.2.1 c.2.2).2.2)) s.vort := by
  unfold calculate_vorticity_confinement FOR_EACH_CELL forBox
  refine foldl_proj _ (fun t : State => t.vort) _
    (fun t => t.omg_x = s.omg_x ∧ t.omg_y = s.omg_y ∧ t.omg_z = s.omg_z) ?_ ?_ _ s
    ⟨rfl, rfl, rfl⟩
  · intro t c ht
    simp only
    split_ifs <;> exact ht
  · intro t c ht
    simp only at ht
    simp only [writeStep, decide_eq_true_eq]
    split_ifs <;> first | rfl | (exfalso; tauto) | simp only [ht.1, ht.2.1, ht.2.2]

/-- For a grid cell, passing the two `continue` guards is being an interior cell. -/
theorem guard_iff_interior (cfg : Config) (i j k : Int) (h : InGrid cfg i j k) :
    (¬ (i = 0 ∨ j = 0 ∨ k = 0) ∧ ¬ (i = cfg.Nx - 1 ∨ j = cfg.Ny - 1 ∨ k = cfg.Nz - 1)) ↔
      Interior cfg i j k := by
  unfold InGrid at h
  unfold Interior
  constructor
  · intro hg
    omega
  · intro hg
    omega

/-- A loop over the grid that writes entry `ACC3D c` at the cells passing the two `continue`
guards: the value at a grid cell after the loop. -/
theorem grid_interior_write_at (cfg : Config) (upd : Int × Int × Int → ℚ → ℚ) (f : Field)
    (i j k : Int) (h : InGrid cfg i j k) :
    ((gridCells cfg).foldl
      (writeStep (fun c => decide (¬ (c.1 = 0 ∨ c.2.1 = 0 ∨ c.2.2 = 0) ∧
          ¬ (c.1 = cfg.Nx - 1 ∨ c.2.1 = cfg.Ny - 1 ∨ c.2.2 = cfg.Nz - 1)))
        (fun c => ACC3D c.1 c.2.1 c.2.2 cfg.Ny cfg.Nx) upd) f) (ACC3D i j k cfg.Ny cfg.Nx) =
      if Interior cfg i j k then upd (i, j, k) (f (ACC3D i j k cfg.Ny cfg.Nx))
      else f (ACC3D i j k cfg.Ny cfg.Nx) := by
  rw [grid_write_at cfg _ _ _ i j k h]
  simp only [decide_eq_true_eq, guard_iff_interior cfg i j k h]

/-- The cell-centred velocity that `calculate_vorticity` leaves at a grid cell. -/
theorem calculate_vorticity_avg_at (cfg : Config) (norm : ℚ → ℚ → ℚ → ℚ) (s : State)
    (i j k : Int) (h : InGrid cfg i j k) :
    (calculate_vorticity cfg norm s).avg_u (ACC3D i j k cfg.Ny cfg.Nx) =
      (s.u (ACC3D i j k cfg.Ny cfg.Nx) + s.u (ACC3D (i + 1) j k cfg.Ny cfg.Nx)) * 0.5 ∧
    (calculate_vorticity cfg norm s).avg_v (ACC3D i j k cfg.Ny cfg.Nx) =
      (s.v (ACC3D i j k cfg.Ny cfg.Nx) + s.v (ACC3D i (j + 1) k cfg.Ny cfg.Nx)) * 0.5 ∧
    (calculate_vorticity cfg norm s).avg_w (ACC3D i j k cfg.Ny cfg.Nx) =
      (s.w (ACC3D i j k cfg.Ny cfg.Nx) + s.w (ACC3D i j (k + 1) cfg.Ny cfg.Nx)) * 0.5 := by
  unfold calculate_vorticity
  obtain ⟨_, _, _, c4, c5, c6, _⟩ := calculate_vorticity_confinement_frame cfg norm
    (calculate_vorticity_curl cfg (calculate_vorticity_avg cfg s))
  obtain ⟨b1, b2, b3, _⟩ := calculate_vorticity_curl_frame cfg (calculate_vorticity_avg cfg s)
  rw [c4, c5, c6, b1, b2, b3, calculate_vorticity_avg_avg_u, calculate_vorticity_avg_avg_v,
    calculate_vorticity_avg_avg_w, grid_write_at cfg _ _ _ i j k h,
    grid_write_at cfg _ _ _ i j k h, grid_write_at cfg _ _ _ i j k h]
  simp only [if_true, and_self]

/-- The vorticity that `calculate_vorticity` leaves at a grid cell: the central-difference
curl of the cell-centred velocity at interior cells, the previous value elsewhere. -/
theorem calculate_vorticity_omg_at (cfg : Config) (norm : ℚ → ℚ → ℚ → ℚ) (s : State)
    (i j k : Int) (h : InGrid cfg i j k) :
    (calculate_vorticity cfg norm s).omg_x (ACC3D i j k cfg.Ny cfg.Nx) =
      (if Interior cfg i j k then
        ((calculate_vorticity cfg norm s).avg_w (ACC3D i (j + 1) k cfg.Ny cfg.Nx) -
          (calculate_vorticity cfg norm s).avg_w (ACC3D i (j - 1) k cfg.Ny cfg.Nx) -
          (calculate_vorticity cfg norm s).avg_v (ACC3D i j (k + 1) cfg.Ny cfg.Nx) +
          (calculate_vorticity cfg norm s).avg_v (ACC3D i j (k - 1) cfg.Ny cfg.Nx)) *
            0.5 / cfg.VOXEL_SIZE
      else s.omg_x (ACC3D i j k cfg.Ny cfg.Nx)) ∧
    (calculate_vorticity cfg norm s).omg_y (ACC3D i j k cfg.Ny cfg.Nx) =
      (if Interior cfg i j k then
        ((calculate_vorticity cfg norm s).avg_u (ACC3D i j (k + 1) cfg.Ny cfg.Nx) -
          (calculate_vorticity cfg norm s).avg_u (ACC3D i j (k - 1) cfg.Ny cfg.Nx) -
          (calculate_vorticity cfg norm s).avg_w (ACC3D (i + 1) j k cfg.Ny cfg.Nx) +
          (calculate_vorticity cfg norm s).avg_w (ACC3D (i - 1) j k cfg.Ny cfg.Nx)) *
            0.5 / cfg.VOXEL_SIZE
      else s.omg_y (ACC3D i j k cfg.Ny cfg.Nx)) ∧
    (calculate_vorticity cfg norm s).omg_z (ACC3D i j k cfg.Ny cfg.Nx) =
      (if Interior cfg i j k then
        ((calculate_vorticity cfg norm s).avg_v (ACC3D (i + 1) j k cfg.Ny cfg.Nx) -
          (calculate_vorticity cfg norm s).avg_v (ACC3D (i - 1) j k cfg.Ny cfg.Nx) -
          (calculate_vorticity cfg norm s).avg_u (ACC3D i (j + 1) k cfg.Ny cfg.Nx) +
          (calculate_vorticity cfg norm s).avg_u (ACC3D i (j - 1) k cfg.Ny cfg.Nx)) *
            0.5 / cfg.VOXEL_SIZE
      else s.omg_z (ACC3D i j k cfg.Ny cfg.Nx)) := by
  unfold calculate_vorticity
  obtain ⟨c1, c2, c3, c4, c5, c6, _⟩ := calculate_vorticity_confinement_frame cfg norm
    (calculate_vorticity_curl cfg (calculate_vorticity_avg cfg s))
  obtain ⟨b1, b2, b3, _⟩ := calculate_vorticity_curl_frame cfg (calculate_vorticity_avg cfg s)
  obtain ⟨_, _, _, a4, a5, a6, _⟩ := calculate_vorticity_avg_frame cfg s
  rw [c1, c2, c3, c4, c5, c6, b1, b2, b3, calculate_vorticity_curl_omg_x,
    calculate_vorticity_curl_omg_y, calculate_vorticity_curl_omg_z, a4, a5, a6,
    grid_interior_write_at cfg _ _ i j k h, grid_interior_write_at cfg _ _ i j k h,
    grid_interior_write_at cfg _ _ i j k h]
  exact ⟨rfl, rfl, rfl⟩

/-- The confinement output of `calculate_vorticity` at a grid cell: at interior cells the
force computed from the final vorticity arrays is recorded in `vort` and added to `fx`, `fy`,
`fz`; elsewhere the four arrays keep their previous value. -/
theorem calculate_vorticity_force_at (cfg : Config) (norm : ℚ → ℚ → ℚ → ℚ) (s : State)
    (i j k : Int) (h : InGrid cfg i j k) :
    (calculate_vorticity cfg norm s).fx (ACC3D i j k cfg.Ny cfg.Nx) =
      (if Interior cfg i j k then s.fx (ACC3D i j k cfg.Ny cfg.Nx) +
          (confinement_force cfg norm (calculate_vorticity cfg norm s).omg_x
            (calculate_vorticity cfg norm s).omg_y (calculate_vorticity cfg norm s).omg_z
            i j k).1
        else s.fx (ACC3D i j k cfg.Ny cfg.Nx)) ∧
    (calculate_vorticity cfg norm s).fy (ACC3D i j k cfg.Ny cfg.Nx) =
      (if Interior cfg i j k then s.fy (ACC3D i j k cfg.Ny cfg.Nx) +
          (confinement_force cfg norm (calculate_vorticity cfg norm s).omg_x
            (calculate_vorticity cfg norm s).omg_y (calculate_vorticity cfg norm s).omg_z
            i j k).2.1
        else s.fy (ACC3D i j k cfg.Ny cfg.Nx)) ∧
    (calculate_vorticity cfg norm s).fz (ACC3D i j k cfg.Ny cfg.Nx) =
      (if Interior cfg i j k then s.fz (ACC3D i j k cfg.Ny cfg.Nx) +
          (confinement_force cfg norm (calculate_vorticity cfg norm s).omg_x
            (calculate_vorticity cfg norm s).omg_y (calculate_vorticity cfg norm s).omg_z
            i j k).2.2
        else s.fz (ACC3D i j k cfg.Ny cfg.Nx)) ∧
    (calculate_vorticity cfg norm s).vort (ACC3D i j k cfg.Ny cfg.Nx) =
      (if Interior cfg i j k then
          norm
            (confinement_force cfg norm (calculate_vorticity cfg norm s).omg_x
              (calculate_vorticity cfg norm s).omg_y (calculate_vorticity cfg norm s).omg_z
              i j k).1
            (confinement_force cfg norm (calculate_vorticity cfg norm s).omg_x
              (calculate_vorticity cfg norm s).omg_y (calculate_vorticity cfg norm s).omg_z
              i j k).2.1
            (confinement_force cfg norm (calculate_vorticity cfg norm s).omg_x
              (calculate_vorticity cfg norm s).omg_y (calculate_vorticity cfg norm s).omg_z
              i j k).2.2
        else s.vort (ACC3D i j k cfg.Ny cfg.Nx)) := by
  unfold calculate_vorticity
  obtain ⟨c1, c2, c3, _⟩ := calculate_vorticity_confinement_frame cfg norm
    (calculate_vorticity_curl cfg (calculate_vorticity_avg cfg s))
  obtain ⟨_, _, _, _, _, _, b7, b8, b9, b10⟩ :=
    calculate_vorticity_curl_frame cfg (calculate_vorticity_avg cfg s)
  obtain ⟨_, _, _, _, _, _, a7, a8, a9, a10⟩ := calculate_vorticity_avg_frame cfg s
  rw [c1, c2, c3, calculate_vorticity_confinement_fx, calculate_vorticity_confinement_fy,
    calculate_vorticity_confinement_fz, calculate_vorticity_confinement_vort,
    grid_interior_write_at cfg _ _ i j k h, grid_interior_write_at cfg _ _ i j k h,
    grid_interior_write_at cfg _ _ i j k h, grid_interior_write_at cfg _ _ i j k h,
    b7, b8, b9, b10, a7, a8, a9, a10]
  exact ⟨rfl, rfl, rfl, rfl⟩

theorem vecNorm_x (a : ℚ) (h : 0 ≤ a) : vecNorm a 0 0 = a := (vecNorm_axis a h).1

theorem vecNorm_y (a : ℚ) (h : 0 ≤ a) : vecNorm 0 a 0 = a := (vecNorm_axis a h).2.1

theorem vecNorm_zero : vecNorm 0 0 0 = 0 := (vecNorm_axis 0 le_rfl).1

/-- The vorticity arrays after `calculate_vorticity` on `curlState` and `staleCurlState`, at
the centre cell of the 3 × 3 × 3 grid and at its six neighbours (all boundary cells). -/
theorem curlState_omg (s : State) (hu : s.u = fun _ => 0) (hv : s.v = curlState.v)
    (hw : s.w = fun _ => 0) :
    (calculate_vorticity cfg3 vecNorm s).omg_x 13 = 0 ∧
    (calculate_vorticity cfg3 vecNorm s).omg_y 13 = 0 ∧
    (calculate_vorticity cfg3 vecNorm s).omg_z 13 = 1 ∧
    (∀ n : Int, n = 14 ∨ n = 12 ∨ n = 16 ∨ n = 10 ∨ n = 22 ∨ n = 4 →
      (calculate_vorticity cfg3 vecNorm s).omg_x n = s.omg_x n ∧
      (calculate_vorticity cfg3 vecNorm s).omg_y n = s.omg_y n ∧
      (calculate_vorticity cfg3 vecNorm s).omg_z n = s.omg_z n) := by
  have hc := calculate_vorticity_omg_at cfg3 vecNorm s 1 1 1 (by decide)
  rw [if_pos (by decide), if_pos (by decide), if_pos (by decide)] at hc
  have a1 := calculate_vorticity_avg_at cfg3 vecNorm s 1 (1 + 1) 1 (by decide)
  have a2 := calculate_vorticity_avg_at cfg3 vecNorm s 1 (1 - 1) 1 (by decide)
  have a3 := calculate_vorticity_avg_at cfg3 vecNorm s 1 1 (1 + 1) (by decide)
  have a4 := calculate_vorticity_avg_at cfg3 vecNorm s 1 1 (1 - 1) (by decide)
  have a5 := calculate_vorticity_avg_at cfg3 vecNorm s (1 + 1) 1 1 (by decide)
  have a6 := calculate_vorticity_avg_at cfg3 vecNorm s (1 - 1) 1 1 (by decide)
  rw [a1.2.2, a2.2.2, a3.2.1, a4.2.1, a3.1, a4.1, a5.2.2, a6.2.2, a5.2.1, a6.2.1, a1.1, a2.1,
    hu, hv, hw] at hc
  have i13 : ACC3D 1 1 1 cfg3.Ny cfg3.Nx = 13 := by decide
  rw [i13] at hc
  refine ⟨hc.1.trans ?_, hc.2.1.trans ?_, hc.2.2.trans ?_, ?_⟩
  · norm_num [ACC3D, cfg3, curlState, zeroState]
  · norm_num [ACC3D, cfg3, curlState, zeroState]
  · norm_num [ACC3D, cfg3, curlState, zeroState]
  · intro n hn
    have hb : ∀ i j k : Int, InGrid cfg3 i j k → ¬ Interior cfg3 i j k →
        (calculate_vorticity cfg3 vecNorm s).omg_x (ACC3D i j k cfg3.Ny cfg3.Nx) =
          s.omg_x (ACC3D i j k cfg3.Ny cfg3.Nx) ∧
        (calculate_vorticity cfg3 vecNorm s).omg_y (ACC3D i j k cfg3.Ny cfg3.Nx) =
          s.omg_y (ACC3D i j k cfg3.Ny cfg3.Nx) ∧
        (calculate_vorticity cfg3 vecNorm s).omg_z (ACC3D i j k cfg3.Ny cfg3.Nx) =
          s.omg_z (ACC3D i j k cfg3.Ny cfg3.Nx) := by
      intro i j k hg hni
      have e := calculate_vorticity_omg_at cfg3 vecNorm s i j k hg
      rw [if_neg hni, if_neg hni, if_neg hni] at e
      exact e
    rcases hn with rfl | rfl | rfl | rfl | rfl | rfl
    · exact hb 2 1 1 (by decide) (by decide)
    · exact hb 0 1 1 (by decide) (by decide)
    · exact hb 1 2 1 (by decide) (by decide)
    · exact hb 1 0 1 (by decide) (by decide)
    · exact hb 1 1 2 (by decide) (by decide)
    · exact hb 1 1 0 (by decide) (by decide)

/-- C17: step b of `calculate_vorticity` computes the curl by central differences at interior
cells only. For every cell with `1 ≤ i ≤ Nx−2`, `1 ≤ j ≤ Ny−2`, `1 ≤ k ≤ Nz−2`:
`omg_x = (avg_w(i,j+1,k) − avg_w(i,j−1,k) − avg_v(i,j,k+1) + avg_v(i,j,k−1))/(2h)`,
`omg_y = (avg_u(i,j,k+1) − avg_u(i,j,k−1) − avg_w(i+1,j,k) + avg_w(i−1,j,k))/(2h)`,
`omg_z = (avg_v(i+1,j,k) − avg_v(i−1,j,k) − avg_u(i,j+1,k) + avg_u(i,j−1,k))/(2h)`, with the
cell-centred velocities that step a left in `avg_u`, `avg_v`, `avg_w`; at every grid cell with
some index equal to 0 or `N−1`, `omg_x`, `omg_y`, `omg_z` keep their previous values. -/
theorem calculate_vorticity_curl_spec (cfg : Config) (norm : ℚ → ℚ → ℚ → ℚ) (s : State)
    (i j k : Int) (h : InGrid cfg i j k) :
    ((1 ≤ i ∧ i ≤ cfg.Nx - 2) ∧ (1 ≤ j ∧ j ≤ cfg.Ny - 2) ∧ (1 ≤ k ∧ k ≤ cfg.Nz - 2) →
      (calculate_vorticity cfg norm s).omg_x (ACC3D i j k cfg.Ny cfg.Nx) =
        ((calculate_vorticity cfg norm s).avg_w (ACC3D i (j + 1) k cfg.Ny cfg.Nx) -
          (calculate_vorticity cfg norm s).avg_w (ACC3D i (j - 1) k cfg.Ny cfg.Nx) -
          (calculate_vorticity cfg norm s).avg_v (ACC3D i j (k + 1) cfg.Ny cfg.Nx) +
          (calculate_vorticity cfg norm s).avg_v (ACC3D i j (k - 1) cfg.Ny cfg.Nx)) /
            (2 * cfg.VOXEL_SIZE) ∧
      (calculate_vorticity cfg norm s).omg_y (ACC3D i j k cfg.Ny cfg.Nx) =
        ((calculate_vorticity cfg norm s).avg_u (ACC3D i j (k + 1) cfg.Ny cfg.Nx) -
          (calculate_vorticity cfg norm s).avg_u (ACC3D i j (k - 1) cfg.Ny cfg.Nx) -
          (calculate_vorticity cfg norm s).avg_w (ACC3D (i + 1) j k cfg.Ny cfg.Nx) +
          (calculate_vorticity cfg norm s).avg_w (ACC3D (i - 1) j k cfg.Ny cfg.Nx)) /
            (2 * cfg.VOXEL_SIZE) ∧
      (calculate_vorticity cfg norm s).omg_z (ACC3D i j k cfg.Ny cfg.Nx) =
        ((calculate_vorticity cfg norm s).avg_v (ACC3D (i + 1) j k cfg.Ny cfg.Nx) -
          (calculate_vorticity cfg norm s).avg_v (ACC3D (i - 1) j k cfg.Ny cfg.Nx) -
          (calculate_vorticity cfg norm s).avg_u (ACC3D i (j + 1) k cfg.Ny cfg.Nx) +
          (calculate_vorticity cfg norm s).avg_u (ACC3D i (j - 1) k cfg.Ny cfg.Nx)) /
            (2 * cfg.VOXEL_SIZE)) ∧
    (i = 0 ∨ i = cfg.Nx - 1 ∨ j = 0 ∨ j = cfg.Ny - 1 ∨ k = 0 ∨ k = cfg.Nz - 1 →
      (calculate_vorticity cfg norm s).omg_x (ACC3D i j k cfg.Ny cfg.Nx) =
        s.omg_x (ACC3D i j k cfg.Ny cfg.Nx) ∧
      (calculate_vorticity cfg norm s).omg_y (ACC3D i j k cfg.Ny cfg.Nx) =
        s.omg_y (ACC3D i j k cfg.Ny cfg.Nx) ∧
      (calculate_vorticity cfg norm s).omg_z (ACC3D i j k cfg.Ny cfg.Nx) =
        s.omg_z (ACC3D i j k cfg.Ny cfg.Nx)) := by
  obtain ⟨hx, hy, hz⟩ := calculate_vorticity_omg_at cfg norm s i j k h
  have half : ∀ a b : ℚ, a * 0.5 / b = a / (2 * b) := by
    intro a b
    rw [show (0.5 : ℚ) = 1 / 2 by norm_num]
    ring
  constructor
  · intro hint
    have hI : Interior cfg i j k := hint
    rw [hx, hy, hz, if_pos hI, if_pos hI, if_pos hI, half, half, half]
    exact ⟨rfl, rfl, rfl⟩
  · intro hbd
    have hI : ¬ Interior cfg i j k := by
      unfold Interior
      omega
    rw [hx, hy, hz, if_neg hI, if_neg hI, if_neg hI]
    exact ⟨rfl, rfl, rfl⟩

/-- Witness for C17 on the 3 × 3 × 3 grid with `h = 1`: at the interior cell `(1, 1, 1)`
(flat index 13) the velocity `v(2,1,1) = 4` gives `omg_z = (2 − 0 − 0 + 0)/2 = 1`; at the
boundary cell `(2, 1, 1)` (flat index 14) the stale `omg_x = 3` is kept. -/
theorem calculate_vorticity_curl_spec_witness :
    (calculate_vorticity cfg3 vecNorm staleCurlState).omg_z (ACC3D 1 1 1 cfg3.Ny cfg3.Nx) = 1 ∧
    (calculate_vorticity cfg3 vecNorm staleCurlState).omg_x (ACC3D 2 1 1 cfg3.Ny cfg3.Nx) =
      3 := by
  have e1 := (calculate_vorticity_curl_spec cfg3 vecNorm staleCurlState 1 1 1 (by decide)).1
    (by decide)
  have e2 := (calculate_vorticity_curl_spec cfg3 vecNorm staleCurlState 2 1 1 (by decide)).2
    (by decide)
  refine ⟨e1.2.2.trans ?_, e2.1.trans rfl⟩
  have a5 := calculate_vorticity_avg_at cfg3 vecNorm staleCurlState (1 + 1) 1 1 (by decide)
  have a6 := calculate_vorticity_avg_at cfg3 vecNorm staleCurlState (1 - 1) 1 1 (by decide)
  have a1 := calculate_vorticity_avg_at cfg3 vecNorm staleCurlState 1 (1 + 1) 1 (by decide)
  have a2 := calculate_vorticity_avg_at cfg3 vecNorm staleCurlState 1 (1 - 1) 1 (by decide)
  rw [a5.2.1, a6.2.1, a1.1, a2.1]
  norm_num [ACC3D, cfg3, staleCurlState, curlState, zeroState]

/-- The confinement force depends on the vorticity arrays only through the cell and its six
neighbours. -/
theorem confinement_force_congr (cfg : Config) (norm : ℚ → ℚ → ℚ → ℚ)
    (ox oy oz ox' oy' oz' : Field) (i j k : Int)
    (h : ∀ n : Int, n = ACC3D i j k cfg.Ny cfg.Nx ∨ n = ACC3D (i + 1) j k cfg.Ny cfg.Nx ∨
      n = ACC3D (i - 1) j k cfg.Ny cfg.Nx ∨ n = ACC3D i (j + 1) k cfg.Ny cfg.Nx ∨
      n = ACC3D i (j - 1) k cfg.Ny cfg.Nx ∨ n = ACC3D i j (k + 1) cfg.Ny cfg.Nx ∨
      n = ACC3D i j (k - 1) cfg.Ny cfg.Nx → ox n = ox' n ∧ oy n = oy' n ∧ oz n = oz' n) :
    confinement_force cfg norm ox oy oz i j k = confinement_force cfg norm ox' oy' oz' i j k := by
  have h0 := h _ (Or.inl rfl)
  have h1 := h _ (Or.inr (Or.inl rfl))
  have h2 := h _ (Or.inr (Or.inr (Or.inl rfl)))
  have h3 := h _ (Or.inr (Or.inr (Or.inr (Or.inl rfl))))
  have h4 := h _ (Or.inr (Or.inr (Or.inr (Or.inr (Or.inl rfl)))))
  have h5 := h _ (Or.inr (Or.inr (Or.inr (Or.inr (Or.inr (Or.inl rfl))))))
  have h6 := h _ (Or.inr (Or.inr (Or.inr (Or.inr (Or.inr (Or.inr rfl))))))
  unfold confinement_force
  simp only [h0.1, h0.2.1, h0.2.2, h1.1, h1.2.1, h1.2.2, h2.1, h2.2.1, h2.2.2, h3.1, h3.2.1,
    h3.2.2, h4.1, h4.2.1, h4.2.2, h5.1, h5.2.1, h5.2.2, h6.1, h6.2.1, h6.2.2]

/-- The vorticity that `calculate_vorticity` leaves at an interior cell depends on the
pre-state only through `u`, `v`, `w`. -/
theorem calculate_vorticity_omg_congr (cfg : Config) (norm : ℚ → ℚ → ℚ → ℚ) (s t : State)
    (hu : t.u = s.u) (hv : t.v = s.v) (hw : t.w = s.w) (i j k : Int)
    (hI : Interior cfg i j k) :
    (calculate_vorticity cfg norm t).omg_x (ACC3D i j k cfg.Ny cfg.Nx) =
      (calculate_vorticity cfg norm s).omg_x (ACC3D i j k cfg.Ny cfg.Nx) ∧
    (calculate_vorticity cfg norm t).omg_y (ACC3D i j k cfg.Ny cfg.Nx) =
      (calculate_vorticity cfg norm s).omg_y (ACC3D i j k cfg.Ny cfg.Nx) ∧
    (calculate_vorticity cfg norm t).omg_z (ACC3D i j k cfg.Ny cfg.Nx) =
      (calculate_vorticity cfg norm s).omg_z (ACC3D i j k cfg.Ny cfg.Nx) := by
  have hI' := hI
  unfold Interior at hI'
  have g0 : InGrid cfg i j k := by unfold InGrid; omega
  have gxp : InGrid cfg (i + 1) j k := by unfold InGrid; omega
  have gxm : InGrid cfg (i - 1) j k := by unfold InGrid; omega
  have gyp : InGrid cfg i (j + 1) k := by unfold InGrid; omega
  have gym : InGrid cfg i (j - 1) k := by unfold InGrid; omega
  have gzp : InGrid cfg i j (k + 1) := by unfold InGrid; omega
  have gzm : InGrid cfg i j (k - 1) := by unfold InGrid; omega
  have avg_eq : ∀ a b c : Int, InGrid cfg a b c →
      (calculate_vorticity cfg norm t).avg_u (ACC3D a b c cfg.Ny cfg.Nx) =
        (calculate_vorticity cfg norm s).avg_u (ACC3D a b c cfg.Ny cfg.Nx) ∧
      (calculate_vorticity cfg norm t).avg_v (ACC3D a b c cfg.Ny cfg.Nx) =
        (calculate_vorticity cfg norm s).avg_v (ACC3D a b c cfg.Ny cfg.Nx) ∧
      (calculate_vorticity cfg norm t).avg_w (ACC3D a b c cfg.Ny cfg.Nx) =
        (calculate_vorticity cfg norm s).avg_w (ACC3D a b c cfg.Ny cfg.Nx) := by
    intro a b c hg
    obtain ⟨t1, t2, t3⟩ := calculate_vorticity_avg_at cfg norm t a b c hg
    obtain ⟨s1, s2, s3⟩ := calculate_vorticity_avg_at cfg norm s a b c hg
    rw [t1, t2, t3, s1, s2, s3, hu, hv, hw]
    exact ⟨rfl, rfl, rfl⟩
  obtain ⟨tx, ty, tz⟩ := calculate_vorticity_omg_at cfg norm t i j k g0
  obtain ⟨sx, sy, sz⟩ := calculate_vorticity_omg_at cfg norm s i j k g0
  rw [tx, ty, tz, sx, sy, sz, if_pos hI, if_pos hI, if_pos hI, if_pos hI, if_pos hI, if_pos hI,
    (avg_eq _ _ _ gxp).2.1, (avg_eq _ _ _ gxp).2.2, (avg_eq _ _ _ gxm).2.1,
    (avg_eq _ _ _ gxm).2.2, (avg_eq _ _ _ gyp).1, (avg_eq _ _ _ gyp).2.2, (avg_eq _ _ _ gym).1,
    (avg_eq _ _ _ gym).2.2, (avg_eq _ _ _ gzp).1, (avg_eq _ _ _ gzp).2.1, (avg_eq _ _ _ gzm).1,
    (avg_eq _ _ _ gzm).2.1]
  exact ⟨rfl, rfl, rfl⟩

/-- C18 as stated fails: `curlState` and `staleCurlState` agree on `u`, `v`, `w`, `fx`, `fy`,
`fz` (and on every other array) and differ only in `omg_x` at the boundary cell `(2, 1, 1)`
(flat index 14) of the 3 × 3 × 3 grid, 0 against 3; yet `calculate_vorticity` leaves
`fy = 0`, `vort = 0` at the centre cell `(1, 1, 1)` (flat index 13) for the first and
`fy = 1/10`, `vort = 1/10` for the second. -/
theorem calculate_vorticity_reads_boundary_omg :
    (curlState.u = staleCurlState.u ∧ curlState.v = staleCurlState.v ∧
      curlState.w = staleCurlState.w ∧ curlState.fx = staleCurlState.fx ∧
      curlState.fy = staleCurlState.fy ∧ curlState.fz = staleCurlState.fz ∧
      curlState.vort = staleCurlState.vort ∧ curlState.omg_y = staleCurlState.omg_y ∧
      curlState.omg_z = staleCurlState.omg_z) ∧
    (∀ n : Int, n ≠ 14 → curlState.omg_x n = staleCurlState.omg_x n) ∧
    (InGrid cfg3 2 1 1 ∧ ¬ Interior cfg3 2 1 1 ∧ ACC3D 2 1 1 cfg3.Ny cfg3.Nx = 14) ∧
    (calculate_vorticity cfg3 vecNorm curlState).fy (ACC3D 1 1 1 cfg3.Ny cfg3.Nx) = 0 ∧
    (calculate_vorticity cfg3 vecNorm staleCurlState).fy (ACC3D 1 1 1 cfg3.Ny cfg3.Nx) =
      1 / 10 ∧
    (calculate_vorticity cfg3 vecNorm curlState).vort (ACC3D 1 1 1 cfg3.Ny cfg3.Nx) = 0 ∧
    (calculate_vorticity cfg3 vecNorm staleCurlState).vort (ACC3D 1 1 1 cfg3.Ny cfg3.Nx) =
      1 / 10 := by
  have hidx : ∀ n : Int, n = ACC3D 1 1 1 cfg3.Ny cfg3.Nx ∨
      n = ACC3D (1 + 1) 1 1 cfg3.Ny cfg3.Nx ∨ n = ACC3D (1 - 1) 1 1 cfg3.Ny cfg3.Nx ∨
      n = ACC3D 1 (1 + 1) 1 cfg3.Ny cfg3.Nx ∨ n = ACC3D 1 (1 - 1) 1 cfg3.Ny cfg3.Nx ∨
      n = ACC3D 1 1 (1 + 1) cfg3.Ny cfg3.Nx ∨ n = ACC3D 1 1 (1 - 1) cfg3.Ny cfg3.Nx →
      n = 13 ∨ n = 14 ∨ n = 12 ∨ n = 16 ∨ n = 10 ∨ n = 22 ∨ n = 4 := by
    intro n hn
    have e0 : ACC3D 1 1 1 cfg3.Ny cfg3.Nx = 13 := by decide
    have e1 : ACC3D (1 + 1) 1 1 cfg3.Ny cfg3.Nx = 14 := by decide
    have e2 : ACC3D (1 - 1) 1 1 cfg3.Ny cfg3.Nx = 12 := by decide
    have e3 : ACC3D 1 (1 + 1) 1 cfg3.Ny cfg3.Nx = 16 := by decide
    have e4 : ACC3D 1 (1 - 1) 1 cfg3.Ny cfg3.Nx = 10 := by decide
    have e5 : ACC3D 1 1 (1 + 1) cfg3.Ny cfg3.Nx = 22 := by decide
    have e6 : ACC3D 1 1 (1 - 1) cfg3.Ny cfg3.Nx = 4 := by decide
    rw [e0, e1, e2, e3, e4, e5, e6] at hn
    exact hn
  have clean : confinement_force cfg3 vecNorm (calculate_vorticity cfg3 vecNorm curlState).omg_x
      (calculate_vorticity cfg3 vecNorm curlState).omg_y
      (calculate_vorticity cfg3 vecNorm curlState).omg_z 1 1 1 = (0, 0, 0) := by
    obtain ⟨c1, c2, c3, c4⟩ := curlState_omg curlState rfl rfl rfl
    rw [confinement_force_congr cfg3 vecNorm _ _ _ (fun _ => 0) (fun _ => 0)
      (fun n => if n = 13 then 1 else 0) 1 1 1 ?_]
    · simp only [confinement_force]
      norm_num [ACC3D, cfg3, vecNorm_zero, vecNorm_x, cross]
    · intro n hn
      rcases hidx n hn with rfl | hn'
      · exact ⟨c1, c2, c3⟩
      · obtain ⟨d1, d2, d3⟩ := c4 n hn'
        rw [d1, d2, d3]
        rcases hn' with rfl | rfl | rfl | rfl | rfl | rfl <;> exact ⟨rfl, rfl, rfl⟩
  have stale : confinement_force cfg3 vecNorm
      (calculate_vorticity cfg3 vecNorm staleCurlState).omg_x
      (calculate_vorticity cfg3 vecNorm staleCurlState).omg_y
      (calculate_vorticity cfg3 vecNorm staleCurlState).omg_z 1 1 1 = (0, 1 / 10, 0) := by
    obtain ⟨c1, c2, c3, c4⟩ := curlState_omg staleCurlState rfl rfl rfl
    rw [confinement_force_congr cfg3 vecNorm _ _ _ (fun n => if n = 14 then 3 else 0)
      (fun _ => 0) (fun n => if n = 13 then 1 else 0) 1 1 1 ?_]
    · simp only [confinement_force]
      norm_num [ACC3D, cfg3, vecNorm_zero, vecNorm_x, cross]
    · intro n hn
      rcases hidx n hn with rfl | hn'
      · exact ⟨c1, c2, c3⟩
      · obtain ⟨d1, d2, d3⟩ := c4 n hn'
        rw [d1, d2, d3]
        rcases hn' with rfl | rfl | rfl | rfl | rfl | rfl <;> exact ⟨rfl, rfl, rfl⟩
  obtain ⟨_, fy1, _, vo1⟩ := calculate_vorticity_force_at cfg3 vecNorm curlState 1 1 1
    (by decide)
  obtain ⟨_, fy2, _, vo2⟩ := calculate_vorticity_force_at cfg3 vecNorm staleCurlState 1 1 1
    (by decide)
  rw [if_pos (by decide), clean] at fy1 vo1
  rw [if_pos (by decide), stale] at fy2 vo2
  refine ⟨⟨rfl, rfl, rfl, rfl, rfl, rfl, rfl, rfl, rfl⟩, ?_, ⟨by decide, by decide, by decide⟩,
    fy1.trans ?_, fy2.trans ?_, vo1.trans ?_, vo2.trans ?_⟩
  · intro n hn
    simp only [curlState, staleCurlState, zeroState, if_neg hn]
  · norm_num [curlState, zeroState]
  · norm_num [staleCurlState, curlState, zeroState]
  · exact vecNorm_zero
  · exact vecNorm_y (1 / 10) (by norm_num)

/-- C18 (amended): the confinement force relies on boundary ω only at the interior cells next
to the boundary. For every two pre-states that agree on `u`, `v`, `w`, `fx`, `fy`, `fz` and
`vort`, whatever their `omg_x`, `omg_y`, `omg_z` hold, `calculate_vorticity` produces the same
`fx`, `fy`, `fz` and `vort` at every boundary cell of the grid and at every cell all of whose
six neighbours are interior (`2 ≤ i ≤ Nx−3`, `2 ≤ j ≤ Ny−3`, `2 ≤ k ≤ Nz−3`). -/
theorem calculate_vorticity_confinement_independent (cfg : Config) (norm : ℚ → ℚ → ℚ → ℚ)
    (s t : State) (hu : t.u = s.u) (hv : t.v = s.v) (hw : t.w = s.w) (hfx : t.fx = s.fx)
    (hfy : t.fy = s.fy) (hfz : t.fz = s.fz) (hvort : t.vort = s.vort) (i j k : Int)
    (h : InGrid cfg i j k)
    (hcell : ¬ Interior cfg i j k ∨
      ((2 ≤ i ∧ i ≤ cfg.Nx - 3) ∧ (2 ≤ j ∧ j ≤ cfg.Ny - 3) ∧ (2 ≤ k ∧ k ≤ cfg.Nz - 3))) :
    (calculate_vorticity cfg norm t).fx (ACC3D i j k cfg.Ny cfg.Nx) =
      (calculate_vorticity cfg norm s).fx (ACC3D i j k cfg.Ny cfg.Nx) ∧
    (calculate_vorticity cfg norm t).fy (ACC3D i j k cfg.Ny cfg.Nx) =
      (calculate_vorticity cfg norm s).fy (ACC3D i j k cfg.Ny cfg.Nx) ∧
    (calculate_vorticity cfg norm t).fz (ACC3D i j k cfg.Ny cfg.Nx) =
      (calculate_vorticity cfg norm s).fz (ACC3D i j k cfg.Ny cfg.Nx) ∧
    (calculate_vorticity cfg norm t).vort (ACC3D i j k cfg.Ny cfg.Nx) =
      (calculate_vorticity cfg norm s).vort (ACC3D i j k cfg.Ny cfg.Nx) := by
  obtain ⟨t1, t2, t3, t4⟩ := calculate_vorticity_force_at cfg norm t i j k h
  obtain ⟨s1, s2, s3, s4⟩ := calculate_vorticity_force_at cfg norm s i j k h
  rw [t1, t2, t3, t4, s1, s2, s3, s4, hfx, hfy, hfz, hvort]
  rcases hcell with hb | hd
  · rw [if_neg hb, if_neg hb, if_neg hb, if_neg hb, if_neg hb, if_neg hb, if_neg hb, if_neg hb]
    exact ⟨rfl, rfl, rfl, rfl⟩
  · have hcf : confinement_force cfg norm (calculate_vorticity cfg norm t).omg_x
        (calculate_vorticity cfg norm t).omg_y (calculate_vorticity cfg norm t).omg_z i j k =
        confinement_force cfg norm (calculate_vorticity cfg norm s).omg_x
          (calculate_vorticity cfg norm s).omg_y (calculate_vorticity cfg norm s).omg_z
          i j k := by
      refine confinement_force_congr cfg norm _ _ _ _ _ _ i j k ?_
      intro n hn
      rcases hn with rfl | rfl | rfl | rfl | rfl | rfl | rfl
      · exact calculate_vorticity_omg_congr cfg norm s t hu hv hw _ _ _
          (by unfold Interior; omega)
      · exact calculate_vorticity_omg_congr cfg norm s t hu hv hw _ _ _
          (by unfold Interior; omega)
      · exact calculate_vorticity_omg_congr cfg norm s t hu hv hw _ _ _
          (by unfold Interior; omega)
      · exact calculate_vorticity_omg_congr cfg norm s t hu hv hw _ _ _
          (by unfold Interior; omega)
      · exact calculate_vorticity_omg_congr cfg norm s t hu hv hw _ _ _
          (by unfold Interior; omega)
      · exact calculate_vorticity_omg_congr cfg norm s t hu hv hw _ _ _
          (by unfold Interior; omega)
      · exact calculate_vorticity_omg_congr cfg norm s t hu hv hw _ _ _
          (by unfold Interior; omega)
    rw [hcf]
    exact ⟨rfl, rfl, rfl, rfl⟩

/-- Witness for the amended C18: `curlState` and `staleCurlState` (stale `omg_x = 3` at flat
index 14) end with the same `fy` and `vort` at the boundary cell `(2, 1, 1)` of the
3 × 3 × 3 grid and at the cell `(2, 2, 2)` of the 5 × 5 × 5 grid, whose neighbours are all
interior. -/
theorem calculate_vorticity_confinement_independent_witness :
    ((calculate_vorticity cfg3 vecNorm staleCurlState).fy (ACC3D 2 1 1 cfg3.Ny cfg3.Nx) =
        (calculate_vorticity cfg3 vecNorm curlState).fy (ACC3D 2 1 1 cfg3.Ny cfg3.Nx) ∧
      (calculate_vorticity cfg3 vecNorm staleCurlState).vort (ACC3D 2 1 1 cfg3.Ny cfg3.Nx) =
        (calculate_vorticity cfg3 vecNorm curlState).vort (ACC3D 2 1 1 cfg3.Ny cfg3.Nx)) ∧
    ((calculate_vorticity cfg5 vecNorm staleCurlState).fy (ACC3D 2 2 2 cfg5.Ny cfg5.Nx) =
        (calculate_vorticity cfg5 vecNorm curlState).fy (ACC3D 2 2 2 cfg5.Ny cfg5.Nx) ∧
      (calculate_vorticity cfg5 vecNorm staleCurlState).vort (ACC3D 2 2 2 cfg5.Ny cfg5.Nx) =
        (calculate_vorticity cfg5 vecNorm curlState).vort (ACC3D 2 2 2 cfg5.Ny cfg5.Nx)) := by
  have e := calculate_vorticity_confinement_independent cfg3 vecNorm curlState staleCurlState
    rfl rfl rfl rfl rfl rfl rfl 2 1 1 (by decide) (Or.inl (by decide))
  have e5 := calculate_vorticity_confinement_independent cfg5 vecNorm curlState staleCurlState
    rfl rfl rfl rfl rfl rfl rfl 2 2 2 (by decide) (Or.inr (by decide))
  exact ⟨⟨e.2.1, e.2.2.2⟩, ⟨e5.2.1, e5.2.2.2⟩⟩

/-! ## No stage writes beyond the field bounds -/

/-- A loop whose every iteration leaves the entries at index `n` alone leaves them alone. -/
theorem forBox_entriesAt (cells : List (Int × Int × Int))
    (body : Int → Int → Int → State → State) (n : Int)
    (hbody : ∀ c ∈ cells, ∀ t, entriesAt (body c.1 c.2.1 c.2.2 t) n = entriesAt t n) :
    ∀ s, entriesAt (forBox cells body s) n = entriesAt s n := by
  unfold forBox
  induction cells with
  | nil => intro s; rfl
  | cons a l ih =>
    intro s
    rw [List.foldl_cons, ih (fun c hc => hbody c (List.mem_cons_of_mem _ hc)),
      hbody a (List.mem_cons_self _ _)]

/-- An index outside `[0, SIZE)` is not the flat index of a grid cell. -/
theorem ne_ACC3D_of_out (cfg : Config) (n : Int) (hn : ¬ (0 ≤ n ∧ n < SIZE cfg)) (i j k : Int)
    (h : InGrid cfg i j k) : ¬ n = ACC3D i j k cfg.Ny cfg.Nx := by
  intro e
  exact hn (e ▸ ACC3D_lt_SIZE cfg i j k h)

theorem calculate_external_force_entriesAt (cfg : Config) (s : State) (n : Int)
    (hn : ¬ (0 ≤ n ∧ n < SIZE cfg)) :
    entriesAt (calculate_external_force cfg s) n = entriesAt s n := by
  unfold calculate_external_force FOR_EACH_CELL
  refine forBox_entriesAt _ _ n ?_ s
  intro c hc t
  have h0 := ne_ACC3D_of_out cfg n hn _ _ _ (mem_gridCells.mp hc)
  simp only [entriesAt, Function.update_apply, h0, if_false]

theorem calculate_pressure_update_entriesAt (cfg : Config) (s : State) (n : Int)
    (hn : ¬ (0 ≤ n ∧ n < SIZE cfg)) :
    entriesAt (calculate_pressure_update cfg s) n = entriesAt s n := by
  unfold calculate_pressure_update FOR_EACH_CELL
  refine forBox_entriesAt _ _ n ?_ s
  intro c hc t
  have h0 := ne_ACC3D_of_out cfg n hn _ _ _ (mem_gridCells.mp hc)
  simp only [entriesAt, Function.update_apply, h0, if_false]

theorem fix_occupied_voxels_entriesAt (cfg : Config) (s : State) (n : Int)
    (hn : ¬ (0 ≤ n ∧ n < SIZE cfg)) :
    entriesAt (fix_occupied_voxels cfg s) n = entriesAt s n := by
  unfold fix_occupied_voxels FOR_EACH_CELL
  refine forBox_entriesAt _ _ n ?_ s
  intro c hc t
  have h0 := ne_ACC3D_of_out cfg n hn _ _ _ (mem_gridCells.mp hc)
  simp only
  split_ifs
  · simp only [entriesAt, Function.update_apply, h0, if_false]
  · rfl

/-- The `+1` targets of the guarded writes of `apply_external_force` and `apply_pressure` are
flat indices of grid cells. -/
theorem shifted_targets_ne (cfg : Config) (n : Int) (hn : ¬ (0 ≤ n ∧ n < SIZE cfg))
    (c : Int × Int × Int) (hc : c ∈ gridCells cfg) :
    (c.1 < cfg.Nx - 1 → ¬ n = ACC3D (c.1 + 1) c.2.1 c.2.2 cfg.Ny cfg.Nx) ∧
    (c.2.1 < cfg.Ny - 1 → ¬ n = ACC3D c.1 (c.2.1 + 1) c.2.2 cfg.Ny cfg.Nx) ∧
    (c.2.2 < cfg.Nz - 1 → ¬ n = ACC3D c.1 c.2.1 (c.2.2 + 1) cfg.Ny cfg.Nx) := by
  have hg := mem_gridCells.mp hc
  unfold InGrid at hg
  refine ⟨?_, ?_, ?_⟩
  · intro h
    exact ne_ACC3D_of_out cfg n hn _ _ _ (by unfold InGrid; omega)
  · intro h
    exact ne_ACC3D_of_out cfg n hn _ _ _ (by unfold InGrid; omega)
  · intro h
    exact ne_ACC3D_of_out cfg n hn _ _ _ (by unfold InGrid; omega)

theorem apply_external_force_entriesAt (cfg : Config) (s : State) (n : Int)
    (hn : ¬ (0 ≤ n ∧ n < SIZE cfg)) :
    entriesAt (apply_external_force cfg s) n = entriesAt s n := by
  unfold apply_external_force FOR_EACH_CELL
  refine forBox_entriesAt _ _ n ?_ s
  intro c hc t
  obtain ⟨hx, hy, hz⟩ := shifted_targets_ne cfg n hn c hc
  by_cases h1 : c.1 < cfg.Nx - 1 <;> by_cases h2 : c.2.1 < cfg.Ny - 1 <;>
    by_cases h3 : c.2.2 < cfg.Nz - 1 <;>
    simp [entriesAt, Function.update_apply, h1, h2, h3, hx, hy, hz]

theorem apply_pressure_entriesAt (cfg : Config) (s : State) (n : Int)
    (hn : ¬ (0 ≤ n ∧ n < SIZE cfg)) :
    entriesAt (apply_pressure cfg s) n = entriesAt s n := by
  unfold apply_pressure FOR_EACH_CELL
  refine forBox_entriesAt _ _ n ?_ s
  intro c hc t
  obtain ⟨hx, hy, hz⟩ := shifted_targets_ne cfg n hn c hc
  by_cases h1 : c.1 < cfg.Nx - 1 <;> by_cases h2 : c.2.1 < cfg.Ny - 1 <;>
    by_cases h3 : c.2.2 < cfg.Nz - 1 <;>
    simp [entriesAt, Function.update_apply, h1, h2, h3, hx, hy, hz]

theorem calculate_vorticity_entriesAt (cfg : Config) (norm : ℚ → ℚ → ℚ → ℚ) (s : State)
    (n : Int) (hn : ¬ (0 ≤ n ∧ n < SIZE cfg)) :
    entriesAt (calculate_vorticity cfg norm s) n = entriesAt s n := by
  have ha : ∀ t, entriesAt (calculate_vorticity_avg cfg t) n = entriesAt t n := by
    intro t
    unfold calculate_vorticity_avg FOR_EACH_CELL
    refine forBox_entriesAt _ _ n ?_ t
    intro c hc t'
    have h0 := ne_ACC3D_of_out cfg n hn _ _ _ (mem_gridCells.mp hc)
    simp only [entriesAt, Function.update_apply, h0, if_false]
  have hb : ∀ t, entriesAt (calculate_vorticity_curl cfg t) n = entriesAt t n := by
    intro t
    unfold calculate_vorticity_curl FOR_EACH_CELL
    refine forBox_entriesAt _ _ n ?_ t
    intro c hc t'
    have h0 := ne_ACC3D_of_out cfg n hn _ _ _ (mem_gridCells.mp hc)
    simp only
    split_ifs
    · rfl
    · rfl
    · simp only [entriesAt, Function.update_apply, h0, if_false]
  have hc : ∀ t, entriesAt (calculate_vorticity_confinement cfg norm t) n = entriesAt t n := by
    intro t
    unfold calculate_vorticity_confinement FOR_EACH_CELL
    refine forBox_entriesAt _ _ n ?_ t
    intro c hc t'
    have h0 := ne_ACC3D_of_out cfg n hn _ _ _ (mem_gridCells.mp hc)
    simp only
    split_ifs
    · rfl
    · rfl
    · simp only [entriesAt, Function.update_apply, h0, if_false]
  unfold calculate_vorticity
  rw [hc, hb, ha]

/-- C14: for all grid sizes `Nx, Ny, Nz ≥ 2`, no entry outside the field bounds is written by
the stencil stages: for every pre-state and every flat index `n` that does not satisfy
`0 ≤ n < Nx·Ny·Nz`, each of the 24 field arrays holds at `n` the same value after
`calculate_external_force`, `calculate_vorticity`, `apply_external_force`, the pressure update
of `calculate_pressure`, `apply_pressure` and `fix_occupied_voxels` as before; so every flat
index these stages write to satisfies `0 ≤ idx < Nx·Ny·Nz`. -/
theorem stencil_writes_in_bounds (cfg : Config) (norm : ℚ → ℚ → ℚ → ℚ) (s : State)
    (hN : 2 ≤ cfg.Nx ∧ 2 ≤ cfg.Ny ∧ 2 ≤ cfg.Nz) (n : Int)
    (hn : ¬ (0 ≤ n ∧ n < cfg.Nx * cfg.Ny * cfg.Nz)) :
    entriesAt (calculate_external_force cfg s) n = entriesAt s n ∧
    entriesAt (calculate_vorticity cfg norm s) n = entriesAt s n ∧
    entriesAt (apply_external_force cfg s) n = entriesAt s n ∧
    entriesAt (calculate_pressure_update cfg s) n = entriesAt s n ∧
    entriesAt (apply_pressure cfg s) n = entriesAt s n ∧
    entriesAt (fix_occupied_voxels cfg s) n = entriesAt s n := by
  have _ := hN
  have hn' : ¬ (0 ≤ n ∧ n < SIZE cfg) := hn
  exact ⟨calculate_external_force_entriesAt cfg s n hn',
    calculate_vorticity_entriesAt cfg norm s n hn', apply_external_force_entriesAt cfg s n hn',
    calculate_pressure_update_entriesAt cfg s n hn', apply_pressure_entriesAt cfg s n hn',
    fix_occupied_voxels_entriesAt cfg s n hn'⟩

/-- Witness for C14 on the 3 × 3 × 3 grid at the first index past the arrays, `n = 27`: the
entries of `rampState` there (`u = 54`, `v = 28`, `w = 5`, `pressure = 270`, the rest 0) are
those found after `apply_pressure` and after `calculate_vorticity`. -/
theorem stencil_writes_in_bounds_witness :
    entriesAt (apply_pressure cfg3 rampState) 27 = entriesAt rampState 27 ∧
    entriesAt (calculate_vorticity cfg3 vecNorm rampState) 27 = entriesAt rampState 27 ∧
    rampState.u 27 = 54 ∧ rampState.pressure 27 = 270 := by
  have e := stencil_writes_in_bounds cfg3 vecNorm rampState (by decide) 27 (by decide)
  refine ⟨e.2.2.2.2.1, e.2.1, ?_, ?_⟩
  · norm_num [rampState]
  · norm_num [rampState]

/-! ## Bounds of the reads of `u`, `v`, `w` -/

/-- A checked loop fails when it visits a cell whose body fails in every state. -/
theorem foldlM_none_of_mem {σ α : Type} (f : σ → α → Option σ) (c : α)
    (hc : ∀ t, f t c = none) : ∀ (l : List α), c ∈ l → ∀ s, l.foldlM f s = none := by
  intro l
  induction l with
  | nil => intro h; cases h
  | cons a t ih =>
    intro h s
    rw [List.foldlM_cons]
    rcases List.mem_cons.mp h with rfl | ht
    · rw [hc s]
      rfl
    · cases hfa : f s a with
      | none => rfl
      | some s' => exact ih ht s'

/-- The read `w(i, j, k+1)` at a cell of the last `k` layer is out of range. -/
theorem readChecked_above (cfg : Config) (f : Field) (i j : Int)
    (h : InGrid cfg i j (cfg.Nz - 1)) :
    readChecked cfg f (ACC3D i j (cfg.Nz - 1 + 1) cfg.Ny cfg.Nx) = none := by
  unfold InGrid at h
  obtain ⟨h1, h2, h3, h4, h5, h6⟩ := h
  unfold readChecked
  rw [if_neg]
  intro hr
  have hlt := hr.2
  unfold ACC3D SIZE at hlt
  have e : cfg.Nz - 1 + 1 = cfg.Nz := by ring
  rw [e] at hlt
  have hNx : 0 ≤ cfg.Nx := by omega
  have : 0 ≤ j * cfg.Nx := mul_nonneg h3 hNx
  nlinarith

/-- On every grid with at least one cell the checked "Build b" loop and the checked averaging
loop reach an out-of-range read. -/
theorem checked_reads_fail (cfg : Config) (hN : 1 ≤ cfg.Nx ∧ 1 ≤ cfg.Ny ∧ 1 ≤ cfg.Nz)
    (s : State) :
    calculate_pressure_build_b_checked cfg s = none ∧
      calculate_vorticity_avg_checked cfg s = none := by
  have hg : InGrid cfg 0 0 (cfg.Nz - 1) := by unfold InGrid; omega
  have hmem : ((0 : Int), (0 : Int), cfg.Nz - 1) ∈ gridCells cfg := mem_gridCells.mpr hg
  constructor
  · unfold calculate_pressure_build_b_checked
    refine foldlM_none_of_mem _ ((0 : Int), (0 : Int), cfg.Nz - 1) ?_ _ hmem _
    intro t
    simp only [build_b_cell_checked, readChecked_above cfg _ 0 0 hg]
    cases readChecked cfg t.w (ACC3D 0 0 (cfg.Nz - 1) cfg.Ny cfg.Nx) <;>
      cases readChecked cfg t.v (ACC3D 0 0 (cfg.Nz - 1) cfg.Ny cfg.Nx) <;>
      cases readChecked cfg t.u (ACC3D 0 0 (cfg.Nz - 1) cfg.Ny cfg.Nx) <;>
      cases readChecked cfg t.u (ACC3D (0 + 1) 0 (cfg.Nz - 1) cfg.Ny cfg.Nx) <;>
      cases readChecked cfg t.v (ACC3D 0 (0 + 1) (cfg.Nz - 1) cfg.Ny cfg.Nx) <;> rfl
  · unfold calculate_vorticity_avg_checked
    refine foldlM_none_of_mem _ ((0 : Int), (0 : Int), cfg.Nz - 1) ?_ _ hmem _
    intro t
    simp only [calculate_vorticity_avg_cell_checked, readChecked_above cfg _ 0 0 hg]
    cases readChecked cfg t.u (ACC3D 0 0 (cfg.Nz - 1) cfg.Ny cfg.Nx) <;>
      cases readChecked cfg t.u (ACC3D (0 + 1) 0 (cfg.Nz - 1) cfg.Ny cfg.Nx) <;>
      cases readChecked cfg t.v (ACC3D 0 0 (cfg.Nz - 1) cfg.Ny cfg.Nx) <;>
      cases readChecked cfg t.v (ACC3D 0 (0 + 1) (cfg.Nz - 1) cfg.Ny cfg.Nx) <;>
      cases readChecked cfg t.w (ACC3D 0 0 (cfg.Nz - 1) cfg.Ny cfg.Nx) <;> rfl

/-- C20 (the code departs from the claim): on the 3 × 3 × 3 grid the cell `(0, 0, 2)` is
visited and its read `w(0, 0, 3)` has flat index `27 = Nx·Ny·Nz`, which is not below
`Nx·Ny·Nz`; the bounds-checked embeddings of the right-hand-side assembly of
`calculate_pressure` and of the averaging loop of `calculate_vorticity` both take their
out-of-range branch. -/
theorem field_reads_out_of_range :
    InGrid cfg3 0 0 2 ∧ ACC3D 0 0 (2 + 1) cfg3.Ny cfg3.Nx = 27 ∧
    cfg3.Nx * cfg3.Ny * cfg3.Nz = 27 ∧
    readChecked cfg3 rampState.w (ACC3D 0 0 (2 + 1) cfg3.Ny cfg3.Nx) = none ∧
    calculate_pressure_build_b_checked cfg3 rampState = none ∧
    calculate_vorticity_avg_checked cfg3 rampState = none :=
  ⟨by decide, by decide, by decide, readChecked_above cfg3 rampState.w 0 0 (by decide),
    (checked_reads_fail cfg3 (by decide) rampState).1,
    (checked_reads_fail cfg3 (by decide) rampState).2⟩

end SmokeSim
